import Mathlib

/-! AlgoCamper Bootcamp API: handlers, access control, derived fields and the error pipeline.

A shallow embedding of the Express handlers and middlewares of the repository
(`controllers/`, `middlewares/`, `routes/`, `models/`) over an explicit store.

* A request handler is a function of the request and the store; it returns the
  (possibly mutated) request, the store it leaves behind and the calls it made
  on `next` / `res.json`.
* The document store (Mongoose models) is a record of lists of documents.  What
  the library decides outside the paths embedded here (validators of other
  schema paths, unique indexes on them, hooks calling the geocoder, which
  strings are ObjectIds, which tokens verify) is read from an `Env` record, so
  every theorem quantifies over all behaviours of these collaborators.
-/

namespace AlgoCamper

/-! ## Errors and responses -/

/-- A JavaScript error object, with the properties that the handlers and
`errorHandlerMiddleware` read. -/
structure Err where
  name : String
  message : String
  statusCode : Option Nat := none
  code : Option Nat := none
  keyValue : List (String × String) := []
  errors : List (String × String) := []
  deriving DecidableEq, Repr

/-- Modelled from the spec: `utils/errorResponseAPI.js` is not among the
sources.  It is the error class built as `new ErrorResponseAPI(message, statusCode)`
by every handler: an `Error` that carries its message and the HTTP status of the
taxonomy (`BadRequest` 400, `Unauthorized` 401, `Forbidden` 403, `NotFound` 404). -/
def ErrorResponseAPI (message : String) (statusCode : Nat) : Err :=
  { name := "Error", message := message, statusCode := some statusCode }

/-- The `TypeError` raised by reading a property of `null` / `undefined`. -/
def TypeError (message : String) : Err :=
  { name := "TypeError", message := message }

/-- Mongoose `CastError`: a value that is no ObjectId was given for an ObjectId path. -/
def CastError (value path : String) : Err :=
  { name := "CastError",
    message := "Cast to ObjectId failed for value " ++ value ++ " at path " ++ path }

/-- Mongoose `ValidationError`: `errors` maps each failing path to its validator message. -/
def ValidationError (errors : List (String × String)) : Err :=
  { name := "ValidationError",
    message := "Validation failed: " ++ ", ".intercalate (errors.map fun e => e.1 ++ ": " ++ e.2),
    errors := errors }

/-- MongoDB duplicate key error (code 11000) raised by a unique index. -/
def DuplicateKeyError (keyValue : List (String × String)) : Err :=
  { name := "MongoServerError", message := "E11000 duplicate key error",
    code := some 11000, keyValue := keyValue }

/-- JavaScript `String.prototype.includes`. -/
def includes (s sub : String) : Bool :=
  decide (sub.toList <:+: s.toList)

/-! ## Documents -/

/-- A document of the `User` model, as `protect` puts it on `req.user`.  The
path `password` has `select: false`: it is no part of the documents that
queries return and is kept in `Store.passwords`. -/
structure User where
  id : String
  role : String
  name : String := ""
  email : String := ""
  resetPasswordToken : Option String := none
  resetPasswordExpire : Option Nat := none
  deriving DecidableEq, Repr

/-- A document of the `Bootcamp` model (`id` is `_id`, `user` the owner reference). -/
structure Bootcamp where
  id : String
  user : String
  photo : String := "no-photo.jpg"
  averageCost : Option ℚ := none
  averageRating : Option ℚ := none
  deriving DecidableEq, Repr

/-- A document of the `Course` model. -/
structure Course where
  id : String
  bootcamp : String
  user : String
  tuition : ℚ
  deriving DecidableEq, Repr

/-- A document of the `Review` model. -/
structure Review where
  id : String
  bootcamp : String
  user : String
  rating : ℚ
  deriving DecidableEq, Repr

/-- The database: one list of documents per Mongoose model, and the stored
`password` path of the users (user `_id`, hash), which only
`.select("+password")` reads. -/
structure Store where
  users : List User := []
  bootcamps : List Bootcamp := []
  courses : List Course := []
  reviews : List Review := []
  passwords : List (String × String) := []
  deriving DecidableEq, Repr

/-- The parsed JSON body `req.body`: the schema paths the handlers and hooks
touch, each present or absent, and the remaining paths uninterpreted. -/
structure Body where
  user : Option String := none
  bootcamp : Option String := none
  tuition : Option ℚ := none
  rating : Option ℚ := none
  photo : Option String := none
  averageCost : Option ℚ := none
  averageRating : Option ℚ := none
  other : List (String × String) := []
  deriving DecidableEq, Repr

/-- The payload under `data` in a response body. -/
inductive Data where
  | bootcamp (doc : Bootcamp)
  | course (doc : Course)
  | review (doc : Review)
  | null
  | empty
  | str (s : String)
  | user (doc : User)
  | bootcamps (docs : List Bootcamp)
  | courses (docs : List Course)
  | reviews (docs : List Review)
  | users (docs : List User)
  deriving DecidableEq, Repr

/-- A page reference `{ page, limit }` of the pagination object. -/
structure PageRef where
  page : Int
  limit : Int
  deriving DecidableEq, Repr

/-- The object `pagination` of `advancedResults`. -/
structure Pagination where
  next : Option PageRef := none
  prev : Option PageRef := none
  deriving DecidableEq, Repr

/-- The JSON body of a response: each field present or absent. -/
structure ResBody where
  success : Bool
  data : Option Data := none
  error : Option String := none
  count : Option Nat := none
  pagination : Option Pagination := none
  token : Option String := none
  deriving DecidableEq, Repr

/-- What a middleware does with its continuation and the response: `next()`,
`next(err)`, `res.status(status).json(body)`, `res.cookie(name, value, options)`,
or `res.status(status).json(undefined)`, a response with an empty body. -/
inductive Signal where
  | next
  | nextErr (err : Err)
  | json (status : Nat) (body : ResBody)
  | cookie (name value : String)
  | send (status : Nat)
  deriving DecidableEq, Repr

/-! ## Requests and the environment -/

/-- Route parameters `req.params`. -/
structure Params where
  id : String := ""
  bootcampId : String := ""
  token : String := ""
  zipcode : String := ""
  distance : String := ""
  deriving DecidableEq, Repr

/-- A value of the parsed query string `req.query`: a string (`?page=2`) or an
object of strings (`?averageCost[lte]=10000`). -/
inductive QueryValue where
  | str (value : String)
  | obj (fields : List (String × String))
  deriving DecidableEq, Repr

/-- An uploaded file of `express-fileupload`. -/
structure UploadedFile where
  name : String
  mimetype : String
  size : Nat
  deriving DecidableEq, Repr

/-- The object `req.files`. -/
structure Files where
  image : Option UploadedFile := none
  deriving DecidableEq, Repr

/-- The Express request, with the parts the handlers read or write.  The field
`advancedResults` stands for `res.advancedResults`, which one middleware of a
route leaves for the next. -/
structure Req where
  authorization : Option String := none
  params : Params := {}
  body : Body := {}
  user : Option User := none
  files : Option Files := none
  query : List (String × QueryValue) := []
  protocol : String := "http"
  host : String := "localhost:5000"
  advancedResults : Option ResBody := none
  deriving DecidableEq, Repr

/-- A failure of a write that is decided outside the embedded paths. -/
inductive WriteFailure where
  | duplicateKey (keyValue : List (String × String))
  | thrown (name message : String)
  deriving DecidableEq, Repr

/-- The collaborators: what Mongoose, MongoDB, `jsonwebtoken`, the file system
and the process environment decide. -/
structure Env where
  /-- Whether Mongoose casts the string to an ObjectId. -/
  isObjectId : String → Bool
  /-- The `_id` given to a document created in this store. -/
  newObjectId : Store → String
  /-- Validator messages (path, message) for the schema paths under `Body.other`. -/
  validate : String → Store → Body → List (String × String)
  /-- Failure of a write on the paths under `Body.other`: a unique index, or a
  pre-save hook that throws (the geocoder). -/
  writeFails : String → Store → Body → Option WriteFailure
  /-- Result of `jwt.verify(token, JWT_SECRET)`: the decoded user id, or `none` when it throws. -/
  jwtVerify : String → Option String
  /-- Value of `MAX_IMAGE_SIZE`, when it is a number. -/
  maxImageSize : Option Nat
  /-- Value of `FILE_UPLOAD_PATH`. -/
  fileUploadPath : String
  /-- Extension of a file name, as `path.parse(name).ext`. -/
  ext : String → String
  /-- Whether `file.mv(path, cb)` succeeds. -/
  mv : String → Bool
  /-- The `pre("remove")` hooks of courses and reviews call the recomputation
  without awaiting it, so its aggregation races with the delete: whether the
  database serves the aggregation before the delete. -/
  aggregateBeforeDelete : Bool
  /-- The error with which the query `Model.aggregate(pipeline)` of the named
  model rejects (the database cannot be reached, say), if it does. -/
  aggregateFails : String → Store → String → Option Err
  /-- The token that `jwt.sign` gives for a user id with `JWT_SECRET` and `JWT_EXPIRES_IN`. -/
  jwtSign : String → String
  /-- The salt drawn by `bcrypt.genSalt(12)`. -/
  genSalt : Store → String
  /-- The hash `bcrypt.hash(password, salt)`. -/
  bcryptHash : String → String → String
  /-- The verdict `bcrypt.compare(candidate, hash)`. -/
  bcryptCompare : String → String → Bool
  /-- The hex digest `crypto.createHash("sha256").update(value).digest("hex")`. -/
  sha256 : String → String
  /-- The hex string `crypto.randomBytes(20).toString("hex")`. -/
  randomBytes : Store → String
  /-- The clock `Date.now()`, in milliseconds. -/
  now : Nat
  /-- The validator `validator.isEmail`. -/
  isEmail : String → Bool
  /-- The error with which `sendEmail` rejects for an address and a text, if it does. -/
  sendEmail : String → String → Option Err
  /-- The result of `geocoder.geocode(zipcode)`: pairs (latitude, longitude). -/
  geocode : String → Except Err (List (ℚ × ℚ))
  /-- The number that JavaScript reads from a string, `none` for `NaN`. -/
  toNumber : String → Option ℚ
  /-- The query `Bootcamp.find` with `$geoWithin` and `$centerSphere` for a
  longitude, a latitude and a radius (`none` for `NaN`): the `_id`s found. -/
  geoWithin : ℚ → ℚ → Option ℚ → Store → Except Err (List String)
  /-- The query `Model.find(JSON.parse(queryStr)).sort(sortBy)` of the named
  model for a filter given as JSON text: the `_id`s of the matching documents in
  order, or the error with which the query rejects. -/
  find : String → String → String → Store → Except Err (List String)

/-- The error thrown for a write failure. -/
def WriteFailure.toErr : WriteFailure → Err
  | .duplicateKey keyValue => DuplicateKeyError keyValue
  | .thrown name message => { name := name, message := message }

/-! ## The Mongoose models

Every operation takes the store and returns `Except Err _`: `.error` is a
rejected promise (an exception at the `await`). -/

/-- Replace the first element that satisfies `p` (an update touches one document). -/
def replaceFirst {α : Type} (p : α → Bool) (f : α → α) : List α → List α
  | [] => []
  | a :: as => if p a then f a :: as else a :: replaceFirst p f as

/-- Validation of a required ObjectId path when a document is created. -/
def objectIdPath (env : Env) (path : String) (value : Option String) : List (String × String) :=
  match value with
  | none => [(path, "Path " ++ path ++ " is required.")]
  | some v =>
    if env.isObjectId v then []
    else [(path, "Cast to ObjectId failed for value " ++ v ++ " at path " ++ path)]

/-- Cast of an ObjectId path of an update: the first value that is no ObjectId. -/
def castUpdate (env : Env) (path : String) (value : Option String) : Option Err :=
  match value with
  | none => none
  | some v => if env.isObjectId v then none else some (CastError v path)

/-- The `min` / `max` validators of `averageRating` (bootcamp schema). -/
def averageRatingPath (value : Option ℚ) : List (String × String) :=
  match value with
  | none => []
  | some r =>
    if r < 1 then [("averageRating", "Rating must be at least 1")]
    else if r > 10 then [("averageRating", "Rating cannot be more than 10")]
    else []

/-- The `min: 1` / `max: 10` validators of `rating` (review schema). -/
def ratingRange (value : Option ℚ) : List (String × String) :=
  match value with
  | none => []
  | some r =>
    if r < 1 then [("rating", "Path rating is less than minimum allowed value (1).")]
    else if r > 10 then [("rating", "Path rating is more than maximum allowed value (10).")]
    else []

/-- The `required` validator of a number path. -/
def requiredPath (path message : String) (value : Option ℚ) : List (String × String) :=
  match value with
  | none => [(path, message)]
  | some _ => []

/-- The query `User.findById(id)`. -/
def User.findById (env : Env) (s : Store) (id : String) : Except Err (Option User) :=
  if env.isObjectId id then .ok (s.users.find? fun u => u.id == id)
  else .error (CastError id "_id")

/-- The query `Bootcamp.findById(id)`. -/
def Bootcamp.findById (env : Env) (s : Store) (id : String) : Except Err (Option Bootcamp) :=
  if env.isObjectId id then .ok (s.bootcamps.find? fun b => b.id == id)
  else .error (CastError id "_id")

/-- The query `Bootcamp.findOne({ user })`. -/
def Bootcamp.findOne (env : Env) (s : Store) (user : String) : Except Err (Option Bootcamp) :=
  if env.isObjectId user then .ok (s.bootcamps.find? fun b => b.user == user)
  else .error (CastError user "user")

/-- The call `Bootcamp.create(body)`: validation, the pre-save hooks (slug, geocoder), insertion. -/
def Bootcamp.create (env : Env) (s : Store) (body : Body) : Except Err (Store × Bootcamp) :=
  let errors := averageRatingPath body.averageRating ++ objectIdPath env "user" body.user
    ++ env.validate "Bootcamp" s body
  match errors, body.user with
  | [], some user =>
    match env.writeFails "Bootcamp" s body with
    | some failure => .error failure.toErr
    | none =>
      let doc : Bootcamp :=
        { id := env.newObjectId s, user := user, photo := body.photo.getD "no-photo.jpg",
          averageCost := body.averageCost, averageRating := body.averageRating }
      .ok ({ s with bootcamps := s.bootcamps ++ [doc] }, doc)
  | _, _ => .error (ValidationError errors)

/-- The paths of `body` written over a bootcamp document. -/
def Bootcamp.applyUpdate (doc : Bootcamp) (body : Body) : Bootcamp :=
  { doc with
    user := body.user.getD doc.user
    photo := body.photo.getD doc.photo
    averageCost := body.averageCost.orElse fun _ => doc.averageCost
    averageRating := body.averageRating.orElse fun _ => doc.averageRating }

/-- The call `Bootcamp.findByIdAndUpdate(id, body, { new: true, runValidators })`:
it returns the updated document, or `null` when no document has the id. -/
def Bootcamp.findByIdAndUpdate (env : Env) (s : Store) (id : String) (body : Body)
    (runValidators : Bool) : Except Err (Store × Option Bootcamp) :=
  if !env.isObjectId id then .error (CastError id "_id")
  else
    match castUpdate env "user" body.user with
    | some err => .error err
    | none =>
      let errors :=
        if runValidators then averageRatingPath body.averageRating ++ env.validate "Bootcamp" s body
        else []
      if !errors.isEmpty then .error (ValidationError errors)
      else
        match env.writeFails "Bootcamp" s body with
        | some failure => .error failure.toErr
        | none =>
          match s.bootcamps.find? fun b => b.id == id with
          | none => .ok (s, none)
          | some doc =>
            .ok ({ s with bootcamps :=
                    replaceFirst (fun b => b.id == id) (fun b => Bootcamp.applyUpdate b body) s.bootcamps },
                 some (Bootcamp.applyUpdate doc body))

/-- The call `bootcamp.remove()`: the `pre("remove")` hook deletes the courses of
the bootcamp (`deleteMany({ bootcamp: this._id })`), then the document is deleted. -/
def Bootcamp.remove (s : Store) (doc : Bootcamp) : Store :=
  { s with
    courses := s.courses.filter fun c => c.bootcamp != doc.id
    bootcamps := s.bootcamps.eraseP fun b => b.id == doc.id }

/-- The aggregation pipeline of `getAverageCost`: `$match` on the bootcamp, `$group`
with `$avg` of `tuition`.  `none` is the empty result array. -/
def Course.aggregate (s : Store) (bootcampId : String) : Option ℚ :=
  let tuitions := (s.courses.filter fun c => c.bootcamp == bootcampId).map fun c => c.tuition
  if tuitions.isEmpty then none else some (tuitions.sum / tuitions.length)

/-- The static `getAverageCost(bootcampId)`, an async function: the store it
leaves and how its promise settles.  The aggregate is awaited before the `try`
block, so its rejection rejects the promise.  Inside `try` comes the update of
the bootcamp with `Math.ceil(avg / 10) * 10`; what the `try` block throws (also
reading `statsObject[0]` of an empty result) is caught and logged. -/
def Course.getAverageCost (env : Env) (s : Store) (bootcampId : String) :
    Store × Except Err Unit :=
  match env.aggregateFails "Course" s bootcampId with
  | some err => (s, .error err)
  | none =>
    match Course.aggregate s bootcampId with
    | none => (s, .ok ())
    | some averageCost =>
      match Bootcamp.findByIdAndUpdate env s bootcampId
          { averageCost := some ((⌈averageCost / 10⌉ * 10 : ℤ) : ℚ) } false with
      | .ok (s', _) => (s', .ok ())
      | .error _ => (s, .ok ())

/-- The query `Course.findById(id)`. -/
def Course.findById (env : Env) (s : Store) (id : String) : Except Err (Option Course) :=
  if env.isObjectId id then .ok (s.courses.find? fun c => c.id == id)
  else .error (CastError id "_id")

/-- The part of `Course.create(body)` that its promise waits for: validation
and insertion.  This is the database when the promise resolves. -/
def Course.insert (env : Env) (s : Store) (body : Body) : Except Err (Store × Course) :=
  let errors := requiredPath "tuition" "Please add the tuition cost" body.tuition
    ++ objectIdPath env "bootcamp" body.bootcamp ++ objectIdPath env "user" body.user
    ++ env.validate "Course" s body
  match errors, body.bootcamp, body.user, body.tuition with
  | [], some bootcamp, some user, some tuition =>
    match env.writeFails "Course" s body with
    | some failure => .error failure.toErr
    | none =>
      let doc : Course :=
        { id := env.newObjectId s, bootcamp := bootcamp, user := user, tuition := tuition }
      .ok ({ s with courses := s.courses ++ [doc] }, doc)
  | _, _, _, _ => .error (ValidationError errors)

/-- The call `Course.create(body)` with the store it leaves once everything it
started has settled: the `post("save")` hook calls `getAverageCost` on the
saved course; it neither awaits nor returns the promise, so a rejection of it
does not reach the caller. -/
def Course.create (env : Env) (s : Store) (body : Body) : Except Err (Store × Course) :=
  match Course.insert env s body with
  | .error err => .error err
  | .ok (s1, doc) => .ok ((Course.getAverageCost env s1 doc.bootcamp).1, doc)

/-- The paths of `body` written over a course document. -/
def Course.applyUpdate (doc : Course) (body : Body) : Course :=
  { doc with
    bootcamp := body.bootcamp.getD doc.bootcamp
    user := body.user.getD doc.user
    tuition := body.tuition.getD doc.tuition }

/-- The call `Course.findByIdAndUpdate(id, body, { new: true, runValidators: true })`.
No save hook runs. -/
def Course.findByIdAndUpdate (env : Env) (s : Store) (id : String) (body : Body) :
    Except Err (Store × Option Course) :=
  if !env.isObjectId id then .error (CastError id "_id")
  else
    match castUpdate env "bootcamp" body.bootcamp, castUpdate env "user" body.user with
    | some err, _ => .error err
    | none, some err => .error err
    | none, none =>
      let errors := env.validate "Course" s body
      if !errors.isEmpty then .error (ValidationError errors)
      else
        match env.writeFails "Course" s body with
        | some failure => .error failure.toErr
        | none =>
          match s.courses.find? fun c => c.id == id with
          | none => .ok (s, none)
          | some doc =>
            .ok ({ s with courses :=
                    replaceFirst (fun c => c.id == id) (fun c => Course.applyUpdate c body) s.courses },
                 some (Course.applyUpdate doc body))

/-- The call `course.remove()`: the `pre("remove")` hook starts `getAverageCost`
and does not wait for it, then the document is deleted.  The aggregation reads
the collection with the course still in it when the database serves it before
the delete, and without the course otherwise. -/
def Course.remove (env : Env) (s : Store) (doc : Course) : Store :=
  if env.aggregateBeforeDelete then
    let s1 := (Course.getAverageCost env s doc.bootcamp).1
    { s1 with courses := s1.courses.eraseP fun c => c.id == doc.id }
  else
    (Course.getAverageCost env
      { s with courses := s.courses.eraseP fun c => c.id == doc.id } doc.bootcamp).1

/-- The aggregation pipeline of `getAverageRating`. -/
def Review.aggregate (s : Store) (bootcampId : String) : Option ℚ :=
  let ratings := (s.reviews.filter fun r => r.bootcamp == bootcampId).map fun r => r.rating
  if ratings.isEmpty then none else some (ratings.sum / ratings.length)

/-- The static `getAverageRating(bootcampId)`, an async function built like
`getAverageCost`; the average is stored as it is. -/
def Review.getAverageRating (env : Env) (s : Store) (bootcampId : String) :
    Store × Except Err Unit :=
  match env.aggregateFails "Review" s bootcampId with
  | some err => (s, .error err)
  | none =>
    match Review.aggregate s bootcampId with
    | none => (s, .ok ())
    | some averageRating =>
      match Bootcamp.findByIdAndUpdate env s bootcampId
          { averageRating := some averageRating } false with
      | .ok (s', _) => (s', .ok ())
      | .error _ => (s, .ok ())

/-- The query `Review.findById(id)`. -/
def Review.findById (env : Env) (s : Store) (id : String) : Except Err (Option Review) :=
  if env.isObjectId id then .ok (s.reviews.find? fun r => r.id == id)
  else .error (CastError id "_id")

/-- The part of `Review.create(body)` that its promise waits for: validation,
the unique index on `(bootcamp, user)`, insertion. -/
def Review.insert (env : Env) (s : Store) (body : Body) : Except Err (Store × Review) :=
  let errors := requiredPath "rating" "Please add a rating between 1 and 10" body.rating
    ++ ratingRange body.rating
    ++ objectIdPath env "bootcamp" body.bootcamp ++ objectIdPath env "user" body.user
    ++ env.validate "Review" s body
  match errors, body.bootcamp, body.user, body.rating with
  | [], some bootcamp, some user, some rating =>
    if s.reviews.any fun r => r.bootcamp == bootcamp && r.user == user then
      .error (DuplicateKeyError [("bootcamp", bootcamp), ("user", user)])
    else
      match env.writeFails "Review" s body with
      | some failure => .error failure.toErr
      | none =>
        let doc : Review :=
          { id := env.newObjectId s, bootcamp := bootcamp, user := user, rating := rating }
        .ok ({ s with reviews := s.reviews ++ [doc] }, doc)
  | _, _, _, _ => .error (ValidationError errors)

/-- The call `Review.create(body)` with the store it leaves once everything it
started has settled: the `post("save")` hook calls `getAverageRating` without
awaiting or returning its promise. -/
def Review.create (env : Env) (s : Store) (body : Body) : Except Err (Store × Review) :=
  match Review.insert env s body with
  | .error err => .error err
  | .ok (s1, doc) => .ok ((Review.getAverageRating env s1 doc.bootcamp).1, doc)

/-- The paths of `body` written over a review document. -/
def Review.applyUpdate (doc : Review) (body : Body) : Review :=
  { doc with
    bootcamp := body.bootcamp.getD doc.bootcamp
    user := body.user.getD doc.user
    rating := body.rating.getD doc.rating }

/-- The call `Review.findByIdAndUpdate(id, body, { new: true, runValidators: true })`.
No save hook runs. -/
def Review.findByIdAndUpdate (env : Env) (s : Store) (id : String) (body : Body) :
    Except Err (Store × Option Review) :=
  if !env.isObjectId id then .error (CastError id "_id")
  else
    match castUpdate env "bootcamp" body.bootcamp, castUpdate env "user" body.user with
    | some err, _ => .error err
    | none, some err => .error err
    | none, none =>
      let errors := ratingRange body.rating ++ env.validate "Review" s body
      if !errors.isEmpty then .error (ValidationError errors)
      else
        match s.reviews.find? fun r => r.id == id with
        | none => .ok (s, none)
        | some doc =>
          let doc' := Review.applyUpdate doc body
          if s.reviews.any fun r => r.id != id && r.bootcamp == doc'.bootcamp && r.user == doc'.user then
            .error (DuplicateKeyError [("bootcamp", doc'.bootcamp), ("user", doc'.user)])
          else
            match env.writeFails "Review" s body with
            | some failure => .error failure.toErr
            | none =>
              .ok ({ s with reviews :=
                      replaceFirst (fun r => r.id == id) (fun r => Review.applyUpdate r body) s.reviews },
                   some doc')

/-- The call `review.remove()`: the `pre("remove")` hook starts `getAverageRating`
and does not wait for it, then the document is deleted; see `Course.remove`. -/
def Review.remove (env : Env) (s : Store) (doc : Review) : Store :=
  if env.aggregateBeforeDelete then
    let s1 := (Review.getAverageRating env s doc.bootcamp).1
    { s1 with reviews := s1.reviews.eraseP fun r => r.id == doc.id }
  else
    (Review.getAverageRating env
      { s with reviews := s.reviews.eraseP fun r => r.id == doc.id } doc.bootcamp).1

/-! ## Middlewares -/

/-- The body of an `async (req, res, next) => ...` function: the request and
store it leaves, and either the calls it made before its promise resolved or
the error its promise rejected with. -/
abbrev Handler := Env → Req → Store → Req × Store × Except Err (List Signal)

/-- An Express middleware: the request and store it leaves and, in order, the
calls it made on `next` and `res`. -/
abbrev Middleware := Env → Req → Store → Req × Store × List Signal

/-- Modelled from the spec: `middlewares/asyncHandler.js` is not among the
sources.  It wraps an async handler so that a rejection of its promise is passed
to `next` (`Promise.resolve(fn(req, res, next)).catch(next)`), which is how
unexpected failures reach the error pipeline. -/
def asyncHandler (fn : Handler) : Middleware := fun env req s =>
  match fn env req s with
  | (req', s', .ok signals) => (req', s', signals)
  | (req', s', .error err) => (req', s', [.nextErr err])

/-- JavaScript `String.prototype.split` for a separator of one character, on characters. -/
def splitChars (sep : Char) : List Char → List (List Char)
  | [] => [[]]
  | c :: cs =>
    if c = sep then [] :: splitChars sep cs
    else
      match splitChars sep cs with
      | [] => [[c]]
      | w :: ws => (c :: w) :: ws

/-- JavaScript `s.split(sep)` for a separator of one character. -/
def split (s : String) (sep : Char) : List String :=
  (splitChars sep s.toList).map String.mk

/-- JavaScript `s.startsWith(p)`. -/
def startsWith (s p : String) : Bool :=
  p.toList.isPrefixOf s.toList

/-- The token that `protect` reads: `authorization.split(" ")[1]` when the header
is present (truthy) and starts with `Bearer`, otherwise `undefined`. -/
def bearerToken (authorization : Option String) : Option String :=
  match authorization with
  | none => none
  | some header =>
    if header != "" && startsWith header "Bearer" then (split header ' ')[1]? else none

/-- Level 1 security, `protect` of `authMiddleware.js`. -/
def protect : Middleware := asyncHandler fun env req s =>
  match bearerToken req.authorization with
  | none =>
    (req, s, .ok [.nextErr (ErrorResponseAPI "Not Authorized to access this route " 401)])
  | some token =>
    if token == "" then
      (req, s, .ok [.nextErr (ErrorResponseAPI "Not Authorized to access this route " 401)])
    else
      match env.jwtVerify token with
      | none => (req, s, .ok [.nextErr (ErrorResponseAPI "Unauthorized to access this route" 401)])
      | some id =>
        match User.findById env s id with
        | .error _ =>
          (req, s, .ok [.nextErr (ErrorResponseAPI "Unauthorized to access this route" 401)])
        | .ok user => ({ req with user := user }, s, .ok [.next])

/-- Level 2 security, `authorizePermissions(...roles)` of `authMiddleware.js`.  It is
a plain function: reading `req.user.role` of a `null` user throws, and Express
passes the exception on. -/
def authorizePermissions (roles : List String) : Middleware := fun _ req s =>
  match req.user with
  | none => (req, s, [.nextErr (TypeError "Cannot read properties of null (reading role)")])
  | some user =>
    if !roles.contains user.role then
      (req, s, [.nextErr (ErrorResponseAPI
        ("ACCESS DENIED: User role | " ++ user.role ++ " | is unauthorized to perform this action ")
        403)])
    else (req, s, [.next])

/-- The function `errorHandlerMiddleware(err, req, res, next)`: the response it sends. -/
def errorHandlerMiddleware (err : Err) : Signal :=
  let error : Err := err
  let error :=
    if err.name == "CastError" then ErrorResponseAPI "Resource not found" 404 else error
  let error :=
    if err.code == some 11000 then
      ErrorResponseAPI
        ("Duplicate value entered for " ++ ",".intercalate (err.keyValue.map fun kv => kv.1)
          ++ " field, please choose another value") 400
    else error
  let error :=
    if err.name == "ValidationError" then
      ErrorResponseAPI (", ".intercalate (err.errors.map fun e => e.2)) 400
    else error
  .json
    (match error.statusCode with
      | none => 500
      | some status => if status == 0 then 500 else status)
    { success := false,
      error := some (if error.message == "" then "Server Error" else error.message) }

/-- A route: the middlewares run in order, each `next()` of one starting the one
after it; `next(err)` and responses end the route. -/
def runStack (env : Env) : List Middleware → Req → Store → Store × List Signal
  | [], _, s => (s, [.next])
  | m :: rest, req, s =>
    let r := m env req s
    r.2.2.foldl
      (fun acc signal =>
        match signal with
        | .next =>
          let t := runStack env rest r.1 acc.1
          (t.1, acc.2 ++ t.2)
        | other => (acc.1, acc.2 ++ [other]))
      (r.2.1, [])

/-- What the client receives: an error passed to `next` is answered by
`errorHandlerMiddleware` (mounted last in `server.js`). -/
def respond (signals : List Signal) : List Signal :=
  signals.map fun signal =>
    match signal with
    | .nextErr err => errorHandlerMiddleware err
    | other => other

/-! ## `controllers/bootcampController.js` -/

/-- The handler `getBootcamp`, GET /api/v1/bootcamps/:id. -/
def getBootcamp : Middleware := asyncHandler fun env req s =>
  match Bootcamp.findById env s req.params.id with
  | .error err => (req, s, .error err)
  | .ok none =>
    (req, s, .ok [.nextErr (ErrorResponseAPI
      ("Bootcamp not found with the ID of " ++ req.params.id) 404)])
  | .ok (some bootcamp) =>
    (req, s, .ok [.json 200 { success := true, data := some (.bootcamp bootcamp) }])

/-- The handler `createBootcamp`, POST /api/v1/bootcamps. -/
def createBootcamp : Middleware := asyncHandler fun env req s =>
  match req.user with
  | none => (req, s, .error (TypeError "Cannot read properties of null (reading id)"))
  | some user =>
    let req := { req with body := { req.body with user := some user.id } }
    match Bootcamp.findOne env s user.id with
    | .error err => (req, s, .error err)
    | .ok publishedBootcamp =>
      if publishedBootcamp.isSome && user.role != "admin" then
        (req, s, .ok [.nextErr (ErrorResponseAPI
          ("The user with the role | publisher | with ID " ++ user.id
            ++ " has already published a bootcamp") 400)])
      else
        match Bootcamp.create env s req.body with
        | .error err => (req, s, .error err)
        | .ok (s', bootcamp) =>
          (req, s', .ok [.json 201 { success := true, data := some (.bootcamp bootcamp) }])

/-- The handler `updateBootcamp`, PUT /api/v1/bootcamps/:id. -/
def updateBootcamp : Middleware := asyncHandler fun env req s =>
  match Bootcamp.findById env s req.params.id with
  | .error err => (req, s, .error err)
  | .ok none =>
    (req, s, .ok [.nextErr (ErrorResponseAPI
      ("Bootcamp not found with the ID of " ++ req.params.id) 404)])
  | .ok (some bootcamp) =>
    match req.user with
    | none => (req, s, .error (TypeError "Cannot read properties of null (reading id)"))
    | some user =>
      if bootcamp.user != user.id && user.role != "admin" then
        (req, s, .ok [.nextErr (ErrorResponseAPI
          ("User with the ID " ++ user.id ++ " is not authorized to update this bootcamp") 401)])
      else
        match Bootcamp.findByIdAndUpdate env s req.params.id req.body true with
        | .error err => (req, s, .error err)
        | .ok (s', none) => (req, s', .ok [.json 200 { success := true, data := some .null }])
        | .ok (s', some bootcamp) =>
          (req, s', .ok [.json 200 { success := true, data := some (.bootcamp bootcamp) }])

/-- The handler `deleteBootcamp`, DELETE /api/v1/bootcamps/:id. -/
def deleteBootcamp : Middleware := asyncHandler fun env req s =>
  match Bootcamp.findById env s req.params.id with
  | .error err => (req, s, .error err)
  | .ok none =>
    (req, s, .ok [.nextErr (ErrorResponseAPI
      ("No Bootcamp found with the ID of " ++ req.params.id) 404)])
  | .ok (some bootcamp) =>
    match req.user with
    | none => (req, s, .error (TypeError "Cannot read properties of null (reading id)"))
    | some user =>
      if bootcamp.user != user.id && user.role != "admin" then
        (req, s, .ok [.nextErr (ErrorResponseAPI
          ("User with the ID " ++ user.id ++ " is not authorized to delete this bootcamp") 401)])
      else
        (req, Bootcamp.remove s bootcamp, .ok [.json 200 { success := true, data := some .empty }])

/-- The handler `uploadImage`, PUT /api/v1/bootcamps/:id/image. -/
def uploadImage : Middleware := asyncHandler fun env req s =>
  match Bootcamp.findById env s req.params.id with
  | .error err => (req, s, .error err)
  | .ok none =>
    (req, s, .ok [.nextErr (ErrorResponseAPI
      ("No Bootcamp found with the ID of " ++ req.params.id) 404)])
  | .ok (some bootcamp) =>
    match req.user with
    | none => (req, s, .error (TypeError "Cannot read properties of null (reading id)"))
    | some user =>
      if bootcamp.user != user.id && user.role != "admin" then
        (req, s, .ok [.nextErr (ErrorResponseAPI
          ("User with the ID " ++ user.id
            ++ " is not authorized to upload the image OR update this bootcamp") 401)])
      else
        match req.files with
        | none => (req, s, .ok [.nextErr (ErrorResponseAPI "No image uploaded" 400)])
        | some files =>
          match files.image with
          | none =>
            (req, s, .error (TypeError "Cannot read properties of undefined (reading mimetype)"))
          | some bootcampImage =>
            if !startsWith bootcampImage.mimetype "image" then
              (req, s, .ok [.nextErr (ErrorResponseAPI "Please upload an image file" 400)])
            else if (match env.maxImageSize with
                | some max => decide (bootcampImage.size > max)
                | none => false) then
              (req, s, .ok [.nextErr (ErrorResponseAPI "Please upload image smaller than 1MB" 400)])
            else
              let name := "image_" ++ bootcamp.id ++ env.ext bootcampImage.name
              let imagePath := env.fileUploadPath ++ "/" ++ name
              if !env.mv imagePath then
                (req, s, .ok [.nextErr (ErrorResponseAPI "Problem with file upload" 500)])
              else
                match Bootcamp.findByIdAndUpdate env s req.params.id { photo := some name } false with
                | .error _ => (req, s, .ok [])
                | .ok (s', _) =>
                  (req, s', .ok [.json 200 { success := true, data := some (.str name) }])

/-! ## `controllers/courseController.js` -/

/-- The handler `getSingleCourse`, GET /api/v1/courses/:id. -/
def getSingleCourse : Middleware := asyncHandler fun env req s =>
  match Course.findById env s req.params.id with
  | .error err => (req, s, .error err)
  | .ok none =>
    (req, s, .ok [.nextErr (ErrorResponseAPI
      ("No course found with the ID of " ++ req.params.id) 404)])
  | .ok (some course) =>
    (req, s, .ok [.json 200 { success := true, data := some (.course course) }])

/-- The handler `addCourse`, POST /api/v1/bootcamps/:bootcampId/courses. -/
def addCourse : Middleware := asyncHandler fun env req s =>
  let req := { req with body := { req.body with bootcamp := some req.params.bootcampId } }
  match req.user with
  | none => (req, s, .error (TypeError "Cannot read properties of null (reading id)"))
  | some user =>
    let req := { req with body := { req.body with user := some user.id } }
    match Bootcamp.findById env s req.params.bootcampId with
    | .error err => (req, s, .error err)
    | .ok none =>
      (req, s, .ok [.nextErr (ErrorResponseAPI
        ("No bootcamp found with the ID of " ++ req.params.bootcampId) 404)])
    | .ok (some bootcamp) =>
      if bootcamp.user != user.id && user.role != "admin" then
        (req, s, .ok [.nextErr (ErrorResponseAPI
          ("User with the ID " ++ user.id
            ++ " is not authorized to add a course to the bootcamp with the ID " ++ bootcamp.id)
          401)])
      else
        match Course.create env s req.body with
        | .error err => (req, s, .error err)
        | .ok (s', course) =>
          (req, s', .ok [.json 201 { success := true, data := some (.course course) }])

/-- The handler `updateCourse`, PUT /api/v1/courses/:id. -/
def updateCourse : Middleware := asyncHandler fun env req s =>
  match Course.findById env s req.params.id with
  | .error err => (req, s, .error err)
  | .ok none =>
    (req, s, .ok [.nextErr (ErrorResponseAPI
      ("No course found with the ID of " ++ req.params.id) 404)])
  | .ok (some course) =>
    match req.user with
    | none => (req, s, .error (TypeError "Cannot read properties of null (reading id)"))
    | some user =>
      if course.user != user.id && user.role != "admin" then
        (req, s, .ok [.nextErr (ErrorResponseAPI
          ("User with the ID " ++ user.id
            ++ " is not authorized to update a course to the bootcamp with the ID " ++ course.id)
          401)])
      else
        match Course.findByIdAndUpdate env s req.params.id req.body with
        | .error err => (req, s, .error err)
        | .ok (s', none) => (req, s', .ok [.json 200 { success := true, data := some .null }])
        | .ok (s', some course) =>
          (req, s', .ok [.json 200 { success := true, data := some (.course course) }])

/-- The handler `deleteCourse`, DELETE /api/v1/courses/:id. -/
def deleteCourse : Middleware := asyncHandler fun env req s =>
  match Course.findById env s req.params.id with
  | .error err => (req, s, .error err)
  | .ok none =>
    (req, s, .ok [.nextErr (ErrorResponseAPI
      ("No course found with the ID of " ++ req.params.id) 404)])
  | .ok (some course) =>
    match req.user with
    | none => (req, s, .error (TypeError "Cannot read properties of null (reading id)"))
    | some user =>
      if course.user != user.id && user.role != "admin" then
        (req, s, .ok [.nextErr (ErrorResponseAPI
          ("User with the ID " ++ user.id
            ++ " is not authorized to delete a course to the bootcamp with the ID " ++ course.id)
          401)])
      else
        (req, Course.remove env s course, .ok [.json 200 { success := true, data := some .empty }])

/-! ## `controllers/reviewController.js` -/

/-- The handler `getSingleReview`, GET /api/v1/reviews/:id. -/
def getSingleReview : Middleware := asyncHandler fun env req s =>
  match Review.findById env s req.params.id with
  | .error err => (req, s, .error err)
  | .ok none =>
    (req, s, .ok [.nextErr (ErrorResponseAPI
      ("No review found with the ID of " ++ req.params.id) 404)])
  | .ok (some review) =>
    (req, s, .ok [.json 200 { success := true, data := some (.review review) }])

/-- The handler `createReview`, POST /api/v1/bootcamps/:bootcampId/reviews. -/
def createReview : Middleware := asyncHandler fun env req s =>
  let req := { req with body := { req.body with bootcamp := some req.params.bootcampId } }
  match req.user with
  | none => (req, s, .error (TypeError "Cannot read properties of null (reading id)"))
  | some user =>
    let req := { req with body := { req.body with user := some user.id } }
    match Bootcamp.findById env s req.params.bootcampId with
    | .error err => (req, s, .error err)
    | .ok none =>
      (req, s, .ok [.nextErr (ErrorResponseAPI
        ("No bootcamp found with the ID of " ++ req.params.bootcampId) 404)])
    | .ok (some _) =>
      match Review.create env s req.body with
      | .error err => (req, s, .error err)
      | .ok (s', review) =>
        (req, s', .ok [.json 201 { success := true, data := some (.review review) }])

/-- The handler `updateReview`, PUT /api/v1/reviews/:id. -/
def updateReview : Middleware := asyncHandler fun env req s =>
  match Review.findById env s req.params.id with
  | .error err => (req, s, .error err)
  | .ok none =>
    (req, s, .ok [.nextErr (ErrorResponseAPI
      ("Review not found with the ID of " ++ req.params.id) 404)])
  | .ok (some review) =>
    match req.user with
    | none => (req, s, .error (TypeError "Cannot read properties of null (reading id)"))
    | some user =>
      if review.user != user.id && user.role != "admin" then
        (req, s, .ok [.nextErr (ErrorResponseAPI
          ("User with the ID " ++ user.id ++ " is not authorized to update this review") 401)])
      else
        match Review.findByIdAndUpdate env s req.params.id req.body with
        | .error err => (req, s, .error err)
        | .ok (s', none) => (req, s', .ok [.json 200 { success := true, data := some .null }])
        | .ok (s', some review) =>
          (req, s', .ok [.json 200 { success := true, data := some (.review review) }])

/-- The handler `deleteReview`, DELETE /api/v1/reviews/:id. -/
def deleteReview : Middleware := asyncHandler fun env req s =>
  match Review.findById env s req.params.id with
  | .error err => (req, s, .error err)
  | .ok none =>
    (req, s, .ok [.nextErr (ErrorResponseAPI
      ("Review not found with the ID of " ++ req.params.id) 404)])
  | .ok (some review) =>
    match req.user with
    | none => (req, s, .error (TypeError "Cannot read properties of null (reading id)"))
    | some user =>
      if review.user != user.id && user.role != "admin" then
        (req, s, .ok [.nextErr (ErrorResponseAPI
          ("User with the ID " ++ user.id ++ " is not authorized to delete this review") 401)])
      else
        (req, Review.remove env s review, .ok [.json 200 { success := true, data := some .empty }])

/-! ## `routes/` : the stacks of the mutating routes -/

/-- PUT /api/v1/bootcamps/:id/image. -/
def bootcampRoutes.image : List Middleware :=
  [protect, authorizePermissions ["admin", "publisher"], uploadImage]

/-- POST /api/v1/bootcamps. -/
def bootcampRoutes.create : List Middleware :=
  [protect, authorizePermissions ["admin", "publisher"], createBootcamp]

/-- PUT /api/v1/bootcamps/:id. -/
def bootcampRoutes.update : List Middleware :=
  [protect, authorizePermissions ["admin", "publisher"], updateBootcamp]

/-- DELETE /api/v1/bootcamps/:id. -/
def bootcampRoutes.delete : List Middleware :=
  [protect, authorizePermissions ["admin", "publisher"], deleteBootcamp]

/-- POST /api/v1/bootcamps/:bootcampId/courses. -/
def courseRoutes.create : List Middleware :=
  [protect, authorizePermissions ["admin", "publisher"], addCourse]

/-- PUT /api/v1/courses/:id. -/
def courseRoutes.update : List Middleware :=
  [protect, authorizePermissions ["admin", "publisher"], updateCourse]

/-- DELETE /api/v1/courses/:id. -/
def courseRoutes.delete : List Middleware :=
  [protect, authorizePermissions ["admin", "publisher"], deleteCourse]

/-- POST /api/v1/bootcamps/:bootcampId/reviews. -/
def reviewRoutes.create : List Middleware :=
  [protect, authorizePermissions ["admin", "user"], createReview]

/-- PUT /api/v1/reviews/:id. -/
def reviewRoutes.update : List Middleware :=
  [protect, authorizePermissions ["admin", "user"], updateReview]

/-- DELETE /api/v1/reviews/:id. -/
def reviewRoutes.delete : List Middleware :=
  [protect, authorizePermissions ["admin", "user"], deleteReview]

/-! ## `models/userModel.js` -/

/-- A path of `req.body` outside the typed fields, as a string. -/
def Body.get (body : Body) (path : String) : Option String :=
  body.other.lookup path

/-- JavaScript falsiness of a string that may be `undefined`. -/
def falsy (value : Option String) : Bool :=
  match value with
  | none => true
  | some v => v == ""

/-- The validators of the path `name` (`required`). -/
def namePath (value : Option String) : List (String × String) :=
  if falsy value then [("name", "Please provide a name")] else []

/-- The validators of the path `email` (`required`, `validator.isEmail`). -/
def emailPath (env : Env) (value : Option String) : List (String × String) :=
  match value with
  | none => [("email", "Please provide an email address")]
  | some v =>
    if v == "" then [("email", "Please provide an email address")]
    else if env.isEmail v then []
    else [("email", "Please use a valid email")]

/-- The validators of the path `role` (`enum`). -/
def rolePath (value : Option String) : List (String × String) :=
  match value with
  | none => []
  | some v =>
    if v == "user" || v == "publisher" then []
    else [("role", v ++ " is not a valid enum value for path role.")]

/-- The validators of the path `password` (`required`, `minlength: 6`). -/
def passwordPath (value : Option String) : List (String × String) :=
  match value with
  | none => [("password", "Please add a password")]
  | some v =>
    if v == "" then [("password", "Please add a password")]
    else if v.length < 6 then
      [("password", "Path password (" ++ v ++ ") is shorter than the minimum allowed length (6).")]
    else []

/-- What the `pre("save")` hook of the user schema has done when its async
function has settled. -/
structure HookRun where
  /-- The value of `this.password`. -/
  password : Option String
  /-- The number of calls of `next()`. -/
  nextCalls : Nat
  /-- Whether the promise of the hook rejects (`bcrypt.hash` of `undefined` throws). -/
  rejects : Bool
  deriving DecidableEq, Repr

/-- The `pre("save")` hook of the user schema, for the value of `this.password`
and of `this.isModified("password")`.  The `if` calls `next()` and does not
return, so the hashing and the second `next()` follow in every case. -/
def User.preSave (env : Env) (s : Store) (password : Option String) (isModified : Bool) :
    HookRun :=
  let early := if !isModified then 1 else 0
  match password with
  | none => { password := none, nextCalls := early, rejects := true }
  | some p =>
    { password := some (env.bcryptHash p (env.genSalt s)), nextCalls := early + 1,
      rejects := false }

/-- The method `getSignedJwtToken`. -/
def User.getSignedJwtToken (env : Env) (user : User) : String :=
  env.jwtSign user.id

/-- The stored `password` of a user, read by `.select("+password")`. -/
def User.password (s : Store) (user : User) : Option String :=
  s.passwords.lookup user.id

/-- The method `comparePassword` on a document whose `password` is the given
value: `bcrypt.compare` throws for a hash that is `undefined`. -/
def User.comparePassword (env : Env) (password : Option String) (candidatePassword : String) :
    Except Err Bool :=
  match password with
  | none => .error { name := "Error", message := "Illegal arguments: string, undefined" }
  | some hash => .ok (env.bcryptCompare candidatePassword hash)

/-- The method `getResetPasswordToken`: the document with the hashed token and
its expiry of 10 minutes, and the plain token. -/
def User.getResetPasswordToken (env : Env) (s : Store) (user : User) : User × String :=
  let resetToken := env.randomBytes s
  ({ user with
     resetPasswordToken := some (env.sha256 resetToken)
     resetPasswordExpire := some (env.now + 10 * 60 * 1000) }, resetToken)

/-- The query `User.findOne` by email.  An `undefined` email matches no document. -/
def User.findOne (s : Store) (email : Option String) : Option User :=
  match email with
  | none => none
  | some email => s.users.find? fun u => u.email == email

/-- The call `User.create` with name, email, password and role: validation, the
`pre("save")` hook (the password of a new document is modified and gets
hashed), insertion under the unique index on `email`. -/
def User.create (env : Env) (s : Store) (name email password role : Option String) :
    Except Err (Store × User) :=
  let errors := namePath name ++ emailPath env email ++ rolePath role ++ passwordPath password
  match errors, name, email, password with
  | [], some name, some email, some password =>
    if s.users.any fun u => u.email == email then
      .error (DuplicateKeyError [("email", email)])
    else
      let doc : User :=
        { id := env.newObjectId s, role := role.getD "user", name := name, email := email }
      .ok ({ s with
             users := s.users ++ [doc]
             passwords := s.passwords ++
               [(doc.id, (User.preSave env s (some password) true).password.getD password)] },
           doc)
  | _, _, _, _ => .error (ValidationError errors)

/-- The call `user.save(options)` on a stored user with the paths of `doc`
assigned.  The argument `password` is `none` when the path `password` is not
modified and `some value` when `user.password = value` modified it; assigning
`undefined` to a path that the query did not select marks it modified too.  A
modified password is validated and the save waits for the hook, which hashes
it; with the password not modified the hook calls `next()` at once and the
document is written as it is. -/
def User.save (env : Env) (s : Store) (doc : User) (password : Option (Option String))
    (validateBeforeSave : Bool) : Except Err Store :=
  let errors :=
    if validateBeforeSave then
      namePath (some doc.name) ++ emailPath env (some doc.email)
        ++ (match password with
            | none => []
            | some value => passwordPath value)
    else []
  if !errors.isEmpty then .error (ValidationError errors)
  else
    let s1 := { s with users := replaceFirst (fun u => u.id == doc.id) (fun _ => doc) s.users }
    match password with
    | none => .ok s1
    | some value =>
      match (User.preSave env s value true).password with
      | none => .error { name := "Error", message := "Illegal arguments: undefined, string" }
      | some hash =>
        .ok { s1 with
              passwords := (doc.id, hash) :: s1.passwords.filter fun kv => kv.1 != doc.id }

/-- The call `User.findByIdAndUpdate(id, fields, options)` with the fields name and
email, `new: true` and `runValidators: true`. -/
def User.findByIdAndUpdate (env : Env) (s : Store) (id name email : String) :
    Except Err (Store × Option User) :=
  if !env.isObjectId id then .error (CastError id "_id")
  else
    let errors := namePath (some name) ++ emailPath env (some email)
    if !errors.isEmpty then .error (ValidationError errors)
    else
      match s.users.find? fun u => u.id == id with
      | none => .ok (s, none)
      | some doc =>
        if s.users.any fun u => u.id != id && u.email == email then
          .error (DuplicateKeyError [("email", email)])
        else
          let doc' := { doc with name := name, email := email }
          .ok ({ s with users := replaceFirst (fun u => u.id == id) (fun _ => doc') s.users },
               some doc')

/-! ## `middlewares/authMiddleware.js`: the token response -/

/-- The function `createTokenAndAttachCookiesToResponse(user, statusCode, res)`:
the cookie `token` and the JSON body with `success` and `token`.  The cookie
options are not represented. -/
def createTokenAndAttachCookiesToResponse (env : Env) (user : User) (statusCode : Nat) :
    List Signal :=
  let token := User.getSignedJwtToken env user
  [.cookie "token" token, .json statusCode { success := true, token := some token }]

/-! ## `controllers/authController.js` -/

/-- The handler `register`, POST /api/v1/auth/register. -/
def register : Middleware := asyncHandler fun env req s =>
  match User.create env s (req.body.get "name") (req.body.get "email")
      (req.body.get "password") (req.body.get "role") with
  | .error err => (req, s, .error err)
  | .ok (s', user) => (req, s', .ok (createTokenAndAttachCookiesToResponse env user 200))

/-- The handler `login`, POST /api/v1/auth/login. -/
def login : Middleware := asyncHandler fun env req s =>
  let email := req.body.get "email"
  let password := req.body.get "password"
  if falsy email || falsy password then
    (req, s, .ok [.nextErr (ErrorResponseAPI "Please provide an email and password" 400)])
  else
    match User.findOne s email with
    | none => (req, s, .ok [.nextErr (ErrorResponseAPI "Invalid credentials" 401)])
    | some user =>
      match User.comparePassword env (User.password s user) (password.getD "") with
      | .error err => (req, s, .error err)
      | .ok isPasswordCorrect =>
        if !isPasswordCorrect then
          (req, s, .ok [.nextErr (ErrorResponseAPI "Invalid credentials" 401)])
        else (req, s, .ok (createTokenAndAttachCookiesToResponse env user 200))

/-- The handler `logoutUserAndClearCookie`, GET /api/v1/auth/logout. -/
def logoutUserAndClearCookie : Middleware := asyncHandler fun _ req s =>
  (req, s, .ok [.cookie "token" "logout", .json 200 { success := true, data := some .empty }])

/-- The handler `showMe`, GET /api/v1/auth/me. -/
def showMe : Middleware := asyncHandler fun env req s =>
  match req.user with
  | none => (req, s, .error (TypeError "Cannot read properties of null (reading id)"))
  | some principal =>
    match User.findById env s principal.id with
    | .error err => (req, s, .error err)
    | .ok none => (req, s, .ok [.json 200 { success := true, data := some .null }])
    | .ok (some user) => (req, s, .ok [.json 200 { success := true, data := some (.user user) }])

/-- The handler `forgotPassword`, POST /api/v1/auth/forgotpassword. -/
def forgotPassword : Middleware := asyncHandler fun env req s =>
  match User.findOne s (req.body.get "email") with
  | none => (req, s, .ok [.nextErr (ErrorResponseAPI "There is no user with that email" 404)])
  | some user =>
    let (user, resetToken) := User.getResetPasswordToken env s user
    match User.save env s user none false with
    | .error err => (req, s, .error err)
    | .ok s1 =>
      let resetURL := req.protocol ++ "://" ++ req.host ++ "/api/v1/auth/resetPassword/"
        ++ resetToken
      let message := "Forgot Your Password? Submit a PUT request with your new password to: "
        ++ resetURL ++ ".\nIf you didn\x27t forget your password, Please Ignore this Email!"
      match env.sendEmail user.email message with
      | none =>
        (req, s1, .ok [.json 200 { success := true, data := some (.str "Token sent to email") }])
      | some _ =>
        let user := { user with resetPasswordToken := none, resetPasswordExpire := none }
        match User.save env s1 user none false with
        | .error err => (req, s1, .error err)
        | .ok s2 =>
          (req, s2, .ok [.nextErr (ErrorResponseAPI
            "Oops! There was an error sending the email. Please try again later." 500)])

/-- The query of `resetPassword`: `User.findOne` by `resetPasswordToken` with a
`resetPasswordExpire` greater than `Date.now()`. -/
def User.findOneByResetToken (env : Env) (s : Store) (hashedToken : String) : Option User :=
  s.users.find? fun u =>
    u.resetPasswordToken == some hashedToken &&
      (match u.resetPasswordExpire with
        | none => false
        | some expire => decide (expire > env.now))

/-- The handler `resetPassword`, PUT /api/v1/auth/resetpassword/:token. -/
def resetPassword : Middleware := asyncHandler fun env req s =>
  let hashedToken := env.sha256 req.params.token
  match User.findOneByResetToken env s hashedToken with
  | none =>
    (req, s, .ok [.nextErr (ErrorResponseAPI "Bad Request! Token is invalid or has expired" 400)])
  | some user =>
    let user := { user with resetPasswordToken := none, resetPasswordExpire := none }
    match User.save env s user (some (req.body.get "password")) true with
    | .error err => (req, s, .error err)
    | .ok s' => (req, s', .ok (createTokenAndAttachCookiesToResponse env user 200))

/-- The handler `updateDetails`, PUT /api/v1/auth/updateDetails. -/
def updateDetails : Middleware := asyncHandler fun env req s =>
  let name := req.body.get "name"
  let email := req.body.get "email"
  if falsy name || falsy email then
    (req, s, .ok [.nextErr (ErrorResponseAPI "Please provide name and email" 400)])
  else
    match req.user with
    | none => (req, s, .error (TypeError "Cannot read properties of null (reading id)"))
    | some principal =>
      match User.findByIdAndUpdate env s principal.id (name.getD "") (email.getD "") with
      | .error err => (req, s, .error err)
      | .ok (s', none) => (req, s', .ok [.json 200 { success := true, data := some .null }])
      | .ok (s', some user) =>
        (req, s', .ok [.json 200 { success := true, data := some (.user user) }])

/-- The handler `updateUserPassword`, PUT /api/v1/auth/updatePassword. -/
def updateUserPassword : Middleware := asyncHandler fun env req s =>
  let oldPassword := req.body.get "oldPassword"
  let newPassword := req.body.get "newPassword"
  if falsy oldPassword || falsy newPassword then
    (req, s, .ok [.nextErr (ErrorResponseAPI
      "Please provide the old password and a new password" 400)])
  else
    match req.user with
    | none => (req, s, .error (TypeError "Cannot read properties of null (reading id)"))
    | some principal =>
      match User.findById env s principal.id with
      | .error err => (req, s, .error err)
      | .ok none =>
        (req, s, .error (TypeError "Cannot read properties of null (reading comparePassword)"))
      | .ok (some user) =>
        match User.comparePassword env (User.password s user) (oldPassword.getD "") with
        | .error err => (req, s, .error err)
        | .ok isPasswordCorrect =>
          if !isPasswordCorrect then
            (req, s, .ok [.nextErr (ErrorResponseAPI "Invalid Credentials" 401)])
          else
            match User.save env s user
                (if User.password s user == newPassword then none else some newPassword)
                true with
            | .error err => (req, s, .error err)
            | .ok s' => (req, s', .ok (createTokenAndAttachCookiesToResponse env user 200))

/-! ## `middlewares/advancedResults.js` -/

/-- A character of the class `\w` of a JavaScript regular expression. -/
def isWordChar (c : Char) : Bool :=
  c.isAlphanum || c == '_'

/-- A maximal run of word characters, with `$` put before it when it is one of
`gt`, `gte`, `lt`, `lte`, `in`. -/
def flushWord (word : List Char) : List Char :=
  if ["gt", "gte", "lt", "lte", "in"].contains (String.mk word) then '$' :: word else word

/-- The scan of `replaceOperators`: `word` is the run of word characters read so far. -/
def replaceOperatorsAux : List Char → List Char → List Char
  | word, [] => flushWord word
  | word, c :: cs =>
    if isWordChar c then replaceOperatorsAux (word ++ [c]) cs
    else flushWord word ++ c :: replaceOperatorsAux [] cs

/-- The replacement `queryStr.replace(/\b(gt|gte|lt|lte|in)\b/g, (match) => "$" + match)`:
between two word boundaries the pattern matches exactly a maximal run of word
characters that is one of the five names. -/
def replaceOperators (queryStr : String) : String :=
  String.mk (replaceOperatorsAux [] queryStr.toList)

/-- A hexadecimal digit, in lower case. -/
def hexDigit (n : Nat) : Char :=
  "0123456789abcdef".toList.getD n '0'

/-- The text that `JSON.stringify` writes for one character of a string. -/
def jsonEscape (c : Char) : List Char :=
  if c == '"' then ['\\', '"']
  else if c == '\\' then ['\\', '\\']
  else if c == '\n' then ['\\', 'n']
  else if c == '\r' then ['\\', 'r']
  else if c == '\t' then ['\\', 't']
  else if c.toNat == 8 then ['\\', 'b']
  else if c.toNat == 12 then ['\\', 'f']
  else if c.toNat < 32 then ['\\', 'u', '0', '0', hexDigit (c.toNat / 16), hexDigit (c.toNat % 16)]
  else [c]

/-- The text that `JSON.stringify` writes for a string. -/
def jsonString (value : String) : String :=
  "\"" ++ String.mk (value.toList.flatMap jsonEscape) ++ "\""

/-- The text that `JSON.stringify` writes for an object of strings. -/
def jsonObject (fields : List (String × String)) : String :=
  "\x7b" ++ ",".intercalate (fields.map fun kv => jsonString kv.1 ++ ":" ++ jsonString kv.2)
    ++ "\x7d"

/-- The text `JSON.stringify(reqQuery)`. -/
def stringify (reqQuery : List (String × QueryValue)) : String :=
  "\x7b" ++ ",".intercalate (reqQuery.map fun kv =>
      jsonString kv.1 ++ ":" ++
        (match kv.2 with
          | .str value => jsonString value
          | .obj fields => jsonObject fields))
    ++ "\x7d"

/-- White space that `parseInt` skips. -/
def isWhiteSpace (c : Char) : Bool :=
  [9, 10, 11, 12, 13, 32, 160, 5760, 8232, 8233, 8239, 8287, 12288, 65279].contains c.toNat
    || (8192 ≤ c.toNat && c.toNat ≤ 8202)

/-- JavaScript `parseInt(value, 10)` of a string, `none` for `NaN`. -/
def parseInt (value : String) : Option Int :=
  let chars := value.toList.dropWhile isWhiteSpace
  let negative := chars.head? == some '-'
  let rest := if chars.head? == some '-' || chars.head? == some '+' then chars.tail else chars
  let digits := rest.takeWhile Char.isDigit
  if digits.isEmpty then none
  else
    let n : Nat := digits.foldl (fun n c => 10 * n + (c.toNat - 48)) 0
    some (if negative then -(n : Int) else (n : Int))

/-- The expression `parseInt(value, 10) || fallback` for a value of the query:
`undefined` and objects give `NaN`, and `NaN` and 0 are falsy. -/
def parseIntOr (value : Option QueryValue) (fallback : Int) : Int :=
  match value with
  | some (.str v) =>
    match parseInt v with
    | none => fallback
    | some n => if n == 0 then fallback else n
  | _ => fallback

/-- The expression `value.split(",").join(" ")` guarded by `if (value)`, with
`fallback` when the value is falsy; `none` when it throws (an object has no `split`). -/
def fieldList (value : Option QueryValue) (fallback : String) : Option String :=
  match value with
  | none => some fallback
  | some (.str v) => if v == "" then some fallback else some (" ".intercalate (split v ','))
  | some (.obj _) => none

/-- The documents of the named model with the given `_id`s, in that order. -/
def documentsOf (model : String) (s : Store) (ids : List String) : Data :=
  if model == "Bootcamp" then
    .bootcamps (ids.filterMap fun id => s.bootcamps.find? fun b => b.id == id)
  else if model == "Course" then
    .courses (ids.filterMap fun id => s.courses.find? fun c => c.id == id)
  else if model == "Review" then
    .reviews (ids.filterMap fun id => s.reviews.find? fun r => r.id == id)
  else .users (ids.filterMap fun id => s.users.find? fun u => u.id == id)

/-- The query `Model.countDocuments()`, without a filter. -/
def countDocuments (model : String) (s : Store) : Nat :=
  if model == "Bootcamp" then s.bootcamps.length
  else if model == "Course" then s.courses.length
  else if model == "Review" then s.reviews.length
  else s.users.length

/-- The number of documents in a list payload. -/
def Data.length : Data → Nat
  | .bootcamps docs => docs.length
  | .courses docs => docs.length
  | .reviews docs => docs.length
  | .users docs => docs.length
  | _ => 0

/-- The factory `advancedResults(Model, fieldsToPopulate)`.  It is a plain async
function, not wrapped in `asyncHandler`: when it throws or a query rejects,
nothing is called (no signal).  The query `skip(startIndex).limit(limit)` takes
the documents from `startIndex` on, at most `|limit|` of them, and rejects for a
negative skip.  Projection (`select`) and `populate` are not represented in the
documents. -/
def advancedResults (model : String) : Middleware := fun env req s =>
  let removeFields := ["select", "sort", "page", "limit"]
  let reqQuery := req.query.filter fun kv => !removeFields.contains kv.1
  let queryStr := replaceOperators (stringify reqQuery)
  match fieldList (req.query.lookup "select") "", fieldList (req.query.lookup "sort")
      "-createdAt _id" with
  | some _, some sortBy =>
    let page := parseIntOr (req.query.lookup "page") 1
    let limit := parseIntOr (req.query.lookup "limit") 25
    let startIndex := (page - 1) * limit
    let endIndex := page * limit
    let total : Int := countDocuments model s
    if startIndex < 0 then (req, s, [])
    else
      match env.find model queryStr sortBy s with
      | .error _ => (req, s, [])
      | .ok ids =>
        let documents := (ids.drop startIndex.toNat).take limit.natAbs
        let pagination : Pagination :=
          { next := if endIndex < total then some { page := page + 1, limit := limit } else none
            prev := if startIndex > 0 then some { page := page - 1, limit := limit } else none }
        ({ req with
           advancedResults := some
             { success := true
               count := some (documentsOf model s documents).length
               pagination := some pagination
               data := some (documentsOf model s documents) } }, s, [.next])
  | _, _ => (req, s, [])

/-- The call `res.status(200).json(res.advancedResults)`. -/
def sendAdvancedResults (req : Req) : Signal :=
  match req.advancedResults with
  | some body => .json 200 body
  | none => .send 200

/-! ## List handlers -/

/-- The query `Course.find` by bootcamp. -/
def Course.find (env : Env) (s : Store) (bootcamp : String) : Except Err (List Course) :=
  if env.isObjectId bootcamp then .ok (s.courses.filter fun c => c.bootcamp == bootcamp)
  else .error (CastError bootcamp "bootcamp")

/-- The query `Review.find` by bootcamp. -/
def Review.find (env : Env) (s : Store) (bootcamp : String) : Except Err (List Review) :=
  if env.isObjectId bootcamp then .ok (s.reviews.filter fun r => r.bootcamp == bootcamp)
  else .error (CastError bootcamp "bootcamp")

/-- The handler `getAllBootcamps`, GET /api/v1/bootcamps. -/
def getAllBootcamps : Middleware := asyncHandler fun _ req s =>
  (req, s, .ok [sendAdvancedResults req])

/-- The handler `getBootcampsInRadius`, GET /api/v1/bootcamps/radius/:zipcode/:distance. -/
def getBootcampsInRadius : Middleware := asyncHandler fun env req s =>
  match env.geocode req.params.zipcode with
  | .error err => (req, s, .error err)
  | .ok [] =>
    (req, s, .error (TypeError "Cannot read properties of undefined (reading latitude)"))
  | .ok ((lat, lng) :: _) =>
    let radius := (env.toNumber req.params.distance).map fun distance => distance / 3963.2
    match env.geoWithin lng lat radius s with
    | .error err => (req, s, .error err)
    | .ok ids =>
      let bootcamps := ids.filterMap fun id => s.bootcamps.find? fun b => b.id == id
      (req, s, .ok [.json 200
        { success := true, count := some bootcamps.length, data := some (.bootcamps bootcamps) }])

/-- The handler `getAllCourses`, GET /api/v1/courses and
GET /api/v1/bootcamps/:bootcampId/courses. -/
def getAllCourses : Middleware := asyncHandler fun env req s =>
  if req.params.bootcampId != "" then
    match Course.find env s req.params.bootcampId with
    | .error err => (req, s, .error err)
    | .ok courses =>
      (req, s, .ok [.json 200
        { success := true, count := some courses.length, data := some (.courses courses) }])
  else (req, s, .ok [sendAdvancedResults req])

/-- The handler `getAllReviews`, GET /api/v1/reviews and
GET /api/v1/bootcamps/:bootcampId/reviews. -/
def getAllReviews : Middleware := asyncHandler fun env req s =>
  if req.params.bootcampId != "" then
    match Review.find env s req.params.bootcampId with
    | .error err => (req, s, .error err)
    | .ok reviews =>
      (req, s, .ok [.json 200
        { success := true, count := some reviews.length, data := some (.reviews reviews) }])
  else (req, s, .ok [sendAdvancedResults req])

/-! ## Routes of the list and auth handlers -/

/-- GET /api/v1/bootcamps. -/
def bootcampRoutes.list : List Middleware :=
  [advancedResults "Bootcamp", getAllBootcamps]

/-- GET /api/v1/bootcamps/radius/:zipcode/:distance. -/
def bootcampRoutes.radius : List Middleware :=
  [getBootcampsInRadius]

/-- GET /api/v1/courses and GET /api/v1/bootcamps/:bootcampId/courses. -/
def courseRoutes.list : List Middleware :=
  [advancedResults "Course", getAllCourses]

/-- GET /api/v1/reviews and GET /api/v1/bootcamps/:bootcampId/reviews. -/
def reviewRoutes.list : List Middleware :=
  [advancedResults "Review", getAllReviews]

/-- POST /api/v1/auth/register. -/
def authRoutes.register : List Middleware :=
  [AlgoCamper.register]

/-- POST /api/v1/auth/login. -/
def authRoutes.login : List Middleware :=
  [AlgoCamper.login]

/-- GET /api/v1/auth/me. -/
def authRoutes.me : List Middleware :=
  [protect, showMe]

/-- PUT /api/v1/auth/updateDetails. -/
def authRoutes.updateDetails : List Middleware :=
  [protect, AlgoCamper.updateDetails]

/-- PUT /api/v1/auth/updatePassword. -/
def authRoutes.updatePassword : List Middleware :=
  [protect, updateUserPassword]

/-- POST /api/v1/auth/forgotPassword. -/
def authRoutes.forgotPassword : List Middleware :=
  [AlgoCamper.forgotPassword]

/-- GET /api/v1/auth/logout. -/
def authRoutes.logout : List Middleware :=
  [protect, logoutUserAndClearCookie]

/-- PUT /api/v1/auth/resetPassword/:token. -/
def authRoutes.resetPassword : List Middleware :=
  [AlgoCamper.resetPassword]

/-! ## Vocabulary of the specification -/

/-- The access policy of the specification (section 4.1), `canMutate(principal, resource)`:
true iff `principal.role == "admin"` or `resource.ownerId == principal.id`. -/
def canMutate (principal : User) (ownerId : String) : Bool :=
  principal.role == "admin" || ownerId == principal.id

/-- The creation constraint of the specification (section 4.2), `canCreateBootcamp(principal)`:
an admin always may; a non-admin may iff no existing bootcamp has `ownerId == principal.id`. -/
def canCreateBootcamp (s : Store) (principal : User) : Bool :=
  principal.role == "admin" || !(s.bootcamps.any fun b => b.user == principal.id)

/-- The only call made was `next(err)` with an error of the given HTTP status. -/
def rejectedWith (status : Nat) (signals : List Signal) : Bool :=
  match signals with
  | [.nextErr err] => err.statusCode == some status
  | _ => false

/-- The mutation step of `updateBootcamp`: the awaited `findByIdAndUpdate` and the response. -/
def updateBootcamp.commit (env : Env) (req : Req) (s : Store) : Req × Store × List Signal :=
  match Bootcamp.findByIdAndUpdate env s req.params.id req.body true with
  | .error err => (req, s, [.nextErr err])
  | .ok (s', none) => (req, s', [.json 200 { success := true, data := some .null }])
  | .ok (s', some bootcamp) =>
    (req, s', [.json 200 { success := true, data := some (.bootcamp bootcamp) }])

/-- The mutation step of `deleteBootcamp`: `bootcamp.remove()` and the response. -/
def deleteBootcamp.commit (req : Req) (s : Store) (bootcamp : Bootcamp) : Req × Store × List Signal :=
  (req, Bootcamp.remove s bootcamp, [.json 200 { success := true, data := some .empty }])

/-- The mutation step of `updateCourse`. -/
def updateCourse.commit (env : Env) (req : Req) (s : Store) : Req × Store × List Signal :=
  match Course.findByIdAndUpdate env s req.params.id req.body with
  | .error err => (req, s, [.nextErr err])
  | .ok (s', none) => (req, s', [.json 200 { success := true, data := some .null }])
  | .ok (s', some course) =>
    (req, s', [.json 200 { success := true, data := some (.course course) }])

/-- The mutation step of `deleteCourse`. -/
def deleteCourse.commit (env : Env) (req : Req) (s : Store) (course : Course) :
    Req × Store × List Signal :=
  (req, Course.remove env s course, [.json 200 { success := true, data := some .empty }])

/-- The mutation step of `updateReview`. -/
def updateReview.commit (env : Env) (req : Req) (s : Store) : Req × Store × List Signal :=
  match Review.findByIdAndUpdate env s req.params.id req.body with
  | .error err => (req, s, [.nextErr err])
  | .ok (s', none) => (req, s', [.json 200 { success := true, data := some .null }])
  | .ok (s', some review) =>
    (req, s', [.json 200 { success := true, data := some (.review review) }])

/-- The mutation step of `deleteReview`. -/
def deleteReview.commit (env : Env) (req : Req) (s : Store) (review : Review) :
    Req × Store × List Signal :=
  (req, Review.remove env s review, [.json 200 { success := true, data := some .empty }])

/-- The ownership gate of a handler that answered `out` where its mutation step
is `commit`: the mutation proceeds iff the policy allows it, and otherwise the
handler only passes an error to `next`, leaving request and store as they were. -/
def OwnershipGate (req : Req) (s : Store) (principal : User) (ownerId : String)
    (out commit : Req × Store × List Signal) : Prop :=
  (out = commit ↔ canMutate principal ownerId = true) ∧
  (canMutate principal ownerId = false →
    out.1 = req ∧ out.2.1 = s ∧ ∃ err, out.2.2 = [.nextErr err])

/-! ## Sample data -/

/-- A lower-case hexadecimal digit. -/
def isHexChar (c : Char) : Bool :=
  c.isDigit || ('a' ≤ c && c ≤ 'f')

/-- A string of 24 hexadecimal digits, the textual form of an ObjectId. -/
def isHex24 (id : String) : Bool :=
  id.length == 24 && id.toList.all isHexChar

/-- Collaborators that accept every write: ids are 24 hex digits, new ids are
taken from a fixed sequence, the token `good` verifies for the user `alice`,
and an aggregation started by a remove hook is served before the delete. -/
def demoEnv : Env :=
  { isObjectId := isHex24
    newObjectId := fun s =>
      ["60d5ec49f1b2c8b1f8e4e1a0", "60d5ec49f1b2c8b1f8e4e1a1", "60d5ec49f1b2c8b1f8e4e1a2"].getD
        (s.bootcamps.length + s.courses.length + s.reviews.length) "60d5ec49f1b2c8b1f8e4e1af"
    validate := fun _ _ _ => []
    writeFails := fun _ _ _ => none
    jwtVerify := fun token => if token == "good" then some "5d7a514b5d2c12c7449be045" else none
    maxImageSize := some 1000000
    fileUploadPath := "./public/uploads"
    ext := fun _ => ".jpg"
    mv := fun _ => true
    aggregateBeforeDelete := true
    aggregateFails := fun _ _ _ => none
    jwtSign := fun id => "jwt." ++ id
    genSalt := fun _ => "salt"
    bcryptHash := fun password salt => salt ++ ":" ++ password
    bcryptCompare := fun candidate hash => hash == "salt:" ++ candidate
    sha256 := fun value => "sha256:" ++ value
    randomBytes := fun _ => "0f1e2d3c4b5a69788796a5b4c3d2e1f001234567"
    now := 1700000000000
    isEmail := fun email => email.toList.contains '@'
    sendEmail := fun _ _ => none
    geocode := fun _ => .ok [(42.35, -71.1)]
    toNumber := fun _ => some 10
    geoWithin := fun _ _ _ s => .ok (s.bootcamps.map fun b => b.id)
    find := fun model _ _ s =>
      .ok (if model == "Bootcamp" then s.bootcamps.map fun b => b.id
        else if model == "Course" then s.courses.map fun c => c.id
        else if model == "Review" then s.reviews.map fun r => r.id
        else s.users.map fun u => u.id) }

/-- A publisher. -/
def alice : User := { id := "5d7a514b5d2c12c7449be045", role := "publisher" }

/-- Another publisher. -/
def bob : User := { id := "5d7a514b5d2c12c7449be046", role := "publisher" }

/-- An administrator. -/
def carol : User := { id := "5d7a514b5d2c12c7449be047", role := "admin" }

/-- A plain user. -/
def dave : User := { id := "5d7a514b5d2c12c7449be048", role := "user" }

/-- A store with one bootcamp of `alice`, one course of hers in it and a review by `dave`. -/
def demoStore : Store :=
  { users := [alice, bob, carol, dave]
    bootcamps := [{ id := "5d713995b721c3bb38c1f5d0", user := "5d7a514b5d2c12c7449be045" }]
    courses := [{ id := "5d725a4a7b292f5f8ceff789", bootcamp := "5d713995b721c3bb38c1f5d0",
                  user := "5d7a514b5d2c12c7449be045", tuition := 8000 }]
    reviews := [{ id := "5d7a514b5d2c12c7449be020", bootcamp := "5d713995b721c3bb38c1f5d0",
                  user := "5d7a514b5d2c12c7449be048", rating := 8 }] }

/-- The stored bootcamp of `demoStore`. -/
def demoBootcamp : Bootcamp :=
  { id := "5d713995b721c3bb38c1f5d0", user := "5d7a514b5d2c12c7449be045" }

/-- The stored course of `demoStore`. -/
def demoCourse : Course :=
  { id := "5d725a4a7b292f5f8ceff789", bootcamp := "5d713995b721c3bb38c1f5d0",
    user := "5d7a514b5d2c12c7449be045", tuition := 8000 }

/-- The stored review of `demoStore`. -/
def demoReview : Review :=
  { id := "5d7a514b5d2c12c7449be020", bootcamp := "5d713995b721c3bb38c1f5d0",
    user := "5d7a514b5d2c12c7449be048", rating := 8 }

/-- The remaining paths of a valid new bootcamp. -/
def devworksFields : List (String × String) :=
  [("name", "Devworks Bootcamp"), ("description", "Full stack web development"),
   ("address", "233 Bay State Rd Boston MA 02215"), ("careers", "Web Development")]

/-- The remaining paths of a second valid new bootcamp, with another name. -/
def modernTechFields : List (String × String) :=
  [("name", "ModernTech Bootcamp"), ("description", "Front end and UI/UX"),
   ("address", "220 Pawtucket St Lowell MA 01854"), ("careers", "UI/UX")]

/-- POST /api/v1/bootcamps by an authenticated principal, with a valid body. -/
def createRequestBy (principal : User) : Req :=
  { body := { other := devworksFields }, user := some principal }

/-- A request on the route parameter `id` by an authenticated principal, with an empty body. -/
def requestBy (principal : User) (id : String) : Req :=
  { params := { id := id }, user := some principal }

/-- The only call made was `next(err)` with an `ErrorResponseAPI` of the given
HTTP status whose message names the principal and the denied action. -/
def DeniedWith (signals : List Signal) (status : Nat) (principalId action : String) : Prop :=
  ∃ message, signals = [.nextErr (ErrorResponseAPI message status)] ∧
    includes message principalId = true ∧ includes message action = true

/-- The string form of the owner reference of the bootcamp that `findById` resolves. -/
def bootcampOwner (env : Env) (s : Store) (id : String) : Option String :=
  match Bootcamp.findById env s id with
  | .ok (some bootcamp) => some bootcamp.user
  | _ => none

/-- The string form of the owner reference of the course that `findById` resolves. -/
def courseOwner (env : Env) (s : Store) (id : String) : Option String :=
  match Course.findById env s id with
  | .ok (some course) => some course.user
  | _ => none

/-- The string form of the owner reference of the review that `findById` resolves. -/
def reviewOwner (env : Env) (s : Store) (id : String) : Option String :=
  match Review.findById env s id with
  | .ok (some review) => some review.user
  | _ => none

/-- The error with which `authorizePermissions` turns a role away. -/
def accessDenied (role : String) : Err :=
  ErrorResponseAPI
    ("ACCESS DENIED: User role | " ++ role ++ " | is unauthorized to perform this action ") 403

/-- A route `protect, authorizePermissions(roles), handler` is gated by role:
for the principal `P` that `protect` put on the request, a role outside `roles`
is answered by the 403 of the gate alone, with the store untouched, and a role
in `roles` by the handler; the store changes only for a role in `roles`. -/
def RoleGated (roles : List String) (route : List Middleware) (handler : Middleware) : Prop :=
  ∀ (env : Env) (req : Req) (s : Store),
    (∀ (req' : Req) (P : User), protect env req s = (req', s, [.next]) → req'.user = some P →
      (P.role ∉ roles → runStack env route req s = (s, [.nextErr (accessDenied P.role)])) ∧
      (P.role ∈ roles →
        runStack env route req s = ((handler env req' s).2.1, (handler env req' s).2.2))) ∧
    ((runStack env route req s).1 ≠ s →
      ∃ P, (protect env req s).1.user = some P ∧ P.role ∈ roles)

/-- A route changes the store only when the role gate and the ownership check
both pass: `owner` reads the owner of the record that the route parameter
`target` resolves to. -/
def OwnerGated (roles : List String) (route : List Middleware)
    (owner : Env → Store → String → Option String) (target : Params → String) : Prop :=
  ∀ (env : Env) (req : Req) (s : Store), (runStack env route req s).1 ≠ s →
    ∃ P ownerId, (protect env req s).1.user = some P ∧ P.role ∈ roles ∧
      owner env s (target req.params) = some ownerId ∧ canMutate P ownerId = true

/-- A store in which the publisher `alice` is the recorded author of a review. -/
def publisherReviewStore : Store :=
  { users := [alice, bob, carol, dave]
    bootcamps := [{ id := "5d713995b721c3bb38c1f5d0", user := "5d7a514b5d2c12c7449be046" }]
    reviews := [{ id := "5d7a514b5d2c12c7449be020", bootcamp := "5d713995b721c3bb38c1f5d0",
                  user := "5d7a514b5d2c12c7449be045", rating := 8 }] }

/-- PUT /api/v1/reviews/5d7a514b5d2c12c7449be020 with the bearer token of `alice`. -/
def publisherReviewUpdate : Req :=
  { authorization := some "Bearer good", params := { id := "5d7a514b5d2c12c7449be020" },
    body := { rating := some 9 } }

/-- The handler answers a missing record before it looks at the principal:
whoever is on `req.user` (also nobody), it only passes to `next` the 404 error
with the given message, which contains the id, leaving request and store as
they were. -/
def NotFoundFirst (handler : Middleware) (env : Env) (req : Req) (s : Store)
    (message id : String) : Prop :=
  includes message id = true ∧
  ∀ user : Option User,
    handler env { req with user := user } s =
      ({ req with user := user }, s, [.nextErr (ErrorResponseAPI message 404)])

/-- The same for the creating handlers, which first write the principal's id
into `req.body`: for every principal, the 404 error is the only call and the
store stays as it was. -/
def ParentNotFoundFirst (handler : Middleware) (env : Env) (req : Req) (s : Store)
    (message id : String) : Prop :=
  includes message id = true ∧
  ∀ principal : User,
    (handler env { req with user := some principal } s).2 =
      (s, [.nextErr (ErrorResponseAPI message 404)])

/-- A request for an id that no collection of `demoStore` holds. -/
def missingIdRequest : Req :=
  { params := { id := "5d7a514b5d2c12c7449be999", bootcampId := "5d7a514b5d2c12c7449be998" } }

/-- The creation step of `createBootcamp`: the body with `user` overwritten by
the principal's id is given to `Bootcamp.create`. -/
def createBootcamp.commit (env : Env) (req : Req) (s : Store) (principal : User) :
    Req × Store × List Signal :=
  match Bootcamp.create env s { req.body with user := some principal.id } with
  | .error err =>
    ({ req with body := { req.body with user := some principal.id } }, s, [.nextErr err])
  | .ok (s', bootcamp) =>
    ({ req with body := { req.body with user := some principal.id } }, s',
      [.json 201 { success := true, data := some (.bootcamp bootcamp) }])

/-- A creating request of the admin `carol` under the bootcamp of `demoStore`
whose body itself carries a `user` and a `bootcamp`, those of somebody else. -/
def clientOwnerRequest : Req :=
  { params := { bootcampId := "5d713995b721c3bb38c1f5d0" }
    body := { user := some "5d7a514b5d2c12c7449be046", bootcamp := some "5d713995b721c3bb38c1f5d9",
              tuition := some 100, rating := some 7,
              other := devworksFields ++
                [("title", "Learn it all"), ("text", "A lot was covered"), ("weeks", "8"),
                 ("minimumSkill", "beginner")] }
    user := some carol }

/-- PUT /api/v1/bootcamps/:id by the owner `alice`, with a body that names `bob` as `user`. -/
def transferBootcampRequest : Req :=
  { params := { id := "5d713995b721c3bb38c1f5d0" }
    body := { user := some "5d7a514b5d2c12c7449be046" }
    user := some alice }

/-- PUT /api/v1/courses/:id by the owner `alice`, with a body that names `bob` as `user`. -/
def transferCourseRequest : Req :=
  { params := { id := "5d725a4a7b292f5f8ceff789" }
    body := { user := some "5d7a514b5d2c12c7449be046" }
    user := some alice }

/-- PUT /api/v1/reviews/:id by the author `dave`, with a body that names `bob` as `user`. -/
def transferReviewRequest : Req :=
  { params := { id := "5d7a514b5d2c12c7449be020" }
    body := { user := some "5d7a514b5d2c12c7449be046" }
    user := some dave }

/-- PUT /api/v1/bootcamps/:id by the owner `alice`, changing the photo only. -/
def photoRequest : Req :=
  { params := { id := "5d713995b721c3bb38c1f5d0" }
    body := { photo := some "campus.jpg" }
    user := some alice }

/-- The owner reference of every bootcamp, by id. -/
def bootcampOwners (s : Store) : List (String × String) :=
  s.bootcamps.map fun b => (b.id, b.user)

/-- The owner reference of every course, by id. -/
def courseOwners (s : Store) : List (String × String) :=
  s.courses.map fun c => (c.id, c.user)

/-- The owner reference of every review, by id. -/
def reviewOwners (s : Store) : List (String × String) :=
  s.reviews.map fun r => (r.id, r.user)

/-! ## Sequences of bootcamp requests -/

/-- A request to one of the three mutating bootcamp handlers, issued by the
authenticated principal with the given id. -/
inductive BootcampRequest where
  | create (principal : String) (body : Body)
  | update (principal : String) (id : String) (body : Body)
  | delete (principal : String) (id : String)
  deriving DecidableEq, Repr

/-- The store after the handler has served the request; `roleOf` gives the role
of each principal. -/
def serve (env : Env) (roleOf : String → String) (s : Store) : BootcampRequest → Store
  | .create principal body =>
    (createBootcamp env
      { body := body, user := some { id := principal, role := roleOf principal } } s).2.1
  | .update principal id body =>
    (updateBootcamp env
      { params := { id := id }, body := body,
        user := some { id := principal, role := roleOf principal } } s).2.1
  | .delete principal id =>
    (deleteBootcamp env
      { params := { id := id }, user := some { id := principal, role := roleOf principal } } s).2.1

/-- The store reached from the empty store by a sequence of requests. -/
def reach (env : Env) (roleOf : String → String) (requests : List BootcampRequest) : Store :=
  requests.foldl (serve env roleOf) {}

/-- The number of bootcamps whose recorded owner is the principal. -/
def owned (s : Store) (principal : String) : Nat :=
  (s.bootcamps.map fun b => b.user).count principal

/-- The request is no update whose body carries a `user` field. -/
def BootcampRequest.keepsOwner : BootcampRequest → Bool
  | .update _ _ body => body.user.isNone
  | _ => true

/-- Two publishers create a bootcamp each, then the second one updates hers
with a body that names the first as `user`. -/
def handOver : List BootcampRequest :=
  [ .create "5d7a514b5d2c12c7449be045" { other := devworksFields },
    .create "5d7a514b5d2c12c7449be046" { other := modernTechFields },
    .update "5d7a514b5d2c12c7449be046" "60d5ec49f1b2c8b1f8e4e1a1"
      { user := some "5d7a514b5d2c12c7449be045" } ]

/-- A sequence without a `user` field: create, change the photo, a second
create by the same publisher, a delete by somebody else. -/
def plainRequests : List BootcampRequest :=
  [ .create "5d7a514b5d2c12c7449be045" { other := devworksFields },
    .update "5d7a514b5d2c12c7449be045" "60d5ec49f1b2c8b1f8e4e1a0" { photo := some "campus.jpg" },
    .create "5d7a514b5d2c12c7449be045" { other := modernTechFields },
    .delete "5d7a514b5d2c12c7449be046" "60d5ec49f1b2c8b1f8e4e1a0" ]

/-! ## Cascade and derived aggregates: vocabulary and sample data -/

/-- The arithmetic mean of a list of numbers. -/
def mean (values : List ℚ) : ℚ :=
  values.sum / values.length

/-- The tuition values of the courses whose `bootcamp` is the given id. -/
def tuitionsOf (s : Store) (bootcampId : String) : List ℚ :=
  (s.courses.filter fun c => c.bootcamp == bootcampId).map fun c => c.tuition

/-- The ratings of the reviews whose `bootcamp` is the given id. -/
def ratingsOf (s : Store) (bootcampId : String) : List ℚ :=
  (s.reviews.filter fun r => r.bootcamp == bootcampId).map fun r => r.rating

/-- The number `m` is the least multiple of 10 that is greater than or equal to `x`. -/
def IsLeastMultipleOfTen (m x : ℚ) : Prop :=
  (∃ k : ℤ, m = 10 * k) ∧ x ≤ m ∧ ∀ k : ℤ, x ≤ 10 * k → m ≤ 10 * k

/-- The stored `averageCost` of the bootcamp with the given id. -/
def averageCostOf (s : Store) (bootcampId : String) : Option ℚ :=
  (s.bootcamps.find? fun b => b.id == bootcampId).bind fun b => b.averageCost

/-- The stored `averageRating` of the bootcamp with the given id. -/
def averageRatingOf (s : Store) (bootcampId : String) : Option ℚ :=
  (s.bootcamps.find? fun b => b.id == bootcampId).bind fun b => b.averageRating

/-- A course of the bootcamp of `demoStore` with the given id and tuition. -/
def courseOf (id : String) (tuition : ℚ) : Course :=
  { id := id, bootcamp := "5d713995b721c3bb38c1f5d0", user := "5d7a514b5d2c12c7449be045",
    tuition := tuition }

/-- A review of the bootcamp of `demoStore` with the given id, author and rating. -/
def reviewOf (id user : String) (rating : ℚ) : Review :=
  { id := id, bootcamp := "5d713995b721c3bb38c1f5d0", user := user, rating := rating }

/-- The bootcamp of `alice` with courses of tuition 100, 200 and 300. -/
def threeCourses : Store :=
  { users := [alice, bob, carol, dave]
    bootcamps := [demoBootcamp]
    courses := [courseOf "5d725a4a7b292f5f8ceff781" 100, courseOf "5d725a4a7b292f5f8ceff782" 200,
                courseOf "5d725a4a7b292f5f8ceff783" 300] }

/-- The bootcamp of `alice` with courses of tuition 101 and 0. -/
def twoCourses : Store :=
  { users := [alice, bob, carol, dave]
    bootcamps := [demoBootcamp]
    courses := [courseOf "5d725a4a7b292f5f8ceff781" 101, courseOf "5d725a4a7b292f5f8ceff782" 0] }

/-- The bootcamp of `alice` with reviews rated 4 and 8. -/
def twoReviews : Store :=
  { users := [alice, bob, carol, dave]
    bootcamps := [demoBootcamp]
    reviews := [reviewOf "5d7a514b5d2c12c7449be021" "5d7a514b5d2c12c7449be048" 4,
                reviewOf "5d7a514b5d2c12c7449be022" "5d7a514b5d2c12c7449be046" 8] }

/-- DELETE /api/v1/courses/:id by `alice` for her course of tuition 300 in `threeCourses`. -/
def deleteThirdCourse : Req :=
  requestBy alice "5d725a4a7b292f5f8ceff783"

/-- DELETE /api/v1/reviews/:id by `bob` for his review rated 8 in `twoReviews`. -/
def deleteSecondReview : Req :=
  requestBy bob "5d7a514b5d2c12c7449be022"


/-! ## Failures: vocabulary and sample data -/

/-- The value of the local variable `error` of `errorHandlerMiddleware` when the
response is sent: a copy of `err` with its message, replaced in turn for a
`CastError`, for a duplicate key (code 11000) and for a `ValidationError`. -/
def errorHandlerMiddleware.error (err : Err) : Err :=
  let error : Err := err
  let error :=
    if err.name == "CastError" then ErrorResponseAPI "Resource not found" 404 else error
  let error :=
    if err.code == some 11000 then
      ErrorResponseAPI
        ("Duplicate value entered for " ++ ",".intercalate (err.keyValue.map fun kv => kv.1)
          ++ " field, please choose another value") 400
    else error
  if err.name == "ValidationError" then
    ErrorResponseAPI (", ".intercalate (err.errors.map fun e => e.2)) 400
  else error

/-- The HTTP status of a response, when the signal is one. -/
def Signal.status : Signal → Option Nat
  | .json status _ => some status
  | _ => none

/-- The JSON body of a response, when the signal is one. -/
def Signal.body : Signal → Option ResBody
  | .json _ body => some body
  | _ => none

/-- The error that a lost connection to MongoDB raises in a query. -/
def networkError : Err :=
  { name := "MongoNetworkError", message := "connection 1 to 127.0.0.1:27017 closed" }

/-- The collaborators of `demoEnv`, except that every aggregation query fails. -/
def brokenAggregateEnv : Env :=
  { demoEnv with aggregateFails := fun _ _ _ => some networkError }

/-- POST /api/v1/bootcamps/:bootcampId/reviews by an authenticated principal
with the given rating. -/
def reviewRequestBy (principal : User) (bootcampId : String) (rating : ℚ) : Req :=
  { params := { bootcampId := bootcampId }, body := { rating := some rating },
    user := some principal }

/-- An error that is a `ValidationError` by its name and a duplicate key error by its code. -/
def mixedError : Err :=
  { name := "ValidationError", message := "Validation failed", code := some 11000,
    keyValue := [("email", "a@b.c")], errors := [("rating", "Please add a rating between 1 and 10"),
      ("title", "Please add a title for the review")] }

/-- An error that is a `CastError` by its name and a duplicate key error by its code. -/
def castDuplicateError : Err :=
  { name := "CastError", message := "Cast to ObjectId failed", code := some 11000,
    keyValue := [("bootcamp", "5d713995b721c3bb38c1f5d0"), ("user", "5d7a514b5d2c12c7449be048")] }

/-! ## Time of the recomputation: sample data -/

/-- The store `demoStore` with the derived fields of its bootcamp up to date:
`averageCost` 8000 for its single course, `averageRating` 8 for its single review. -/
def settledStore : Store :=
  { demoStore with
    bootcamps := [{ demoBootcamp with averageCost := some 8000, averageRating := some 8 }] }

/-- POST /api/v1/bootcamps/:bootcampId/courses by `alice` for her bootcamp, with tuition 100. -/
def addCheapCourse : Req :=
  { params := { bootcampId := "5d713995b721c3bb38c1f5d0" }, body := { tuition := some 100 },
    user := some alice }

/-- The course that `addCheapCourse` stores in `settledStore`. -/
def cheapCourse : Course :=
  { id := "60d5ec49f1b2c8b1f8e4e1af", bootcamp := "5d713995b721c3bb38c1f5d0",
    user := "5d7a514b5d2c12c7449be045", tuition := 100 }

/-- The review that `reviewRequestBy bob` with rating 4 stores in `settledStore`. -/
def lowReview : Review :=
  { id := "60d5ec49f1b2c8b1f8e4e1af", bootcamp := "5d713995b721c3bb38c1f5d0",
    user := "5d7a514b5d2c12c7449be046", rating := 4 }

/-! ## The success envelope: vocabulary and sample data -/

/-- The handlers of the bootcamp, course, review and auth controllers. -/
inductive Endpoint where
  | getAllBootcamps
  | getBootcamp
  | createBootcamp
  | updateBootcamp
  | deleteBootcamp
  | getBootcampsInRadius
  | uploadImage
  | getAllCourses
  | getSingleCourse
  | addCourse
  | updateCourse
  | deleteCourse
  | getAllReviews
  | getSingleReview
  | createReview
  | updateReview
  | deleteReview
  | register
  | login
  | logoutUserAndClearCookie
  | showMe
  | forgotPassword
  | resetPassword
  | updateDetails
  | updateUserPassword
  deriving DecidableEq, Repr

/-- What the handler of an endpoint calls on `next` and `res`.  The three list
handlers that send `res.advancedResults` run behind `advancedResults`, as their
routes mount them. -/
def Endpoint.run (endpoint : Endpoint) (env : Env) (req : Req) (s : Store) : List Signal :=
  match endpoint with
  | .getAllBootcamps => (runStack env bootcampRoutes.list req s).2
  | .getBootcamp => (AlgoCamper.getBootcamp env req s).2.2
  | .createBootcamp => (AlgoCamper.createBootcamp env req s).2.2
  | .updateBootcamp => (AlgoCamper.updateBootcamp env req s).2.2
  | .deleteBootcamp => (AlgoCamper.deleteBootcamp env req s).2.2
  | .getBootcampsInRadius => (AlgoCamper.getBootcampsInRadius env req s).2.2
  | .uploadImage => (AlgoCamper.uploadImage env req s).2.2
  | .getAllCourses => (runStack env courseRoutes.list req s).2
  | .getSingleCourse => (AlgoCamper.getSingleCourse env req s).2.2
  | .addCourse => (AlgoCamper.addCourse env req s).2.2
  | .updateCourse => (AlgoCamper.updateCourse env req s).2.2
  | .deleteCourse => (AlgoCamper.deleteCourse env req s).2.2
  | .getAllReviews => (runStack env reviewRoutes.list req s).2
  | .getSingleReview => (AlgoCamper.getSingleReview env req s).2.2
  | .createReview => (AlgoCamper.createReview env req s).2.2
  | .updateReview => (AlgoCamper.updateReview env req s).2.2
  | .deleteReview => (AlgoCamper.deleteReview env req s).2.2
  | .register => (AlgoCamper.register env req s).2.2
  | .login => (AlgoCamper.login env req s).2.2
  | .logoutUserAndClearCookie => (AlgoCamper.logoutUserAndClearCookie env req s).2.2
  | .showMe => (AlgoCamper.showMe env req s).2.2
  | .forgotPassword => (AlgoCamper.forgotPassword env req s).2.2
  | .resetPassword => (AlgoCamper.resetPassword env req s).2.2
  | .updateDetails => (AlgoCamper.updateDetails env req s).2.2
  | .updateUserPassword => (AlgoCamper.updateUserPassword env req s).2.2

/-- The handlers that end with `createTokenAndAttachCookiesToResponse`. -/
def Endpoint.sendsToken : Endpoint → Bool
  | .register => true
  | .login => true
  | .resetPassword => true
  | .updateUserPassword => true
  | _ => false

/-- A response body `{success: true, data}`, with `count` and `pagination` free. -/
def ResBody.hasData (body : ResBody) : Bool :=
  body.success && body.data.isSome && body.token.isNone && body.error.isNone

/-- A response body `{success: true, token}`, with no other field. -/
def ResBody.hasToken (body : ResBody) : Bool :=
  body.success && body.token.isSome && body.data.isNone && body.error.isNone
    && body.count.isNone && body.pagination.isNone

/-- A signal that is no response with an empty body and, when it is a response
of a status from 200 to 299, has the body of the wanted kind. -/
def Signal.enveloped (token : Bool) : Signal → Bool
  | .json status body =>
    !(decide (200 ≤ status) && decide (status < 300)) ||
      (if token then body.hasToken else body.hasData)
  | .send _ => false
  | _ => true

/-- The user `dave` with an email address. -/
def daveAccount : User :=
  { dave with name := "Dave", email := "dave@example.com" }

/-- A store with the account of `dave`, whose password is `secret1`. -/
def accountStore : Store :=
  { users := [daveAccount], passwords := [(dave.id, "salt:secret1")] }

/-- POST /api/v1/auth/login with the email and password of `dave`. -/
def daveLogin : Req :=
  { body := { other := [("email", "dave@example.com"), ("password", "secret1")] } }

/-! ## Accounts, tokens and lists: sample data -/

/-- The collaborators of `demoEnv`, except that an aggregation started by a
remove hook is served after the delete. -/
def lateAggregateEnv : Env :=
  { demoEnv with aggregateBeforeDelete := false }

/-- The store `demoStore` after the account of `alice` was deleted. -/
def orphanTokenStore : Store :=
  { demoStore with users := [bob, carol, dave] }

/-- POST /api/v1/bootcamps with the bearer token that verifies for the id of `alice`. -/
def orphanTokenRequest : Req :=
  { authorization := some "Bearer good", body := { other := devworksFields } }

/-- DELETE /api/v1/courses/:id by `alice` for the single course of `settledStore`. -/
def deleteLastCourse : Req :=
  requestBy alice "5d725a4a7b292f5f8ceff789"

/-- DELETE /api/v1/reviews/:id by `dave` for the single review of `settledStore`. -/
def deleteLastReview : Req :=
  requestBy dave "5d7a514b5d2c12c7449be020"

/-- PUT /api/v1/courses/:id by `alice` for the course of `settledStore`, with tuition 100. -/
def cheaperCourse : Req :=
  { params := { id := "5d725a4a7b292f5f8ceff789" }, body := { tuition := some 100 },
    user := some alice }

/-- PUT /api/v1/reviews/:id by `dave` for his review of `settledStore`, with rating 2. -/
def lowerRating : Req :=
  { params := { id := "5d7a514b5d2c12c7449be020" }, body := { rating := some 2 },
    user := some dave }

/-- POST /api/v1/bootcamps/:bootcampId/courses by the admin `carol` for the
bootcamp of `alice`, with tuition 100. -/
def adminAddsCourse : Req :=
  { params := { bootcampId := "5d713995b721c3bb38c1f5d0" }, body := { tuition := some 100 },
    user := some carol }

/-- The course that `adminAddsCourse` stores in `settledStore`: its `user` is `carol`. -/
def adminCourse : Course :=
  { id := "60d5ec49f1b2c8b1f8e4e1af", bootcamp := "5d713995b721c3bb38c1f5d0",
    user := "5d7a514b5d2c12c7449be047", tuition := 100 }

/-- PUT /api/v1/courses/:id by `alice` for the course that the admin added, with tuition 200. -/
def ownerUpdatesAdminCourse : Req :=
  { params := { id := "60d5ec49f1b2c8b1f8e4e1af" }, body := { tuition := some 200 },
    user := some alice }

/-- DELETE /api/v1/courses/:id by `alice` for the course that the admin added. -/
def ownerDeletesAdminCourse : Req :=
  requestBy alice "60d5ec49f1b2c8b1f8e4e1af"

/-- The text `queryStr` that `advancedResults` parses into the filter of
`Model.find`: the query without `select`, `sort`, `page` and `limit`, written
as JSON, after the replacement of the operator names. -/
def advancedResults.queryStr (req : Req) : String :=
  let removeFields := ["select", "sort", "page", "limit"]
  let reqQuery := req.query.filter fun kv => !removeFields.contains kv.1
  replaceOperators (stringify reqQuery)

/-- GET /api/v1/courses?page=2&limit=1. -/
def secondPage : Req :=
  { query := [("page", .str "2"), ("limit", .str "1")] }

/-- GET /api/v1/bootcamps?name=coding in java&averageCost[lte]=10000&page=1&select=name. -/
def javaSearch : Req :=
  { query := [("name", .str "coding in java"), ("averageCost", .obj [("lte", "10000")]),
              ("page", .str "1"), ("select", .str "name")] }

/-- The collaborators of `demoEnv`, except that `Model.find` answers only the
filter in which the name is `coding $in java` and rejects every other filter. -/
def mangledFilterEnv : Env :=
  { demoEnv with
    find := fun _ filter _ s =>
      if filter == "\x7b\"name\":\"coding $in java\",\"averageCost\":\x7b\"$lte\":\"10000\"\x7d\x7d"
      then .ok (s.bootcamps.map fun b => b.id)
      else .error networkError }

/-- The collaborators of `demoEnv`, except that `Model.find` with the filter
`tuition` = 300 finds the courses of that tuition. -/
def tuitionFilterEnv : Env :=
  { demoEnv with
    find := fun model filter sortBy s =>
      if filter == "\x7b\"tuition\":\"300\"\x7d" then
        .ok ((s.courses.filter fun c => c.tuition == 300).map fun c => c.id)
      else demoEnv.find model filter sortBy s }

/-- GET /api/v1/courses?tuition=300&limit=1. -/
def expensiveCourses : Req :=
  { query := [("tuition", .str "300"), ("limit", .str "1")] }

/-- GET /api/v1/courses?tuition=300&limit=1&page=2. -/
def expensiveCoursesNext : Req :=
  { query := [("tuition", .str "300"), ("limit", .str "1"), ("page", .str "2")] }

/-- The account of `dave` after `getResetPasswordToken` at the time of `demoEnv`. -/
def daveResetting : User :=
  (User.getResetPasswordToken demoEnv accountStore daveAccount).1

/-- The store `accountStore` with the reset token of `dave` saved. -/
def resetStore : Store :=
  { accountStore with users := [daveResetting] }

/-- The collaborators of `demoEnv` one minute later. -/
def laterEnv : Env :=
  { demoEnv with now := 1700000060000 }

/-- PUT /api/v1/auth/resetPassword/:token with the plain token sent to `dave`
and a new password. -/
def resetRequest : Req :=
  { params := { token := "0f1e2d3c4b5a69788796a5b4c3d2e1f001234567" },
    body := { other := [("password", "newsecret")] } }

/-! ## Theorems -/

/-! ## Errors raised by the store carry no HTTP status -/

theorem castUpdate_statusCode {env : Env} {path : String} {value : Option String} {err : Err}
    (h : castUpdate env path value = some err) : err.statusCode = none := by
  unfold castUpdate at h
  split at h
  · simp at h
  · split at h
    · simp at h
    · simp at h; subst h; rfl

theorem writeFailure_statusCode (failure : WriteFailure) :
    failure.toErr.statusCode = none := by
  cases failure <;> rfl

theorem bootcampUpdate_statusCode {env : Env} {s : Store} {id : String} {body : Body}
    {rv : Bool} {err : Err}
    (h : Bootcamp.findByIdAndUpdate env s id body rv = .error err) : err.statusCode = none := by
  unfold Bootcamp.findByIdAndUpdate at h
  cases rv <;> simp only [Bool.false_eq_true, ↓reduceIte] at h <;> (repeat' split at h) <;>
    cases h <;>
    first
      | rfl
      | exact writeFailure_statusCode _
      | (apply castUpdate_statusCode; assumption)

theorem courseUpdate_statusCode {env : Env} {s : Store} {id : String} {body : Body}
    {err : Err}
    (h : Course.findByIdAndUpdate env s id body = .error err) : err.statusCode = none := by
  unfold Course.findByIdAndUpdate at h
  dsimp only at h
  (repeat' split at h) <;>
    cases h <;>
    first
      | rfl
      | exact writeFailure_statusCode _
      | (apply castUpdate_statusCode; assumption)

theorem reviewUpdate_statusCode {env : Env} {s : Store} {id : String} {body : Body}
    {err : Err}
    (h : Review.findByIdAndUpdate env s id body = .error err) : err.statusCode = none := by
  unfold Review.findByIdAndUpdate at h
  dsimp only at h
  (repeat' split at h) <;>
    cases h <;>
    first
      | rfl
      | exact writeFailure_statusCode _
      | (apply castUpdate_statusCode; assumption)

/-! ## The ownership check of the six update / delete handlers -/

theorem canMutate_false_iff (P : User) (owner : String) :
    canMutate P owner = false ↔ (owner != P.id && P.role != "admin") = true := by
  simp [canMutate]
  tauto

theorem canMutate_true_iff (P : User) (owner : String) :
    canMutate P owner = true ↔ ¬ ((owner != P.id && P.role != "admin") = true) := by
  rw [← canMutate_false_iff]; simp

theorem updateBootcamp_denied {env : Env} {req : Req} {s : Store} {P : User} {R : Bootcamp}
    (hu : req.user = some P) (hf : Bootcamp.findById env s req.params.id = .ok (some R))
    (hc : canMutate P R.user = false) :
    updateBootcamp env req s =
      (req, s, [.nextErr (ErrorResponseAPI
        ("User with the ID " ++ P.id ++ " is not authorized to update this bootcamp") 401)]) := by
  rw [canMutate_false_iff] at hc
  simp [updateBootcamp, asyncHandler, hf, hu, hc]

theorem updateBootcamp_allowed {env : Env} {req : Req} {s : Store} {P : User} {R : Bootcamp}
    (hu : req.user = some P) (hf : Bootcamp.findById env s req.params.id = .ok (some R))
    (hc : canMutate P R.user = true) :
    updateBootcamp env req s = updateBootcamp.commit env req s := by
  rw [canMutate_true_iff] at hc
  unfold updateBootcamp.commit
  cases hup : Bootcamp.findByIdAndUpdate env s req.params.id req.body true with
  | error e => simp [updateBootcamp, asyncHandler, hf, hu, hc, hup]
  | ok r =>
    obtain ⟨s', d⟩ := r
    cases d <;> simp [updateBootcamp, asyncHandler, hf, hu, hc, hup]

theorem deleteBootcamp_denied {env : Env} {req : Req} {s : Store} {P : User} {R : Bootcamp}
    (hu : req.user = some P) (hf : Bootcamp.findById env s req.params.id = .ok (some R))
    (hc : canMutate P R.user = false) :
    deleteBootcamp env req s =
      (req, s, [.nextErr (ErrorResponseAPI
        ("User with the ID " ++ P.id ++ " is not authorized to delete this bootcamp") 401)]) := by
  rw [canMutate_false_iff] at hc
  simp [deleteBootcamp, asyncHandler, hf, hu, hc]

theorem deleteBootcamp_allowed {env : Env} {req : Req} {s : Store} {P : User} {R : Bootcamp}
    (hu : req.user = some P) (hf : Bootcamp.findById env s req.params.id = .ok (some R))
    (hc : canMutate P R.user = true) :
    deleteBootcamp env req s = deleteBootcamp.commit req s R := by
  rw [canMutate_true_iff] at hc
  simp [deleteBootcamp, deleteBootcamp.commit, asyncHandler, hf, hu, hc]

theorem updateCourse_denied {env : Env} {req : Req} {s : Store} {P : User} {R : Course}
    (hu : req.user = some P) (hf : Course.findById env s req.params.id = .ok (some R))
    (hc : canMutate P R.user = false) :
    updateCourse env req s =
      (req, s, [.nextErr (ErrorResponseAPI
        ("User with the ID " ++ P.id
          ++ " is not authorized to update a course to the bootcamp with the ID " ++ R.id) 401)]) := by
  rw [canMutate_false_iff] at hc
  simp [updateCourse, asyncHandler, hf, hu, hc]

theorem updateCourse_allowed {env : Env} {req : Req} {s : Store} {P : User} {R : Course}
    (hu : req.user = some P) (hf : Course.findById env s req.params.id = .ok (some R))
    (hc : canMutate P R.user = true) :
    updateCourse env req s = updateCourse.commit env req s := by
  rw [canMutate_true_iff] at hc
  unfold updateCourse.commit
  cases hup : Course.findByIdAndUpdate env s req.params.id req.body with
  | error e => simp [updateCourse, asyncHandler, hf, hu, hc, hup]
  | ok r =>
    obtain ⟨s', d⟩ := r
    cases d <;> simp [updateCourse, asyncHandler, hf, hu, hc, hup]

theorem deleteCourse_denied {env : Env} {req : Req} {s : Store} {P : User} {R : Course}
    (hu : req.user = some P) (hf : Course.findById env s req.params.id = .ok (some R))
    (hc : canMutate P R.user = false) :
    deleteCourse env req s =
      (req, s, [.nextErr (ErrorResponseAPI
        ("User with the ID " ++ P.id
          ++ " is not authorized to delete a course to the bootcamp with the ID " ++ R.id) 401)]) := by
  rw [canMutate_false_iff] at hc
  simp [deleteCourse, asyncHandler, hf, hu, hc]

theorem deleteCourse_allowed {env : Env} {req : Req} {s : Store} {P : User} {R : Course}
    (hu : req.user = some P) (hf : Course.findById env s req.params.id = .ok (some R))
    (hc : canMutate P R.user = true) :
    deleteCourse env req s = deleteCourse.commit env req s R := by
  rw [canMutate_true_iff] at hc
  simp [deleteCourse, deleteCourse.commit, asyncHandler, hf, hu, hc]

theorem updateReview_denied {env : Env} {req : Req} {s : Store} {P : User} {R : Review}
    (hu : req.user = some P) (hf : Review.findById env s req.params.id = .ok (some R))
    (hc : canMutate P R.user = false) :
    updateReview env req s =
      (req, s, [.nextErr (ErrorResponseAPI
        ("User with the ID " ++ P.id ++ " is not authorized to update this review") 401)]) := by
  rw [canMutate_false_iff] at hc
  simp [updateReview, asyncHandler, hf, hu, hc]

theorem updateReview_allowed {env : Env} {req : Req} {s : Store} {P : User} {R : Review}
    (hu : req.user = some P) (hf : Review.findById env s req.params.id = .ok (some R))
    (hc : canMutate P R.user = true) :
    updateReview env req s = updateReview.commit env req s := by
  rw [canMutate_true_iff] at hc
  unfold updateReview.commit
  cases hup : Review.findByIdAndUpdate env s req.params.id req.body with
  | error e => simp [updateReview, asyncHandler, hf, hu, hc, hup]
  | ok r =>
    obtain ⟨s', d⟩ := r
    cases d <;> simp [updateReview, asyncHandler, hf, hu, hc, hup]

theorem deleteReview_denied {env : Env} {req : Req} {s : Store} {P : User} {R : Review}
    (hu : req.user = some P) (hf : Review.findById env s req.params.id = .ok (some R))
    (hc : canMutate P R.user = false) :
    deleteReview env req s =
      (req, s, [.nextErr (ErrorResponseAPI
        ("User with the ID " ++ P.id ++ " is not authorized to delete this review") 401)]) := by
  rw [canMutate_false_iff] at hc
  simp [deleteReview, asyncHandler, hf, hu, hc]

theorem deleteReview_allowed {env : Env} {req : Req} {s : Store} {P : User} {R : Review}
    (hu : req.user = some P) (hf : Review.findById env s req.params.id = .ok (some R))
    (hc : canMutate P R.user = true) :
    deleteReview env req s = deleteReview.commit env req s R := by
  rw [canMutate_true_iff] at hc
  simp [deleteReview, deleteReview.commit, asyncHandler, hf, hu, hc]

/-- The rejection of an ownership check is never the outcome of an update. -/
theorem updateBootcamp_commit_ne (env : Env) (req req' : Req) (s s' : Store) (message : String) :
    updateBootcamp.commit env req s ≠ (req', s', [.nextErr (ErrorResponseAPI message 401)]) := by
  unfold updateBootcamp.commit
  cases hup : Bootcamp.findByIdAndUpdate env s req.params.id req.body true with
  | error e =>
    intro h
    have he : e = ErrorResponseAPI message 401 := by
      simp only [Prod.mk.injEq, List.cons.injEq, Signal.nextErr.injEq, and_true] at h
      exact h.2.2
    have := bootcampUpdate_statusCode hup
    rw [he] at this
    simp [ErrorResponseAPI] at this
  | ok r =>
    obtain ⟨s1, d⟩ := r
    cases d <;> simp

theorem updateCourse_commit_ne (env : Env) (req req' : Req) (s s' : Store) (message : String) :
    updateCourse.commit env req s ≠ (req', s', [.nextErr (ErrorResponseAPI message 401)]) := by
  unfold updateCourse.commit
  cases hup : Course.findByIdAndUpdate env s req.params.id req.body with
  | error e =>
    intro h
    have he : e = ErrorResponseAPI message 401 := by
      simp only [Prod.mk.injEq, List.cons.injEq, Signal.nextErr.injEq, and_true] at h
      exact h.2.2
    have := courseUpdate_statusCode hup
    rw [he] at this
    simp [ErrorResponseAPI] at this
  | ok r =>
    obtain ⟨s1, d⟩ := r
    cases d <;> simp

theorem updateReview_commit_ne (env : Env) (req req' : Req) (s s' : Store) (message : String) :
    updateReview.commit env req s ≠ (req', s', [.nextErr (ErrorResponseAPI message 401)]) := by
  unfold updateReview.commit
  cases hup : Review.findByIdAndUpdate env s req.params.id req.body with
  | error e =>
    intro h
    have he : e = ErrorResponseAPI message 401 := by
      simp only [Prod.mk.injEq, List.cons.injEq, Signal.nextErr.injEq, and_true] at h
      exact h.2.2
    have := reviewUpdate_statusCode hup
    rw [he] at this
    simp [ErrorResponseAPI] at this
  | ok r =>
    obtain ⟨s1, d⟩ := r
    cases d <;> simp

/-- Assembling the gate from the two branches of a handler. -/
theorem ownershipGate_of_branches {req : Req} {s : Store} {P : User} {owner : String}
    {out commit : Req × Store × List Signal} {err : Err}
    (hallow : canMutate P owner = true → out = commit)
    (hdeny : canMutate P owner = false → out = (req, s, [.nextErr err]))
    (hne : commit ≠ (req, s, [.nextErr err])) :
    OwnershipGate req s P owner out commit := by
  refine ⟨⟨fun h => ?_, hallow⟩, fun h => ?_⟩
  · cases hc : canMutate P owner with
    | true => rfl
    | false => exact absurd (h ▸ hdeny hc) hne
  · rw [hdeny h]; exact ⟨rfl, rfl, err, rfl⟩

/-- C1. For an authenticated principal `P` and an existing bootcamp, course or
review, each of `updateBootcamp`, `deleteBootcamp`, `updateCourse`,
`deleteCourse`, `updateReview` and `deleteReview` runs its mutation step if and
only if `P.role` is `admin` or the stored `user` of the record equals `P.id`;
otherwise it only passes an error to `next` and leaves the store unchanged. -/
theorem ownership_check_decides_mutation (env : Env) (s : Store) (P : User) (req : Req)
    (hu : req.user = some P) :
    (∀ B : Bootcamp, Bootcamp.findById env s req.params.id = .ok (some B) →
      OwnershipGate req s P B.user (updateBootcamp env req s) (updateBootcamp.commit env req s) ∧
      OwnershipGate req s P B.user (deleteBootcamp env req s) (deleteBootcamp.commit req s B)) ∧
    (∀ C : Course, Course.findById env s req.params.id = .ok (some C) →
      OwnershipGate req s P C.user (updateCourse env req s) (updateCourse.commit env req s) ∧
      OwnershipGate req s P C.user (deleteCourse env req s) (deleteCourse.commit env req s C)) ∧
    (∀ R : Review, Review.findById env s req.params.id = .ok (some R) →
      OwnershipGate req s P R.user (updateReview env req s) (updateReview.commit env req s) ∧
      OwnershipGate req s P R.user (deleteReview env req s)
        (deleteReview.commit env req s R)) := by
  refine ⟨fun B hB => ⟨?_, ?_⟩, fun C hC => ⟨?_, ?_⟩, fun R hR => ⟨?_, ?_⟩⟩
  · exact ownershipGate_of_branches (updateBootcamp_allowed hu hB) (updateBootcamp_denied hu hB)
      (updateBootcamp_commit_ne _ _ _ _ _ _)
  · exact ownershipGate_of_branches (deleteBootcamp_allowed hu hB) (deleteBootcamp_denied hu hB)
      (by simp [deleteBootcamp.commit])
  · exact ownershipGate_of_branches (updateCourse_allowed hu hC) (updateCourse_denied hu hC)
      (updateCourse_commit_ne _ _ _ _ _ _)
  · exact ownershipGate_of_branches (deleteCourse_allowed hu hC) (deleteCourse_denied hu hC)
      (by simp [deleteCourse.commit])
  · exact ownershipGate_of_branches (updateReview_allowed hu hR) (updateReview_denied hu hR)
      (updateReview_commit_ne _ _ _ _ _ _)
  · exact ownershipGate_of_branches (deleteReview_allowed hu hR) (deleteReview_denied hu hR)
      (by simp [deleteReview.commit])

/-- Witness of C1: `alice` owns the bootcamp and the course of `demoStore` but
not its review, which `dave` wrote. -/
theorem ownership_check_decides_mutation_witness :
    (OwnershipGate (requestBy alice demoBootcamp.id) demoStore alice demoBootcamp.user
        (updateBootcamp demoEnv (requestBy alice demoBootcamp.id) demoStore)
        (updateBootcamp.commit demoEnv (requestBy alice demoBootcamp.id) demoStore) ∧
      OwnershipGate (requestBy alice demoBootcamp.id) demoStore alice demoBootcamp.user
        (deleteBootcamp demoEnv (requestBy alice demoBootcamp.id) demoStore)
        (deleteBootcamp.commit (requestBy alice demoBootcamp.id) demoStore demoBootcamp)) ∧
    (OwnershipGate (requestBy alice demoCourse.id) demoStore alice demoCourse.user
        (updateCourse demoEnv (requestBy alice demoCourse.id) demoStore)
        (updateCourse.commit demoEnv (requestBy alice demoCourse.id) demoStore) ∧
      OwnershipGate (requestBy alice demoCourse.id) demoStore alice demoCourse.user
        (deleteCourse demoEnv (requestBy alice demoCourse.id) demoStore)
        (deleteCourse.commit demoEnv (requestBy alice demoCourse.id) demoStore demoCourse)) ∧
    (OwnershipGate (requestBy alice demoReview.id) demoStore alice demoReview.user
        (updateReview demoEnv (requestBy alice demoReview.id) demoStore)
        (updateReview.commit demoEnv (requestBy alice demoReview.id) demoStore) ∧
      OwnershipGate (requestBy alice demoReview.id) demoStore alice demoReview.user
        (deleteReview demoEnv (requestBy alice demoReview.id) demoStore)
        (deleteReview.commit demoEnv (requestBy alice demoReview.id) demoStore demoReview)) :=
  ⟨(ownership_check_decides_mutation demoEnv demoStore alice
      (requestBy alice demoBootcamp.id) rfl).1 demoBootcamp (by rfl),
    (ownership_check_decides_mutation demoEnv demoStore alice
      (requestBy alice demoCourse.id) rfl).2.1 demoCourse (by rfl),
    (ownership_check_decides_mutation demoEnv demoStore alice
      (requestBy alice demoReview.id) rfl).2.2 demoReview (by rfl)⟩

/-! ## Messages -/

theorem includes_iff (s sub : String) : includes s sub = true ↔ sub.toList <:+: s.toList := by
  simp [includes]

theorem includes_self (s : String) : includes s s = true := by
  simp [includes]

theorem includes_append_left {s sub : String} (t : String) (h : includes s sub = true) :
    includes (s ++ t) sub = true := by
  rw [includes_iff] at *
  simpa using h.trans (List.infix_append' [] s.toList t.toList)

theorem includes_append_right {t sub : String} (s : String) (h : includes t sub = true) :
    includes (s ++ t) sub = true := by
  rw [includes_iff] at *
  simpa using h.trans (List.infix_append s.toList t.toList [])

/-- Reading the rejection of an ownership check off the equation of the handler. -/
theorem deniedWith_of_eq {out : Req × Store × List Signal} {req : Req} {s : Store}
    {message principalId action : String} {status : Nat}
    (h : out = (req, s, [.nextErr (ErrorResponseAPI message status)]))
    (hp : includes message principalId = true) (ha : includes message action = true) :
    DeniedWith out.2.2 status principalId action :=
  ⟨message, by rw [h], hp, ha⟩

/-- C2, as stated, fails: `bob` is neither admin nor owner of the bootcamp of
`demoStore`; `updateBootcamp` hands the error pipeline an error of status 401,
not 403, and the response is sent with status 401. -/
theorem ownership_failure_status_counterexample :
    canMutate bob demoBootcamp.user = false ∧
    updateBootcamp demoEnv (requestBy bob demoBootcamp.id) demoStore =
      (requestBy bob demoBootcamp.id, demoStore,
        [.nextErr (ErrorResponseAPI
          "User with the ID 5d7a514b5d2c12c7449be046 is not authorized to update this bootcamp"
          401)]) ∧
    rejectedWith 403 (updateBootcamp demoEnv (requestBy bob demoBootcamp.id) demoStore).2.2 = false ∧
    respond (updateBootcamp demoEnv (requestBy bob demoBootcamp.id) demoStore).2.2 =
      [.json 401
        { success := false,
          error := some
            "User with the ID 5d7a514b5d2c12c7449be046 is not authorized to update this bootcamp" }] := by
  decide

/-- C2, amended. Whenever the ownership check fails in `updateBootcamp`,
`deleteBootcamp`, `updateCourse`, `deleteCourse`, `updateReview` or
`deleteReview` (the principal is neither admin nor owner of the record), the
error handed to the error pipeline is an `ErrorResponseAPI` of status 401
(Unauthorized) whose message names the principal's id and the denied action. -/
theorem ownership_failure_is_401 (env : Env) (s : Store) (P : User) (req : Req)
    (hu : req.user = some P) :
    (∀ B : Bootcamp, Bootcamp.findById env s req.params.id = .ok (some B) →
      canMutate P B.user = false →
      DeniedWith (updateBootcamp env req s).2.2 401 P.id "update this bootcamp" ∧
      DeniedWith (deleteBootcamp env req s).2.2 401 P.id "delete this bootcamp") ∧
    (∀ C : Course, Course.findById env s req.params.id = .ok (some C) →
      canMutate P C.user = false →
      DeniedWith (updateCourse env req s).2.2 401 P.id "update a course" ∧
      DeniedWith (deleteCourse env req s).2.2 401 P.id "delete a course") ∧
    (∀ R : Review, Review.findById env s req.params.id = .ok (some R) →
      canMutate P R.user = false →
      DeniedWith (updateReview env req s).2.2 401 P.id "update this review" ∧
      DeniedWith (deleteReview env req s).2.2 401 P.id "delete this review") := by
  refine ⟨fun B hB hd => ⟨?_, ?_⟩, fun C hC hd => ⟨?_, ?_⟩, fun R hR hd => ⟨?_, ?_⟩⟩
  · exact deniedWith_of_eq (updateBootcamp_denied hu hB hd)
      (includes_append_left _ (includes_append_right _ (includes_self _)))
      (includes_append_right _ (by decide))
  · exact deniedWith_of_eq (deleteBootcamp_denied hu hB hd)
      (includes_append_left _ (includes_append_right _ (includes_self _)))
      (includes_append_right _ (by decide))
  · exact deniedWith_of_eq (updateCourse_denied hu hC hd)
      (includes_append_left _ (includes_append_left _
        (includes_append_right _ (includes_self _))))
      (includes_append_left _ (includes_append_right _ (by decide)))
  · exact deniedWith_of_eq (deleteCourse_denied hu hC hd)
      (includes_append_left _ (includes_append_left _
        (includes_append_right _ (includes_self _))))
      (includes_append_left _ (includes_append_right _ (by decide)))
  · exact deniedWith_of_eq (updateReview_denied hu hR hd)
      (includes_append_left _ (includes_append_right _ (includes_self _)))
      (includes_append_right _ (by decide))
  · exact deniedWith_of_eq (deleteReview_denied hu hR hd)
      (includes_append_left _ (includes_append_right _ (includes_self _)))
      (includes_append_right _ (by decide))

/-- Witness of the amended C2: `bob` owns nothing in `demoStore`. -/
theorem ownership_failure_is_401_witness :
    (DeniedWith (updateBootcamp demoEnv (requestBy bob demoBootcamp.id) demoStore).2.2 401
        bob.id "update this bootcamp" ∧
      DeniedWith (deleteBootcamp demoEnv (requestBy bob demoBootcamp.id) demoStore).2.2 401
        bob.id "delete this bootcamp") ∧
    (DeniedWith (updateCourse demoEnv (requestBy bob demoCourse.id) demoStore).2.2 401
        bob.id "update a course" ∧
      DeniedWith (deleteCourse demoEnv (requestBy bob demoCourse.id) demoStore).2.2 401
        bob.id "delete a course") ∧
    (DeniedWith (updateReview demoEnv (requestBy bob demoReview.id) demoStore).2.2 401
        bob.id "update this review" ∧
      DeniedWith (deleteReview demoEnv (requestBy bob demoReview.id) demoStore).2.2 401
        bob.id "delete this review") :=
  ⟨(ownership_failure_is_401 demoEnv demoStore bob
      (requestBy bob demoBootcamp.id) rfl).1 demoBootcamp (by rfl) (by decide),
    (ownership_failure_is_401 demoEnv demoStore bob
      (requestBy bob demoCourse.id) rfl).2.1 demoCourse (by rfl) (by decide),
    (ownership_failure_is_401 demoEnv demoStore bob
      (requestBy bob demoReview.id) rfl).2.2 demoReview (by rfl) (by decide)⟩

/-! ## `authorizePermissions` -/

/-- C3. For every list of roles and every request whose `req.user` has a role,
the middleware `authorizePermissions(...roles)` calls `next()` with no error if
and only if the list includes `req.user.role`; otherwise it calls `next` with an
error of status 403 whose message contains the role; it makes exactly one call,
never both, and touches neither the request nor the store. -/
theorem authorizePermissions_gate (roles : List String) (env : Env) (req : Req) (s : Store)
    (user : User) (hu : req.user = some user) :
    ((authorizePermissions roles env req s).2.2 = [.next] ↔ user.role ∈ roles) ∧
    (user.role ∉ roles →
      (authorizePermissions roles env req s).2.2 =
        [.nextErr (ErrorResponseAPI
          ("ACCESS DENIED: User role | " ++ user.role
            ++ " | is unauthorized to perform this action ") 403)]) ∧
    includes ("ACCESS DENIED: User role | " ++ user.role
      ++ " | is unauthorized to perform this action ") user.role = true ∧
    ((authorizePermissions roles env req s).2.2.length = 1 ∧
      ¬ (Signal.next ∈ (authorizePermissions roles env req s).2.2 ∧
          ∃ err, Signal.nextErr err ∈ (authorizePermissions roles env req s).2.2)) ∧
    (authorizePermissions roles env req s).1 = req ∧
    (authorizePermissions roles env req s).2.1 = s := by
  by_cases hr : user.role ∈ roles
  · simp [authorizePermissions, hu, hr, includes_append_left, includes_append_right,
      includes_self]
  · simp [authorizePermissions, hu, hr, includes_append_left, includes_append_right,
      includes_self]

/-- Witness of C3: the gate of the bootcamp routes on the publisher `alice`. -/
theorem authorizePermissions_gate_witness :
    ((authorizePermissions ["admin", "publisher"] demoEnv (requestBy alice "") demoStore).2.2
        = [.next] ↔ alice.role ∈ ["admin", "publisher"]) ∧
    (alice.role ∉ ["admin", "publisher"] →
      (authorizePermissions ["admin", "publisher"] demoEnv (requestBy alice "") demoStore).2.2 =
        [.nextErr (ErrorResponseAPI
          ("ACCESS DENIED: User role | " ++ alice.role
            ++ " | is unauthorized to perform this action ") 403)]) ∧
    includes ("ACCESS DENIED: User role | " ++ alice.role
      ++ " | is unauthorized to perform this action ") alice.role = true ∧
    ((authorizePermissions ["admin", "publisher"] demoEnv (requestBy alice "") demoStore).2.2.length
        = 1 ∧
      ¬ (Signal.next ∈
            (authorizePermissions ["admin", "publisher"] demoEnv (requestBy alice "") demoStore).2.2 ∧
          ∃ err, Signal.nextErr err ∈
            (authorizePermissions ["admin", "publisher"] demoEnv (requestBy alice "") demoStore).2.2)) ∧
    (authorizePermissions ["admin", "publisher"] demoEnv (requestBy alice "") demoStore).1
      = requestBy alice "" ∧
    (authorizePermissions ["admin", "publisher"] demoEnv (requestBy alice "") demoStore).2.1
      = demoStore :=
  authorizePermissions_gate ["admin", "publisher"] demoEnv (requestBy alice "") demoStore alice rfl

/-! ## Routes -/

theorem runStack_nil_foldl (signals : List Signal) (st : Store) (out : List Signal) :
    signals.foldl
      (fun (acc : Store × List Signal) signal =>
        match signal with
        | .next => (acc.1, acc.2 ++ [Signal.next])
        | other => (acc.1, acc.2 ++ [other]))
      (st, out) = (st, out ++ signals) := by
  induction signals generalizing out with
  | nil => simp
  | cons signal rest ih =>
    cases signal <;> simp only [List.foldl] <;> rw [ih] <;> simp

/-- The last middleware of a route: its calls are the calls of the route. -/
theorem runStack_single (env : Env) (m : Middleware) (req : Req) (s : Store) :
    runStack env [m] req s = ((m env req s).2.1, (m env req s).2.2) := by
  simp only [runStack]
  rw [runStack_nil_foldl]
  simp

/-- A middleware that calls `next()` once hands over to the rest of the route. -/
theorem runStack_next {env : Env} {m : Middleware} {rest : List Middleware} {req req' : Req}
    {s s' : Store} (h : m env req s = (req', s', [.next])) :
    runStack env (m :: rest) req s = runStack env rest req' s' := by
  simp [runStack, h]

/-- A middleware that calls `next(err)` ends the route. -/
theorem runStack_nextErr {env : Env} {m : Middleware} {rest : List Middleware} {req req' : Req}
    {s s' : Store} {err : Err} (h : m env req s = (req', s', [.nextErr err])) :
    runStack env (m :: rest) req s = (s', [.nextErr err]) := by
  simp [runStack, h]

/-- The two outcomes of `protect`. -/
theorem protect_cases (env : Env) (req : Req) (s : Store) :
    (∃ message, protect env req s = (req, s, [.nextErr (ErrorResponseAPI message 401)])) ∨
    (∃ user, protect env req s = ({ req with user := user }, s, [.next])) := by
  cases hb : bearerToken req.authorization with
  | none =>
    exact Or.inl ⟨"Not Authorized to access this route ", by simp [protect, asyncHandler, hb]⟩
  | some token =>
    by_cases ht : (token == "") = true
    · exact Or.inl ⟨"Not Authorized to access this route ",
        by simp [protect, asyncHandler, hb, ht]⟩
    · cases hv : env.jwtVerify token with
      | none =>
        exact Or.inl ⟨"Unauthorized to access this route",
          by simp [protect, asyncHandler, hb, ht, hv]⟩
      | some id =>
        cases hf : User.findById env s id with
        | error e =>
          exact Or.inl ⟨"Unauthorized to access this route",
            by simp [protect, asyncHandler, hb, ht, hv, hf]⟩
        | ok user => exact Or.inr ⟨user, by simp [protect, asyncHandler, hb, ht, hv, hf]⟩

theorem authorizePermissions_denied {roles : List String} {env : Env} {req : Req} {s : Store}
    {P : User} (hu : req.user = some P) (hr : P.role ∉ roles) :
    authorizePermissions roles env req s = (req, s, [.nextErr (accessDenied P.role)]) := by
  simp [authorizePermissions, hu, hr, accessDenied]

theorem authorizePermissions_allowed {roles : List String} {env : Env} {req : Req} {s : Store}
    {P : User} (hu : req.user = some P) (hr : P.role ∈ roles) :
    authorizePermissions roles env req s = (req, s, [.next]) := by
  simp [authorizePermissions, hu, hr]

theorem authorizePermissions_store (roles : List String) (env : Env) (req : Req) (s : Store) :
    (authorizePermissions roles env req s).2.1 = s := by
  unfold authorizePermissions
  cases req.user with
  | none => rfl
  | some user => dsimp only; split <;> rfl

/-- Every route `protect, authorizePermissions(roles), handler` is gated by role. -/
theorem roleGated_route (roles : List String) (handler : Middleware) :
    RoleGated roles [protect, authorizePermissions roles, handler] handler := by
  intro env req s
  constructor
  · intro req' P hp hu
    rw [runStack_next hp]
    constructor
    · intro hr
      exact runStack_nextErr (authorizePermissions_denied hu hr)
    · intro hr
      rw [runStack_next (authorizePermissions_allowed hu hr), runStack_single]
  · intro hne
    rcases protect_cases env req s with ⟨message, hp⟩ | ⟨user, hp⟩
    · rw [runStack_nextErr hp] at hne
      exact absurd rfl hne
    · rw [runStack_next hp] at hne
      cases user with
      | none =>
        have : authorizePermissions roles env { req with user := none } s =
            ({ req with user := none }, s,
              [.nextErr (TypeError "Cannot read properties of null (reading role)")]) := rfl
        rw [runStack_nextErr this] at hne
        exact absurd rfl hne
      | some P =>
        by_cases hr : P.role ∈ roles
        · exact ⟨P, by rw [hp], hr⟩
        · rw [runStack_nextErr (authorizePermissions_denied rfl hr)] at hne
          exact absurd rfl hne

/-! ## A handler changes the store only past its ownership check -/

theorem updateBootcamp_changes {env : Env} {req : Req} {s : Store}
    (hne : (updateBootcamp env req s).2.1 ≠ s) :
    ∃ P ownerId, req.user = some P ∧ bootcampOwner env s req.params.id = some ownerId ∧
      canMutate P ownerId = true := by
  cases hf : Bootcamp.findById env s req.params.id with
  | error e => exact absurd (by simp [updateBootcamp, asyncHandler, hf]) hne
  | ok found =>
    cases found with
    | none => exact absurd (by simp [updateBootcamp, asyncHandler, hf]) hne
    | some R =>
      cases hu : req.user with
      | none => exact absurd (by simp [updateBootcamp, asyncHandler, hf, hu]) hne
      | some P =>
        cases hc : canMutate P R.user with
        | false => rw [updateBootcamp_denied hu hf hc] at hne; exact absurd rfl hne
        | true => exact ⟨P, R.user, rfl, by simp [bootcampOwner, hf], hc⟩

theorem deleteBootcamp_changes {env : Env} {req : Req} {s : Store}
    (hne : (deleteBootcamp env req s).2.1 ≠ s) :
    ∃ P ownerId, req.user = some P ∧ bootcampOwner env s req.params.id = some ownerId ∧
      canMutate P ownerId = true := by
  cases hf : Bootcamp.findById env s req.params.id with
  | error e => exact absurd (by simp [deleteBootcamp, asyncHandler, hf]) hne
  | ok found =>
    cases found with
    | none => exact absurd (by simp [deleteBootcamp, asyncHandler, hf]) hne
    | some R =>
      cases hu : req.user with
      | none => exact absurd (by simp [deleteBootcamp, asyncHandler, hf, hu]) hne
      | some P =>
        cases hc : canMutate P R.user with
        | false => rw [deleteBootcamp_denied hu hf hc] at hne; exact absurd rfl hne
        | true => exact ⟨P, R.user, rfl, by simp [bootcampOwner, hf], hc⟩

theorem uploadImage_denied {env : Env} {req : Req} {s : Store} {P : User} {R : Bootcamp}
    (hu : req.user = some P) (hf : Bootcamp.findById env s req.params.id = .ok (some R))
    (hc : canMutate P R.user = false) :
    uploadImage env req s =
      (req, s, [.nextErr (ErrorResponseAPI
        ("User with the ID " ++ P.id
          ++ " is not authorized to upload the image OR update this bootcamp") 401)]) := by
  rw [canMutate_false_iff] at hc
  simp [uploadImage, asyncHandler, hf, hu, hc]

theorem uploadImage_changes {env : Env} {req : Req} {s : Store}
    (hne : (uploadImage env req s).2.1 ≠ s) :
    ∃ P ownerId, req.user = some P ∧ bootcampOwner env s req.params.id = some ownerId ∧
      canMutate P ownerId = true := by
  cases hf : Bootcamp.findById env s req.params.id with
  | error e => exact absurd (by simp [uploadImage, asyncHandler, hf]) hne
  | ok found =>
    cases found with
    | none => exact absurd (by simp [uploadImage, asyncHandler, hf]) hne
    | some R =>
      cases hu : req.user with
      | none => exact absurd (by simp [uploadImage, asyncHandler, hf, hu]) hne
      | some P =>
        cases hc : canMutate P R.user with
        | false => rw [uploadImage_denied hu hf hc] at hne; exact absurd rfl hne
        | true => exact ⟨P, R.user, rfl, by simp [bootcampOwner, hf], hc⟩

theorem addCourse_denied {env : Env} {req : Req} {s : Store} {P : User} {R : Bootcamp}
    (hu : req.user = some P) (hf : Bootcamp.findById env s req.params.bootcampId = .ok (some R))
    (hc : canMutate P R.user = false) :
    (addCourse env req s).2 =
      (s, [.nextErr (ErrorResponseAPI
        ("User with the ID " ++ P.id
          ++ " is not authorized to add a course to the bootcamp with the ID " ++ R.id) 401)]) := by
  rw [canMutate_false_iff] at hc
  simp [addCourse, asyncHandler, hf, hu, hc]

theorem addCourse_changes {env : Env} {req : Req} {s : Store}
    (hne : (addCourse env req s).2.1 ≠ s) :
    ∃ P ownerId, req.user = some P ∧ bootcampOwner env s req.params.bootcampId = some ownerId ∧
      canMutate P ownerId = true := by
  cases hu : req.user with
  | none => exact absurd (by simp [addCourse, asyncHandler, hu]) hne
  | some P =>
    cases hf : Bootcamp.findById env s req.params.bootcampId with
    | error e => exact absurd (by simp [addCourse, asyncHandler, hf, hu]) hne
    | ok found =>
      cases found with
      | none => exact absurd (by simp [addCourse, asyncHandler, hf, hu]) hne
      | some R =>
        cases hc : canMutate P R.user with
        | false => rw [addCourse_denied hu hf hc] at hne; exact absurd rfl hne
        | true => exact ⟨P, R.user, rfl, by simp [bootcampOwner, hf], hc⟩

theorem updateCourse_changes {env : Env} {req : Req} {s : Store}
    (hne : (updateCourse env req s).2.1 ≠ s) :
    ∃ P ownerId, req.user = some P ∧ courseOwner env s req.params.id = some ownerId ∧
      canMutate P ownerId = true := by
  cases hf : Course.findById env s req.params.id with
  | error e => exact absurd (by simp [updateCourse, asyncHandler, hf]) hne
  | ok found =>
    cases found with
    | none => exact absurd (by simp [updateCourse, asyncHandler, hf]) hne
    | some R =>
      cases hu : req.user with
      | none => exact absurd (by simp [updateCourse, asyncHandler, hf, hu]) hne
      | some P =>
        cases hc : canMutate P R.user with
        | false => rw [updateCourse_denied hu hf hc] at hne; exact absurd rfl hne
        | true => exact ⟨P, R.user, rfl, by simp [courseOwner, hf], hc⟩

theorem deleteCourse_changes {env : Env} {req : Req} {s : Store}
    (hne : (deleteCourse env req s).2.1 ≠ s) :
    ∃ P ownerId, req.user = some P ∧ courseOwner env s req.params.id = some ownerId ∧
      canMutate P ownerId = true := by
  cases hf : Course.findById env s req.params.id with
  | error e => exact absurd (by simp [deleteCourse, asyncHandler, hf]) hne
  | ok found =>
    cases found with
    | none => exact absurd (by simp [deleteCourse, asyncHandler, hf]) hne
    | some R =>
      cases hu : req.user with
      | none => exact absurd (by simp [deleteCourse, asyncHandler, hf, hu]) hne
      | some P =>
        cases hc : canMutate P R.user with
        | false => rw [deleteCourse_denied hu hf hc] at hne; exact absurd rfl hne
        | true => exact ⟨P, R.user, rfl, by simp [courseOwner, hf], hc⟩

theorem updateReview_changes {env : Env} {req : Req} {s : Store}
    (hne : (updateReview env req s).2.1 ≠ s) :
    ∃ P ownerId, req.user = some P ∧ reviewOwner env s req.params.id = some ownerId ∧
      canMutate P ownerId = true := by
  cases hf : Review.findById env s req.params.id with
  | error e => exact absurd (by simp [updateReview, asyncHandler, hf]) hne
  | ok found =>
    cases found with
    | none => exact absurd (by simp [updateReview, asyncHandler, hf]) hne
    | some R =>
      cases hu : req.user with
      | none => exact absurd (by simp [updateReview, asyncHandler, hf, hu]) hne
      | some P =>
        cases hc : canMutate P R.user with
        | false => rw [updateReview_denied hu hf hc] at hne; exact absurd rfl hne
        | true => exact ⟨P, R.user, rfl, by simp [reviewOwner, hf], hc⟩

theorem deleteReview_changes {env : Env} {req : Req} {s : Store}
    (hne : (deleteReview env req s).2.1 ≠ s) :
    ∃ P ownerId, req.user = some P ∧ reviewOwner env s req.params.id = some ownerId ∧
      canMutate P ownerId = true := by
  cases hf : Review.findById env s req.params.id with
  | error e => exact absurd (by simp [deleteReview, asyncHandler, hf]) hne
  | ok found =>
    cases found with
    | none => exact absurd (by simp [deleteReview, asyncHandler, hf]) hne
    | some R =>
      cases hu : req.user with
      | none => exact absurd (by simp [deleteReview, asyncHandler, hf, hu]) hne
      | some P =>
        cases hc : canMutate P R.user with
        | false => rw [deleteReview_denied hu hf hc] at hne; exact absurd rfl hne
        | true => exact ⟨P, R.user, rfl, by simp [reviewOwner, hf], hc⟩

/-- A route is gated by ownership as soon as its handler is. -/
theorem ownerGated_route (roles : List String) (handler : Middleware)
    (owner : Env → Store → String → Option String) (target : Params → String)
    (hh : ∀ (env : Env) (req : Req) (s : Store), (handler env req s).2.1 ≠ s →
      ∃ P ownerId, req.user = some P ∧ owner env s (target req.params) = some ownerId ∧
        canMutate P ownerId = true) :
    OwnerGated roles [protect, authorizePermissions roles, handler] owner target := by
  intro env req s hne
  obtain ⟨P, hP, hr⟩ := (roleGated_route roles handler env req s).2 hne
  rcases protect_cases env req s with ⟨message, hp⟩ | ⟨user, hp⟩
  · rw [runStack_nextErr hp] at hne
    exact absurd rfl hne
  · rw [hp] at hP
    have hrun := ((roleGated_route roles handler env req s).1 _ P hp hP).2 hr
    rw [hrun] at hne
    obtain ⟨P', ownerId, hu', ho, hc⟩ := hh env _ s hne
    have hPP : P' = P := by
      have : some P' = some P := by rw [← hu', ← hP]
      exact Option.some.inj this
    subst hPP
    exact ⟨P', ownerId, by rw [hp]; exact hP, hr, ho, hc⟩

/-- C4. Through the route stacks, creating, updating or deleting a review is
attempted only for a principal whose role is `admin` or `user`, and creating,
updating or deleting a bootcamp or a course, or uploading a bootcamp image, only
for a role `admin` or `publisher`: a role outside the list gets the 403 of the
role gate before any lookup or ownership check, with the store untouched.  A
route with an ownership check changes the store only if the role gate and the
ownership check both pass.  So the publisher `alice`, although recorded as the
author of a review, is rejected with 403 on the update route of reviews. -/
theorem role_gate_precedes_ownership :
    (RoleGated ["admin", "user"] reviewRoutes.create createReview ∧
      RoleGated ["admin", "user"] reviewRoutes.update updateReview ∧
      RoleGated ["admin", "user"] reviewRoutes.delete deleteReview) ∧
    (RoleGated ["admin", "publisher"] bootcampRoutes.create createBootcamp ∧
      RoleGated ["admin", "publisher"] bootcampRoutes.update updateBootcamp ∧
      RoleGated ["admin", "publisher"] bootcampRoutes.delete deleteBootcamp ∧
      RoleGated ["admin", "publisher"] bootcampRoutes.image uploadImage ∧
      RoleGated ["admin", "publisher"] courseRoutes.create addCourse ∧
      RoleGated ["admin", "publisher"] courseRoutes.update updateCourse ∧
      RoleGated ["admin", "publisher"] courseRoutes.delete deleteCourse) ∧
    (OwnerGated ["admin", "user"] reviewRoutes.update reviewOwner Params.id ∧
      OwnerGated ["admin", "user"] reviewRoutes.delete reviewOwner Params.id) ∧
    (OwnerGated ["admin", "publisher"] bootcampRoutes.update bootcampOwner Params.id ∧
      OwnerGated ["admin", "publisher"] bootcampRoutes.delete bootcampOwner Params.id ∧
      OwnerGated ["admin", "publisher"] bootcampRoutes.image bootcampOwner Params.id ∧
      OwnerGated ["admin", "publisher"] courseRoutes.create bootcampOwner Params.bootcampId ∧
      OwnerGated ["admin", "publisher"] courseRoutes.update courseOwner Params.id ∧
      OwnerGated ["admin", "publisher"] courseRoutes.delete courseOwner Params.id) ∧
    ((protect demoEnv publisherReviewUpdate publisherReviewStore).1.user = some alice ∧
      reviewOwner demoEnv publisherReviewStore publisherReviewUpdate.params.id = some alice.id ∧
      canMutate alice alice.id = true ∧
      runStack demoEnv reviewRoutes.update publisherReviewUpdate publisherReviewStore =
        (publisherReviewStore, [.nextErr (accessDenied "publisher")]) ∧
      (accessDenied "publisher").statusCode = some 403) := by
  refine ⟨⟨?_, ?_, ?_⟩, ⟨?_, ?_, ?_, ?_, ?_, ?_, ?_⟩, ⟨?_, ?_⟩, ⟨?_, ?_, ?_, ?_, ?_, ?_⟩, ?_⟩
  · exact roleGated_route _ _
  · exact roleGated_route _ _
  · exact roleGated_route _ _
  · exact roleGated_route _ _
  · exact roleGated_route _ _
  · exact roleGated_route _ _
  · exact roleGated_route _ _
  · exact roleGated_route _ _
  · exact roleGated_route _ _
  · exact roleGated_route _ _
  · exact ownerGated_route _ _ _ _ fun _ _ _ h => updateReview_changes h
  · exact ownerGated_route _ _ _ _ fun _ _ _ h => deleteReview_changes h
  · exact ownerGated_route _ _ _ _ fun _ _ _ h => updateBootcamp_changes h
  · exact ownerGated_route _ _ _ _ fun _ _ _ h => deleteBootcamp_changes h
  · exact ownerGated_route _ _ _ _ fun _ _ _ h => uploadImage_changes h
  · exact ownerGated_route _ _ _ _ fun _ _ _ h => addCourse_changes h
  · exact ownerGated_route _ _ _ _ fun _ _ _ h => updateCourse_changes h
  · exact ownerGated_route _ _ _ _ fun _ _ _ h => deleteCourse_changes h
  · refine ⟨by decide, by rfl, by decide, by decide, by decide⟩

/-! ## `protect` -/

theorem protect_no_token {env : Env} {req : Req} {s : Store}
    (h : bearerToken req.authorization = none ∨ bearerToken req.authorization = some "") :
    protect env req s =
      (req, s, [.nextErr (ErrorResponseAPI "Not Authorized to access this route " 401)]) := by
  rcases h with h | h <;> simp [protect, asyncHandler, h]

theorem protect_bad_token {env : Env} {req : Req} {s : Store} {token : String}
    (h : bearerToken req.authorization = some token) (hv : env.jwtVerify token = none) :
    ∃ message, protect env req s = (req, s, [.nextErr (ErrorResponseAPI message 401)]) := by
  by_cases ht : (token == "") = true
  · exact ⟨_, protect_no_token (Or.inr (by rw [h]; simp at ht; rw [ht]))⟩
  · exact ⟨"Unauthorized to access this route", by simp [protect, asyncHandler, h, ht, hv]⟩

/-- C5. When the Authorization header is absent, does not start with `Bearer`,
or carries no token after the first space, and also when the verification of
the token throws, `protect` passes an error of status 401 to `next`, leaves the
request as it was (`req.user` is not set), and no middleware placed after it
in a route runs: the route ends with that error and the store unchanged. -/
theorem protect_rejects_unauthenticated (env : Env) (req : Req) (s : Store)
    (rest : List Middleware)
    (h : req.authorization = none ∨
      (∃ header, req.authorization = some header ∧ startsWith header "Bearer" = false) ∨
      (∃ header, req.authorization = some header ∧
        ((split header ' ')[1]? = none ∨ (split header ' ')[1]? = some "")) ∨
      (∃ token, bearerToken req.authorization = some token ∧ env.jwtVerify token = none)) :
    ∃ err, err.statusCode = some 401 ∧
      protect env req s = (req, s, [.nextErr err]) ∧
      runStack env (protect :: rest) req s = (s, [.nextErr err]) := by
  have key : ∃ message, protect env req s = (req, s, [.nextErr (ErrorResponseAPI message 401)]) := by
    rcases h with h | ⟨header, h, hs⟩ | ⟨header, h, ht⟩ | ⟨token, h, hv⟩
    · exact ⟨_, protect_no_token (Or.inl (by simp [bearerToken, h]))⟩
    · exact ⟨_, protect_no_token (Or.inl (by simp [bearerToken, h, hs]))⟩
    · refine ⟨_, protect_no_token ?_⟩
      simp only [bearerToken, h]
      split
      · exact ht
      · exact Or.inl rfl
    · exact protect_bad_token h hv
  obtain ⟨message, hp⟩ := key
  exact ⟨ErrorResponseAPI message 401, rfl, hp, runStack_nextErr hp⟩

/-- Witness of C5: the header `Bearer` alone, on the update route of bootcamps. -/
theorem protect_rejects_unauthenticated_witness :
    ∃ err, err.statusCode = some 401 ∧
      protect demoEnv { authorization := some "Bearer", params := { id := demoBootcamp.id } }
          demoStore =
        ({ authorization := some "Bearer", params := { id := demoBootcamp.id } }, demoStore,
          [.nextErr err]) ∧
      runStack demoEnv (protect :: [authorizePermissions ["admin", "publisher"], updateBootcamp])
          { authorization := some "Bearer", params := { id := demoBootcamp.id } } demoStore =
        (demoStore, [.nextErr err]) :=
  protect_rejects_unauthenticated demoEnv
    { authorization := some "Bearer", params := { id := demoBootcamp.id } } demoStore
    [authorizePermissions ["admin", "publisher"], updateBootcamp]
    (Or.inr (Or.inr (Or.inl ⟨"Bearer", rfl, Or.inl (by decide)⟩)))

/-! ## Missing records -/

theorem find?_eq_none_of_ne {α : Type} (l : List α) (key : α → String) (id : String)
    (h : ∀ a ∈ l, key a ≠ id) : l.find? (fun a => key a == id) = none := by
  rw [List.find?_eq_none]
  intro a ha
  simpa using h a ha

theorem bootcamp_missing {env : Env} {s : Store} {id : String}
    (hid : env.isObjectId id = true) (h : ∀ b ∈ s.bootcamps, b.id ≠ id) :
    Bootcamp.findById env s id = .ok none := by
  simp [Bootcamp.findById, hid, find?_eq_none_of_ne s.bootcamps Bootcamp.id id h]

theorem course_missing {env : Env} {s : Store} {id : String}
    (hid : env.isObjectId id = true) (h : ∀ c ∈ s.courses, c.id ≠ id) :
    Course.findById env s id = .ok none := by
  simp [Course.findById, hid, find?_eq_none_of_ne s.courses Course.id id h]

theorem review_missing {env : Env} {s : Store} {id : String}
    (hid : env.isObjectId id = true) (h : ∀ r ∈ s.reviews, r.id ≠ id) :
    Review.findById env s id = .ok none := by
  simp [Review.findById, hid, find?_eq_none_of_ne s.reviews Review.id id h]

/-- C6, as stated, fails: the id `abc` resolves to no stored bootcamp, yet
`getBootcamp` passes no error of status 404 naming it.  The lookup throws a
`CastError` without status; the response made from it has status 404 and the
message `Resource not found`, in which the id does not occur. -/
theorem not_found_names_id_counterexample :
    (∀ b ∈ demoStore.bootcamps, b.id ≠ "abc") ∧
    getBootcamp demoEnv (requestBy alice "abc") demoStore =
      (requestBy alice "abc", demoStore, [.nextErr (CastError "abc" "_id")]) ∧
    rejectedWith 404 (getBootcamp demoEnv (requestBy alice "abc") demoStore).2.2 = false ∧
    respond (getBootcamp demoEnv (requestBy alice "abc") demoStore).2.2 =
      [.json 404 { success := false, error := some "Resource not found" }] ∧
    includes "Resource not found" "abc" = false := by
  decide

/-- C6, amended. For every id that Mongoose casts to an ObjectId and that
resolves to no stored record, `getBootcamp`, `updateBootcamp`, `deleteBootcamp`,
`uploadImage`, `getSingleCourse`, `updateCourse`, `deleteCourse`,
`getSingleReview`, `updateReview` and `deleteReview` (and `addCourse` and
`createReview` for the id of the parent bootcamp) pass an error of status 404
whose message contains that id, whoever the principal is (before any ownership
check), and leave the store unchanged. -/
theorem missing_record_is_404 (env : Env) (s : Store) (req : Req) :
    (env.isObjectId req.params.id = true → (∀ b ∈ s.bootcamps, b.id ≠ req.params.id) →
      NotFoundFirst getBootcamp env req s
        ("Bootcamp not found with the ID of " ++ req.params.id) req.params.id ∧
      NotFoundFirst updateBootcamp env req s
        ("Bootcamp not found with the ID of " ++ req.params.id) req.params.id ∧
      NotFoundFirst deleteBootcamp env req s
        ("No Bootcamp found with the ID of " ++ req.params.id) req.params.id ∧
      NotFoundFirst uploadImage env req s
        ("No Bootcamp found with the ID of " ++ req.params.id) req.params.id) ∧
    (env.isObjectId req.params.id = true → (∀ c ∈ s.courses, c.id ≠ req.params.id) →
      NotFoundFirst getSingleCourse env req s
        ("No course found with the ID of " ++ req.params.id) req.params.id ∧
      NotFoundFirst updateCourse env req s
        ("No course found with the ID of " ++ req.params.id) req.params.id ∧
      NotFoundFirst deleteCourse env req s
        ("No course found with the ID of " ++ req.params.id) req.params.id) ∧
    (env.isObjectId req.params.id = true → (∀ r ∈ s.reviews, r.id ≠ req.params.id) →
      NotFoundFirst getSingleReview env req s
        ("No review found with the ID of " ++ req.params.id) req.params.id ∧
      NotFoundFirst updateReview env req s
        ("Review not found with the ID of " ++ req.params.id) req.params.id ∧
      NotFoundFirst deleteReview env req s
        ("Review not found with the ID of " ++ req.params.id) req.params.id) ∧
    (env.isObjectId req.params.bootcampId = true →
      (∀ b ∈ s.bootcamps, b.id ≠ req.params.bootcampId) →
      ParentNotFoundFirst addCourse env req s
        ("No bootcamp found with the ID of " ++ req.params.bootcampId) req.params.bootcampId ∧
      ParentNotFoundFirst createReview env req s
        ("No bootcamp found with the ID of " ++ req.params.bootcampId)
        req.params.bootcampId) := by
  have hinc : ∀ pre id : String, includes (pre ++ id) id = true :=
    fun pre id => includes_append_right _ (includes_self _)
  refine ⟨fun hid hB => ?_, fun hid hC => ?_, fun hid hR => ?_, fun hid hP => ?_⟩
  · have fB := bootcamp_missing hid hB
    refine ⟨⟨hinc _ _, fun user => ?_⟩, ⟨hinc _ _, fun user => ?_⟩, ⟨hinc _ _, fun user => ?_⟩,
      ⟨hinc _ _, fun user => ?_⟩⟩
    · simp [getBootcamp, asyncHandler, fB]
    · simp [updateBootcamp, asyncHandler, fB]
    · simp [deleteBootcamp, asyncHandler, fB]
    · simp [uploadImage, asyncHandler, fB]
  · have fC := course_missing hid hC
    refine ⟨⟨hinc _ _, fun user => ?_⟩, ⟨hinc _ _, fun user => ?_⟩, ⟨hinc _ _, fun user => ?_⟩⟩
    · simp [getSingleCourse, asyncHandler, fC]
    · simp [updateCourse, asyncHandler, fC]
    · simp [deleteCourse, asyncHandler, fC]
  · have fR := review_missing hid hR
    refine ⟨⟨hinc _ _, fun user => ?_⟩, ⟨hinc _ _, fun user => ?_⟩, ⟨hinc _ _, fun user => ?_⟩⟩
    · simp [getSingleReview, asyncHandler, fR]
    · simp [updateReview, asyncHandler, fR]
    · simp [deleteReview, asyncHandler, fR]
  · have fP := bootcamp_missing hid hP
    refine ⟨⟨hinc _ _, fun principal => ?_⟩, ⟨hinc _ _, fun principal => ?_⟩⟩
    · simp [addCourse, asyncHandler, fP]
    · simp [createReview, asyncHandler, fP]

/-- An id that is no ObjectId makes every lookup throw: the handlers of one
record pass the `CastError` to `next`, which is answered with 404 and the fixed
message `Resource not found`. -/
theorem malformed_id_is_cast_error (env : Env) (s : Store) (req : Req)
    (hid : env.isObjectId req.params.id = false) :
    getBootcamp env req s = (req, s, [.nextErr (CastError req.params.id "_id")]) ∧
    updateBootcamp env req s = (req, s, [.nextErr (CastError req.params.id "_id")]) ∧
    deleteBootcamp env req s = (req, s, [.nextErr (CastError req.params.id "_id")]) ∧
    uploadImage env req s = (req, s, [.nextErr (CastError req.params.id "_id")]) ∧
    getSingleCourse env req s = (req, s, [.nextErr (CastError req.params.id "_id")]) ∧
    updateCourse env req s = (req, s, [.nextErr (CastError req.params.id "_id")]) ∧
    deleteCourse env req s = (req, s, [.nextErr (CastError req.params.id "_id")]) ∧
    getSingleReview env req s = (req, s, [.nextErr (CastError req.params.id "_id")]) ∧
    updateReview env req s = (req, s, [.nextErr (CastError req.params.id "_id")]) ∧
    deleteReview env req s = (req, s, [.nextErr (CastError req.params.id "_id")]) ∧
    errorHandlerMiddleware (CastError req.params.id "_id") =
      .json 404 { success := false, error := some "Resource not found" } := by
  refine ⟨?_, ?_, ?_, ?_, ?_, ?_, ?_, ?_, ?_, ?_, ?_⟩
  · simp [getBootcamp, asyncHandler, Bootcamp.findById, hid]
  · simp [updateBootcamp, asyncHandler, Bootcamp.findById, hid]
  · simp [deleteBootcamp, asyncHandler, Bootcamp.findById, hid]
  · simp [uploadImage, asyncHandler, Bootcamp.findById, hid]
  · simp [getSingleCourse, asyncHandler, Course.findById, hid]
  · simp [updateCourse, asyncHandler, Course.findById, hid]
  · simp [deleteCourse, asyncHandler, Course.findById, hid]
  · simp [getSingleReview, asyncHandler, Review.findById, hid]
  · simp [updateReview, asyncHandler, Review.findById, hid]
  · simp [deleteReview, asyncHandler, Review.findById, hid]
  · simp [errorHandlerMiddleware, CastError, ErrorResponseAPI]

/-- Witness of the amended C6: a well-formed id that `demoStore` does not hold. -/
theorem missing_record_is_404_witness :
    NotFoundFirst updateBootcamp demoEnv missingIdRequest demoStore
      "Bootcamp not found with the ID of 5d7a514b5d2c12c7449be999" "5d7a514b5d2c12c7449be999" ∧
    NotFoundFirst deleteCourse demoEnv missingIdRequest demoStore
      "No course found with the ID of 5d7a514b5d2c12c7449be999" "5d7a514b5d2c12c7449be999" ∧
    NotFoundFirst updateReview demoEnv missingIdRequest demoStore
      "Review not found with the ID of 5d7a514b5d2c12c7449be999" "5d7a514b5d2c12c7449be999" ∧
    ParentNotFoundFirst createReview demoEnv missingIdRequest demoStore
      "No bootcamp found with the ID of 5d7a514b5d2c12c7449be998" "5d7a514b5d2c12c7449be998" :=
  have h := missing_record_is_404 demoEnv demoStore missingIdRequest
  ⟨(h.1 (by decide) (by decide)).2.1, (h.2.1 (by decide) (by decide)).2.2,
    (h.2.2.1 (by decide) (by decide)).2.1, (h.2.2.2 (by decide) (by decide)).2⟩

/-! ## `createBootcamp`: one bootcamp for each publisher -/

theorem bootcampCreate_statusCode {env : Env} {s : Store} {body : Body} {err : Err}
    (h : Bootcamp.create env s body = .error err) : err.statusCode = none := by
  unfold Bootcamp.create at h
  dsimp only at h
  (repeat' split at h) <;>
    cases h <;>
    first
      | rfl
      | exact writeFailure_statusCode _

theorem canCreateBootcamp_false_iff (s : Store) (P : User) :
    canCreateBootcamp s P = false ↔ (P.role ≠ "admin" ∧ ∃ b ∈ s.bootcamps, b.user = P.id) := by
  simp [canCreateBootcamp]

theorem findOne_isSome_iff {env : Env} {s : Store} {user : String}
    (hid : env.isObjectId user = true) :
    ∃ found, Bootcamp.findOne env s user = .ok found ∧
      (found.isSome = true ↔ ∃ b ∈ s.bootcamps, b.user = user) := by
  refine ⟨s.bootcamps.find? (fun b => b.user == user), by simp [Bootcamp.findOne, hid], ?_⟩
  simp [List.find?_isSome]

theorem createBootcamp_denied {env : Env} {req : Req} {s : Store} {P : User}
    (hu : req.user = some P) (hid : env.isObjectId P.id = true)
    (hc : canCreateBootcamp s P = false) :
    createBootcamp env req s =
      ({ req with body := { req.body with user := some P.id } }, s,
        [.nextErr (ErrorResponseAPI
          ("The user with the role | publisher | with ID " ++ P.id
            ++ " has already published a bootcamp") 400)]) := by
  obtain ⟨found, hf, hsome⟩ := findOne_isSome_iff (s := s) hid
  rw [canCreateBootcamp_false_iff] at hc
  have h1 : found.isSome = true := hsome.mpr hc.2
  have h2 : (P.role != "admin") = true := by simpa using hc.1
  simp [createBootcamp, asyncHandler, hu, hf, h1, h2]

theorem createBootcamp_allowed {env : Env} {req : Req} {s : Store} {P : User}
    (hu : req.user = some P) (hid : env.isObjectId P.id = true)
    (hc : canCreateBootcamp s P = true) :
    createBootcamp env req s = createBootcamp.commit env req s P := by
  obtain ⟨found, hf, hsome⟩ := findOne_isSome_iff (s := s) hid
  have h1 : ¬ ((found.isSome && P.role != "admin") = true) := by
    intro h
    simp only [Bool.and_eq_true] at h
    have : canCreateBootcamp s P = false :=
      (canCreateBootcamp_false_iff s P).mpr ⟨by simpa using h.2, hsome.mp h.1⟩
    rw [hc] at this
    exact Bool.noConfusion this
  unfold createBootcamp.commit
  cases hcr : Bootcamp.create env s { req.body with user := some P.id } with
  | error e => simp [createBootcamp, asyncHandler, hu, hf, h1, hcr]
  | ok r =>
    obtain ⟨s', b⟩ := r
    simp [createBootcamp, asyncHandler, hu, hf, h1, hcr]

theorem createBootcamp_commit_not_400 (env : Env) (req : Req) (s : Store) (P : User) :
    rejectedWith 400 (createBootcamp.commit env req s P).2.2 = false := by
  unfold createBootcamp.commit
  cases hcr : Bootcamp.create env s { req.body with user := some P.id } with
  | error e => simp [rejectedWith, bootcampCreate_statusCode hcr]
  | ok r => obtain ⟨s', b⟩ := r; simp [rejectedWith]

/-- C7. For an authenticated principal `P`, `createBootcamp` passes an error of
status 400 to `next`, creating nothing, if and only if `P.role` is not `admin`
and the store already holds a bootcamp whose `user` equals `P.id` (that is, iff
`canCreateBootcamp` of the specification is false); an admin is never rejected
by this check however many bootcamps they own, and a non-admin without a
bootcamp proceeds to `Bootcamp.create` with `user` set to `P.id`. -/
theorem createBootcamp_one_per_publisher (env : Env) (req : Req) (s : Store) (P : User)
    (hu : req.user = some P) (hid : env.isObjectId P.id = true) :
    (rejectedWith 400 (createBootcamp env req s).2.2 = true ↔
      (P.role ≠ "admin" ∧ ∃ b ∈ s.bootcamps, b.user = P.id)) ∧
    (rejectedWith 400 (createBootcamp env req s).2.2 = true ↔ canCreateBootcamp s P = false) ∧
    (rejectedWith 400 (createBootcamp env req s).2.2 = true →
      (createBootcamp env req s).2 =
        (s, [.nextErr (ErrorResponseAPI
          ("The user with the role | publisher | with ID " ++ P.id
            ++ " has already published a bootcamp") 400)])) ∧
    (P.role = "admin" → createBootcamp env req s = createBootcamp.commit env req s P) ∧
    (P.role ≠ "admin" → (∀ b ∈ s.bootcamps, b.user ≠ P.id) →
      createBootcamp env req s = createBootcamp.commit env req s P) := by
  have hiff : rejectedWith 400 (createBootcamp env req s).2.2 = true ↔
      canCreateBootcamp s P = false := by
    cases hc : canCreateBootcamp s P with
    | false => rw [createBootcamp_denied hu hid hc]; simp [rejectedWith, ErrorResponseAPI]
    | true =>
      rw [createBootcamp_allowed hu hid hc, createBootcamp_commit_not_400]
      simp
  refine ⟨?_, hiff, ?_, ?_, ?_⟩
  · rw [hiff, canCreateBootcamp_false_iff]
  · intro h
    rw [createBootcamp_denied hu hid (hiff.mp h)]
  · intro hadmin
    exact createBootcamp_allowed hu hid (by simp [canCreateBootcamp, hadmin])
  · intro _ hnone
    refine createBootcamp_allowed hu hid ?_
    cases hc : canCreateBootcamp s P with
    | true => rfl
    | false =>
      obtain ⟨_, b, hb, hbu⟩ := (canCreateBootcamp_false_iff s P).mp hc
      exact absurd hbu (hnone b hb)

/-- Witness of C7: `alice`, a publisher, already owns the bootcamp of `demoStore`. -/
theorem createBootcamp_one_per_publisher_witness :
    rejectedWith 400 (createBootcamp demoEnv (createRequestBy alice) demoStore).2.2 = true ∧
    (createBootcamp demoEnv (createRequestBy alice) demoStore).2.1 = demoStore ∧
    (createBootcamp demoEnv (createRequestBy carol) demoStore).2.1.bootcamps.length = 2 :=
  have h := createBootcamp_one_per_publisher demoEnv (createRequestBy alice) demoStore alice rfl
    (by decide)
  have hr : rejectedWith 400 (createBootcamp demoEnv (createRequestBy alice) demoStore).2.2 = true :=
    h.1.mpr ⟨by decide, demoBootcamp, by decide, by decide⟩
  ⟨hr, by rw [h.2.2.1 hr], by decide⟩

/-! ## The records written by the creating handlers -/

theorem bootcampCreate_ok {env : Env} {s s' : Store} {body : Body} {b : Bootcamp}
    (h : Bootcamp.create env s body = .ok (s', b)) :
    body.user = some b.user ∧ s' = { s with bootcamps := s.bootcamps ++ [b] } := by
  unfold Bootcamp.create at h
  dsimp only at h
  split at h
  · rename_i user _ hbu
    split at h
    · cases h
    · simp only [Except.ok.injEq, Prod.mk.injEq] at h
      obtain ⟨hs, hb⟩ := h
      subst hb
      exact ⟨hbu, hs.symm⟩
  · cases h

/-- An update of a bootcamp leaves the other collections as they were. -/
theorem bootcampUpdate_frame {env : Env} {s s' : Store} {id : String} {body : Body} {rv : Bool}
    {doc : Option Bootcamp} (h : Bootcamp.findByIdAndUpdate env s id body rv = .ok (s', doc)) :
    s'.users = s.users ∧ s'.courses = s.courses ∧ s'.reviews = s.reviews := by
  unfold Bootcamp.findByIdAndUpdate at h
  cases rv <;> simp only [Bool.false_eq_true, ↓reduceIte] at h <;> (repeat' split at h) <;>
    cases h <;> exact ⟨rfl, rfl, rfl⟩

theorem getAverageCost_frame (env : Env) (s : Store) (bootcampId : String) :
    (Course.getAverageCost env s bootcampId).1.users = s.users ∧
    (Course.getAverageCost env s bootcampId).1.courses = s.courses ∧
    (Course.getAverageCost env s bootcampId).1.reviews = s.reviews := by
  unfold Course.getAverageCost
  split
  · exact ⟨rfl, rfl, rfl⟩
  · split
    · exact ⟨rfl, rfl, rfl⟩
    · split
      · rename_i h; exact bootcampUpdate_frame h
      · exact ⟨rfl, rfl, rfl⟩

theorem getAverageRating_frame (env : Env) (s : Store) (bootcampId : String) :
    (Review.getAverageRating env s bootcampId).1.users = s.users ∧
    (Review.getAverageRating env s bootcampId).1.courses = s.courses ∧
    (Review.getAverageRating env s bootcampId).1.reviews = s.reviews := by
  unfold Review.getAverageRating
  split
  · exact ⟨rfl, rfl, rfl⟩
  · split
    · exact ⟨rfl, rfl, rfl⟩
    · split
      · rename_i h; exact bootcampUpdate_frame h
      · exact ⟨rfl, rfl, rfl⟩

theorem courseInsert_ok {env : Env} {s s' : Store} {body : Body} {c : Course}
    (h : Course.insert env s body = .ok (s', c)) :
    body.user = some c.user ∧ body.bootcamp = some c.bootcamp ∧
      s' = { s with courses := s.courses ++ [c] } := by
  unfold Course.insert at h
  dsimp only at h
  split at h
  · rename_i bootcamp user tuition _ hbb hbu _
    split at h
    · cases h
    · simp only [Except.ok.injEq, Prod.mk.injEq] at h
      obtain ⟨hs, hc⟩ := h
      subst hc
      exact ⟨hbu, hbb, hs.symm⟩
  · cases h

theorem courseCreate_ok {env : Env} {s s' : Store} {body : Body} {c : Course}
    (h : Course.create env s body = .ok (s', c)) :
    body.user = some c.user ∧ body.bootcamp = some c.bootcamp ∧
      s'.courses = s.courses ++ [c] := by
  unfold Course.create at h
  cases hi : Course.insert env s body with
  | error e => rw [hi] at h; cases h
  | ok r =>
    obtain ⟨s1, d⟩ := r
    rw [hi] at h
    simp only [Except.ok.injEq, Prod.mk.injEq] at h
    obtain ⟨hs, hd⟩ := h
    subst hd
    obtain ⟨hbu, hbb, hs1⟩ := courseInsert_ok hi
    refine ⟨hbu, hbb, ?_⟩
    rw [← hs, (getAverageCost_frame env _ _).2.1, hs1]

theorem reviewInsert_ok {env : Env} {s s' : Store} {body : Body} {r : Review}
    (h : Review.insert env s body = .ok (s', r)) :
    body.user = some r.user ∧ body.bootcamp = some r.bootcamp ∧
      s' = { s with reviews := s.reviews ++ [r] } := by
  unfold Review.insert at h
  dsimp only at h
  split at h
  · rename_i bootcamp user rating _ hbb hbu _
    split at h
    · cases h
    · split at h
      · cases h
      · simp only [Except.ok.injEq, Prod.mk.injEq] at h
        obtain ⟨hs, hr⟩ := h
        subst hr
        exact ⟨hbu, hbb, hs.symm⟩
  · cases h

theorem reviewCreate_ok {env : Env} {s s' : Store} {body : Body} {r : Review}
    (h : Review.create env s body = .ok (s', r)) :
    body.user = some r.user ∧ body.bootcamp = some r.bootcamp ∧
      s'.reviews = s.reviews ++ [r] := by
  unfold Review.create at h
  cases hi : Review.insert env s body with
  | error e => rw [hi] at h; cases h
  | ok p =>
    obtain ⟨s1, d⟩ := p
    rw [hi] at h
    simp only [Except.ok.injEq, Prod.mk.injEq] at h
    obtain ⟨hs, hd⟩ := h
    subst hd
    obtain ⟨hbu, hbb, hs1⟩ := reviewInsert_ok hi
    refine ⟨hbu, hbb, ?_⟩
    rw [← hs, (getAverageRating_frame env _ _).2.2, hs1]

/-- C10. For every request body, also one that itself carries a `user` or a
`bootcamp` field, each of `createBootcamp`, `addCourse` and `createReview`
either writes no record of its collection, or writes exactly one, answered with
status 201, whose `user` is the id of the authenticated principal and, for
`addCourse` and `createReview`, whose `bootcamp` is the `bootcampId` of the
URL: what the client supplied for these fields is overwritten. -/
theorem created_record_owner (env : Env) (req : Req) (s : Store) (P : User)
    (hu : req.user = some P) :
    ((createBootcamp env req s).2.1.bootcamps = s.bootcamps ∨
      ∃ b : Bootcamp, b.user = P.id ∧
        (createBootcamp env req s).2.1.bootcamps = s.bootcamps ++ [b] ∧
        (createBootcamp env req s).2.2 =
          [.json 201 { success := true, data := some (.bootcamp b) }]) ∧
    ((addCourse env req s).2.1.courses = s.courses ∨
      ∃ c : Course, c.user = P.id ∧ c.bootcamp = req.params.bootcampId ∧
        (addCourse env req s).2.1.courses = s.courses ++ [c] ∧
        (addCourse env req s).2.2 =
          [.json 201 { success := true, data := some (.course c) }]) ∧
    ((createReview env req s).2.1.reviews = s.reviews ∨
      ∃ r : Review, r.user = P.id ∧ r.bootcamp = req.params.bootcampId ∧
        (createReview env req s).2.1.reviews = s.reviews ++ [r] ∧
        (createReview env req s).2.2 =
          [.json 201 { success := true, data := some (.review r) }]) := by
  refine ⟨?_, ?_, ?_⟩
  · cases hfo : Bootcamp.findOne env s P.id with
    | error e => left; simp [createBootcamp, asyncHandler, hu, hfo]
    | ok found =>
      by_cases hc : (found.isSome && P.role != "admin") = true
      · left; simp [createBootcamp, asyncHandler, hu, hfo, hc]
      · cases hcr : Bootcamp.create env s { req.body with user := some P.id } with
        | error e => left; simp [createBootcamp, asyncHandler, hu, hfo, hc, hcr]
        | ok r =>
          obtain ⟨s', b⟩ := r
          obtain ⟨hbu, hs⟩ := bootcampCreate_ok hcr
          right
          refine ⟨b, ?_, ?_, ?_⟩
          · simpa using hbu.symm
          · simp [createBootcamp, asyncHandler, hu, hfo, hc, hcr, hs]
          · simp [createBootcamp, asyncHandler, hu, hfo, hc, hcr]
  · cases hf : Bootcamp.findById env s req.params.bootcampId with
    | error e => left; simp [addCourse, asyncHandler, hu, hf]
    | ok found =>
      cases found with
      | none => left; simp [addCourse, asyncHandler, hu, hf]
      | some R =>
        by_cases hc : (R.user != P.id && P.role != "admin") = true
        · left; simp [addCourse, asyncHandler, hu, hf, hc]
        · cases hcr : Course.create env s
              { req.body with bootcamp := some req.params.bootcampId, user := some P.id } with
          | error e => left; simp [addCourse, asyncHandler, hu, hf, hc, hcr]
          | ok r =>
            obtain ⟨s', c⟩ := r
            obtain ⟨hbu, hbb, hs⟩ := courseCreate_ok hcr
            right
            refine ⟨c, ?_, ?_, ?_, ?_⟩
            · simpa using hbu.symm
            · simpa using hbb.symm
            · simp [addCourse, asyncHandler, hu, hf, hc, hcr, hs]
            · simp [addCourse, asyncHandler, hu, hf, hc, hcr]
  · cases hf : Bootcamp.findById env s req.params.bootcampId with
    | error e => left; simp [createReview, asyncHandler, hu, hf]
    | ok found =>
      cases found with
      | none => left; simp [createReview, asyncHandler, hu, hf]
      | some R =>
        cases hcr : Review.create env s
            { req.body with bootcamp := some req.params.bootcampId, user := some P.id } with
        | error e => left; simp [createReview, asyncHandler, hu, hf, hcr]
        | ok r =>
          obtain ⟨s', c⟩ := r
          obtain ⟨hbu, hbb, hs⟩ := reviewCreate_ok hcr
          right
          refine ⟨c, ?_, ?_, ?_, ?_⟩
          · simpa using hbu.symm
          · simpa using hbb.symm
          · simp [createReview, asyncHandler, hu, hf, hcr, hs]
          · simp [createReview, asyncHandler, hu, hf, hcr]

/-- Witness of C10: the body of `clientOwnerRequest` names `bob` as `user` and
another bootcamp; the three records written carry the id of `carol` and the
bootcamp of the URL. -/
theorem created_record_owner_witness :
    (∃ b : Bootcamp, b.user = carol.id ∧
        (createBootcamp demoEnv clientOwnerRequest demoStore).2.1.bootcamps =
          demoStore.bootcamps ++ [b] ∧
        (createBootcamp demoEnv clientOwnerRequest demoStore).2.2 =
          [.json 201 { success := true, data := some (.bootcamp b) }]) ∧
    (∃ c : Course, c.user = carol.id ∧ c.bootcamp = clientOwnerRequest.params.bootcampId ∧
        (addCourse demoEnv clientOwnerRequest demoStore).2.1.courses = demoStore.courses ++ [c] ∧
        (addCourse demoEnv clientOwnerRequest demoStore).2.2 =
          [.json 201 { success := true, data := some (.course c) }]) ∧
    (∃ r : Review, r.user = carol.id ∧ r.bootcamp = clientOwnerRequest.params.bootcampId ∧
        (createReview demoEnv clientOwnerRequest demoStore).2.1.reviews =
          demoStore.reviews ++ [r] ∧
        (createReview demoEnv clientOwnerRequest demoStore).2.2 =
          [.json 201 { success := true, data := some (.review r) }]) :=
  have h := created_record_owner demoEnv clientOwnerRequest demoStore carol rfl
  ⟨h.1.resolve_left (by decide), h.2.1.resolve_left (by decide),
    h.2.2.resolve_left (by decide)⟩

/-! ## Updates and the owner reference -/

theorem replaceFirst_map {α β : Type} (p : α → Bool) (f : α → α) (g : α → β)
    (h : ∀ a, g (f a) = g a) (l : List α) : (replaceFirst p f l).map g = l.map g := by
  induction l with
  | nil => rfl
  | cons a as ih =>
    simp only [replaceFirst]
    split
    · simp [h]
    · simp [ih]

theorem bootcampUpdate_owners {env : Env} {s s' : Store} {id : String} {body : Body} {rv : Bool}
    {doc : Option Bootcamp} (hb : body.user = none)
    (h : Bootcamp.findByIdAndUpdate env s id body rv = .ok (s', doc)) :
    bootcampOwners s' = bootcampOwners s ∧
    ∀ d, doc = some d → ∃ R, s.bootcamps.find? (fun b => b.id == id) = some R ∧
      d.user = R.user := by
  have hkeep : ∀ b : Bootcamp,
      (fun b : Bootcamp => (b.id, b.user)) (Bootcamp.applyUpdate b body) = (b.id, b.user) := by
    intro b; simp [Bootcamp.applyUpdate, hb]
  unfold Bootcamp.findByIdAndUpdate at h
  cases rv <;> simp only [Bool.false_eq_true, ↓reduceIte] at h <;> (repeat' split at h) <;>
    cases h <;>
    first
      | exact ⟨rfl, fun d hd => by cases hd⟩
      | (refine ⟨?_, fun d hd => ?_⟩
         · exact replaceFirst_map _ _ _ hkeep _
         · cases hd
           exact ⟨_, by assumption, by simp [Bootcamp.applyUpdate, hb]⟩)

theorem courseUpdate_owners {env : Env} {s s' : Store} {id : String} {body : Body}
    {doc : Option Course} (hb : body.user = none)
    (h : Course.findByIdAndUpdate env s id body = .ok (s', doc)) :
    courseOwners s' = courseOwners s ∧
    ∀ d, doc = some d → ∃ R, s.courses.find? (fun c => c.id == id) = some R ∧
      d.user = R.user := by
  have hkeep : ∀ c : Course,
      (fun c : Course => (c.id, c.user)) (Course.applyUpdate c body) = (c.id, c.user) := by
    intro c; simp [Course.applyUpdate, hb]
  unfold Course.findByIdAndUpdate at h
  dsimp only at h
  (repeat' split at h) <;>
    cases h <;>
    first
      | exact ⟨rfl, fun d hd => by cases hd⟩
      | (refine ⟨?_, fun d hd => ?_⟩
         · exact replaceFirst_map _ _ _ hkeep _
         · cases hd
           exact ⟨_, by assumption, by simp [Course.applyUpdate, hb]⟩)

theorem reviewUpdate_owners {env : Env} {s s' : Store} {id : String} {body : Body}
    {doc : Option Review} (hb : body.user = none)
    (h : Review.findByIdAndUpdate env s id body = .ok (s', doc)) :
    reviewOwners s' = reviewOwners s ∧
    ∀ d, doc = some d → ∃ R, s.reviews.find? (fun r => r.id == id) = some R ∧
      d.user = R.user := by
  have hkeep : ∀ r : Review,
      (fun r : Review => (r.id, r.user)) (Review.applyUpdate r body) = (r.id, r.user) := by
    intro r; simp [Review.applyUpdate, hb]
  unfold Review.findByIdAndUpdate at h
  dsimp only at h
  (repeat' split at h) <;>
    cases h <;>
    first
      | exact ⟨rfl, fun d hd => by cases hd⟩
      | (refine ⟨?_, fun d hd => ?_⟩
         · exact replaceFirst_map _ _ _ hkeep _
         · cases hd
           exact ⟨_, by assumption, by simp [Review.applyUpdate, hb]⟩)

theorem bootcamp_findById_some {env : Env} {s : Store} {id : String} {R : Bootcamp}
    (h : Bootcamp.findById env s id = .ok (some R)) :
    s.bootcamps.find? (fun b => b.id == id) = some R := by
  unfold Bootcamp.findById at h
  split at h
  · simpa using h
  · cases h

theorem course_findById_some {env : Env} {s : Store} {id : String} {R : Course}
    (h : Course.findById env s id = .ok (some R)) :
    s.courses.find? (fun c => c.id == id) = some R := by
  unfold Course.findById at h
  split at h
  · simpa using h
  · cases h

theorem review_findById_some {env : Env} {s : Store} {id : String} {R : Review}
    (h : Review.findById env s id = .ok (some R)) :
    s.reviews.find? (fun r => r.id == id) = some R := by
  unfold Review.findById at h
  split at h
  · simpa using h
  · cases h

theorem updateBootcamp_owners {env : Env} {req : Req} {s : Store} (hb : req.body.user = none) :
    bootcampOwners (updateBootcamp env req s).2.1 = bootcampOwners s ∧
    ∀ R b, Bootcamp.findById env s req.params.id = .ok (some R) →
      (updateBootcamp env req s).2.2 =
        [.json 200 { success := true, data := some (.bootcamp b) }] →
      b.user = R.user := by
  cases hf : Bootcamp.findById env s req.params.id with
  | error e => simp [updateBootcamp, asyncHandler, hf]
  | ok found =>
    cases found with
    | none => simp [updateBootcamp, asyncHandler, hf]
    | some R =>
      cases hu : req.user with
      | none => simp [updateBootcamp, asyncHandler, hf, hu]
      | some P =>
        by_cases hc : (R.user != P.id && P.role != "admin") = true
        · simp [updateBootcamp, asyncHandler, hf, hu, hc]
        · cases hup : Bootcamp.findByIdAndUpdate env s req.params.id req.body true with
          | error e => simp [updateBootcamp, asyncHandler, hf, hu, hc, hup]
          | ok r =>
            obtain ⟨s', doc⟩ := r
            obtain ⟨hown, hdoc⟩ := bootcampUpdate_owners hb hup
            cases doc with
            | none => simp [updateBootcamp, asyncHandler, hf, hu, hc, hup, hown]
            | some d =>
              obtain ⟨R', hR', hd⟩ := hdoc d rfl
              rw [bootcamp_findById_some hf] at hR'
              cases hR'
              simp only [updateBootcamp, asyncHandler, hf, hu, hc, hup]
              refine ⟨by simpa using hown, ?_⟩
              intro R2 b hR2 hsig
              simp at hR2 hsig
              subst hR2 hsig
              exact hd

theorem updateCourse_owners {env : Env} {req : Req} {s : Store} (hb : req.body.user = none) :
    courseOwners (updateCourse env req s).2.1 = courseOwners s ∧
    ∀ R c, Course.findById env s req.params.id = .ok (some R) →
      (updateCourse env req s).2.2 =
        [.json 200 { success := true, data := some (.course c) }] →
      c.user = R.user := by
  cases hf : Course.findById env s req.params.id with
  | error e => simp [updateCourse, asyncHandler, hf]
  | ok found =>
    cases found with
    | none => simp [updateCourse, asyncHandler, hf]
    | some R =>
      cases hu : req.user with
      | none => simp [updateCourse, asyncHandler, hf, hu]
      | some P =>
        by_cases hc : (R.user != P.id && P.role != "admin") = true
        · simp [updateCourse, asyncHandler, hf, hu, hc]
        · cases hup : Course.findByIdAndUpdate env s req.params.id req.body with
          | error e => simp [updateCourse, asyncHandler, hf, hu, hc, hup]
          | ok r =>
            obtain ⟨s', doc⟩ := r
            obtain ⟨hown, hdoc⟩ := courseUpdate_owners hb hup
            cases doc with
            | none => simp [updateCourse, asyncHandler, hf, hu, hc, hup, hown]
            | some d =>
              obtain ⟨R', hR', hd⟩ := hdoc d rfl
              rw [course_findById_some hf] at hR'
              cases hR'
              simp only [updateCourse, asyncHandler, hf, hu, hc, hup]
              refine ⟨by simpa using hown, ?_⟩
              intro R2 b hR2 hsig
              simp at hR2 hsig
              subst hR2 hsig
              exact hd

theorem updateReview_owners {env : Env} {req : Req} {s : Store} (hb : req.body.user = none) :
    reviewOwners (updateReview env req s).2.1 = reviewOwners s ∧
    ∀ R r, Review.findById env s req.params.id = .ok (some R) →
      (updateReview env req s).2.2 =
        [.json 200 { success := true, data := some (.review r) }] →
      r.user = R.user := by
  cases hf : Review.findById env s req.params.id with
  | error e => simp [updateReview, asyncHandler, hf]
  | ok found =>
    cases found with
    | none => simp [updateReview, asyncHandler, hf]
    | some R =>
      cases hu : req.user with
      | none => simp [updateReview, asyncHandler, hf, hu]
      | some P =>
        by_cases hc : (R.user != P.id && P.role != "admin") = true
        · simp [updateReview, asyncHandler, hf, hu, hc]
        · cases hup : Review.findByIdAndUpdate env s req.params.id req.body with
          | error e => simp [updateReview, asyncHandler, hf, hu, hc, hup]
          | ok r =>
            obtain ⟨s', doc⟩ := r
            obtain ⟨hown, hdoc⟩ := reviewUpdate_owners hb hup
            cases doc with
            | none => simp [updateReview, asyncHandler, hf, hu, hc, hup, hown]
            | some d =>
              obtain ⟨R', hR', hd⟩ := hdoc d rfl
              rw [review_findById_some hf] at hR'
              cases hR'
              simp only [updateReview, asyncHandler, hf, hu, hc, hup]
              refine ⟨by simpa using hown, ?_⟩
              intro R2 b hR2 hsig
              simp at hR2 hsig
              subst hR2 hsig
              exact hd

/-- C9, as stated, fails: the owner `alice` sends an update whose body names
`bob` as `user`; `updateBootcamp` answers 200 and the stored bootcamp now has
`bob` as owner.  The same happens to her course through `updateCourse` and to
the review of `dave` through `updateReview`. -/
theorem update_changes_owner_counterexample :
    bootcampOwners demoStore = [("5d713995b721c3bb38c1f5d0", alice.id)] ∧
    updateBootcamp demoEnv transferBootcampRequest demoStore =
      (transferBootcampRequest,
        { demoStore with bootcamps := [{ demoBootcamp with user := bob.id }] },
        [.json 200 { success := true,
                     data := some (.bootcamp { demoBootcamp with user := bob.id }) }]) ∧
    bootcampOwners (updateBootcamp demoEnv transferBootcampRequest demoStore).2.1 =
      [("5d713995b721c3bb38c1f5d0", bob.id)] ∧
    courseOwners (updateCourse demoEnv transferCourseRequest demoStore).2.1 =
      [("5d725a4a7b292f5f8ceff789", bob.id)] ∧
    reviewOwners (updateReview demoEnv transferReviewRequest demoStore).2.1 =
      [("5d7a514b5d2c12c7449be020", bob.id)] ∧
    alice.id ≠ bob.id ∧ dave.id ≠ bob.id := by
  decide

/-- C9, amended. For every bootcamp, course or review and every request body
that carries no `user` field, `updateBootcamp`, `updateCourse` and
`updateReview` leave the owner reference of every stored record as it was, and
the record returned by a successful update has the owner it had before. -/
theorem update_without_user_keeps_owner (env : Env) (req : Req) (s : Store)
    (hb : req.body.user = none) :
    (bootcampOwners (updateBootcamp env req s).2.1 = bootcampOwners s ∧
      ∀ R b, Bootcamp.findById env s req.params.id = .ok (some R) →
        (updateBootcamp env req s).2.2 =
          [.json 200 { success := true, data := some (.bootcamp b) }] →
        b.user = R.user) ∧
    (courseOwners (updateCourse env req s).2.1 = courseOwners s ∧
      ∀ R c, Course.findById env s req.params.id = .ok (some R) →
        (updateCourse env req s).2.2 =
          [.json 200 { success := true, data := some (.course c) }] →
        c.user = R.user) ∧
    (reviewOwners (updateReview env req s).2.1 = reviewOwners s ∧
      ∀ R r, Review.findById env s req.params.id = .ok (some R) →
        (updateReview env req s).2.2 =
          [.json 200 { success := true, data := some (.review r) }] →
        r.user = R.user) :=
  ⟨updateBootcamp_owners hb, updateCourse_owners hb, updateReview_owners hb⟩

/-- Witness of the amended C9: `alice` changes the photo of her bootcamp; the
update succeeds, the store changes, the owner stays. -/
theorem update_without_user_keeps_owner_witness :
    bootcampOwners (updateBootcamp demoEnv photoRequest demoStore).2.1 = bootcampOwners demoStore ∧
    (updateBootcamp demoEnv photoRequest demoStore).2.2 =
      [.json 200 { success := true,
                   data := some (.bootcamp { demoBootcamp with photo := "campus.jpg" }) }] ∧
    ({ demoBootcamp with photo := "campus.jpg" } : Bootcamp).user = demoBootcamp.user :=
  have h := (update_without_user_keeps_owner demoEnv photoRequest demoStore rfl).1
  have hs : (updateBootcamp demoEnv photoRequest demoStore).2.2 =
      [.json 200 { success := true,
                   data := some (.bootcamp { demoBootcamp with photo := "campus.jpg" }) }] := by
    decide
  ⟨h.1, hs, h.2 demoBootcamp _ (by rfl) hs⟩

/-! ## One bootcamp for each publisher, along sequences of requests -/

theorem owned_eq_of_owners {s s' : Store} (h : bootcampOwners s' = bootcampOwners s)
    (p : String) : owned s' p = owned s p := by
  have hm : s'.bootcamps.map (fun b => b.user) = s.bootcamps.map (fun b => b.user) := by
    have := congrArg (List.map Prod.snd) h
    simpa [bootcampOwners, List.map_map, Function.comp_def] using this
  simp [owned, hm]

theorem owned_remove_le (s : Store) (R : Bootcamp) (p : String) :
    owned (Bootcamp.remove s R) p ≤ owned s p := by
  unfold owned Bootcamp.remove
  exact ((List.eraseP_sublist _).map _).count_le _

theorem serve_create_owned (env : Env) (roleOf : String → String) (s : Store)
    (q : String) (body : Body) (p : String) :
    owned (serve env roleOf s (.create q body)) p = owned s p ∨
    (owned (serve env roleOf s (.create q body)) p = owned s p + 1 ∧ p = q ∧
      (roleOf q = "admin" ∨ owned s q = 0)) := by
  simp only [serve]
  cases hfo : Bootcamp.findOne env s q with
  | error e => left; simp [createBootcamp, asyncHandler, hfo]
  | ok found =>
    by_cases hc : (found.isSome && roleOf q != "admin") = true
    · left; simp [createBootcamp, asyncHandler, hfo, hc]
    · cases hcr : Bootcamp.create env s { body with user := some q } with
      | error e => left; simp [createBootcamp, asyncHandler, hfo, hc, hcr]
      | ok r =>
        obtain ⟨s', b⟩ := r
        obtain ⟨hbu, hs⟩ := bootcampCreate_ok hcr
        have hbq : b.user = q := by simpa using hbu.symm
        have hstore : (createBootcamp env
            { body := body, user := some { id := q, role := roleOf q } } s).2.1 = s' := by
          simp [createBootcamp, asyncHandler, hfo, hc, hcr]
        rw [hstore, hs]
        by_cases hpq : p = q
        · right
          refine ⟨by simp [owned, hbq, hpq], hpq, ?_⟩
          by_cases hadmin : roleOf q = "admin"
          · exact Or.inl hadmin
          · right
            have hnone : found.isSome = false := by
              simpa [hadmin] using hc
            unfold Bootcamp.findOne at hfo
            split at hfo
            · simp only [Except.ok.injEq] at hfo
              subst hfo
              simp only [owned, List.count_eq_zero, List.mem_map, not_exists, not_and]
              intro b' hb' hq
              have : (s.bootcamps.find? fun b => b.user == q).isSome = true := by
                rw [List.find?_isSome]
                exact ⟨b', hb', by simp [hq]⟩
              rw [hnone] at this
              exact Bool.noConfusion this
            · cases hfo
        · left
          have : ¬ b.user = p := by rw [hbq]; exact fun h => hpq h.symm
          simp [owned, List.count_cons, this]

theorem serve_update_owned (env : Env) (roleOf : String → String) (s : Store)
    (q id : String) (body : Body) (hb : body.user = none) (p : String) :
    owned (serve env roleOf s (.update q id body)) p = owned s p := by
  simp only [serve]
  exact owned_eq_of_owners (updateBootcamp_owners (by simpa using hb)).1 p

theorem serve_delete_owned (env : Env) (roleOf : String → String) (s : Store)
    (q id : String) (p : String) :
    owned (serve env roleOf s (.delete q id)) p ≤ owned s p := by
  simp only [serve]
  cases hf : Bootcamp.findById env s id with
  | error e => simp [deleteBootcamp, asyncHandler, hf]
  | ok found =>
    cases found with
    | none => simp [deleteBootcamp, asyncHandler, hf]
    | some R =>
      by_cases hc : (R.user != q && roleOf q != "admin") = true
      · simp [deleteBootcamp, asyncHandler, hf, hc]
      · simpa [deleteBootcamp, asyncHandler, hf, hc] using owned_remove_le s R p

/-- The rule of `createBootcamp` is an invariant of the requests that keep owners. -/
theorem serve_preserves (env : Env) (roleOf : String → String) (s : Store)
    (request : BootcampRequest) (hk : request.keepsOwner = true)
    (hinv : ∀ p, roleOf p ≠ "admin" → owned s p ≤ 1) :
    ∀ p, roleOf p ≠ "admin" → owned (serve env roleOf s request) p ≤ 1 := by
  intro p hp
  cases request with
  | create q body =>
    rcases serve_create_owned env roleOf s q body p with h | ⟨h, hpq, hadm | hzero⟩
    · rw [h]; exact hinv p hp
    · subst hpq; exact absurd hadm hp
    · subst hpq; rw [h, hzero]
  | update q id body =>
    rw [serve_update_owned env roleOf s q id body (by simpa [BootcampRequest.keepsOwner] using hk)]
    exact hinv p hp
  | delete q id =>
    exact le_trans (serve_delete_owned env roleOf s q id p) (hinv p hp)

theorem foldl_serve_preserves (env : Env) (roleOf : String → String)
    (requests : List BootcampRequest) (hk : ∀ r ∈ requests, r.keepsOwner = true) (s : Store)
    (hinv : ∀ p, roleOf p ≠ "admin" → owned s p ≤ 1) :
    ∀ p, roleOf p ≠ "admin" → owned (requests.foldl (serve env roleOf) s) p ≤ 1 := by
  induction requests generalizing s with
  | nil => simpa using hinv
  | cons r rest ih =>
    simp only [List.foldl]
    exact ih (fun r' hr' => hk r' (List.mem_cons_of_mem _ hr')) _
      (serve_preserves env roleOf s r (hk r (List.mem_cons_self _ _)) hinv)

/-- C8, as stated, fails: after `handOver` (two publishers create a bootcamp
each, the second updates hers with a body whose `user` is the first), the first
publisher is the recorded owner of two bootcamps. -/
theorem publisher_owns_two_counterexample :
    (fun _ : String => "publisher") alice.id = "publisher" ∧
    owned (reach demoEnv (fun _ => "publisher") handOver) alice.id = 2 ∧
    bootcampOwners (reach demoEnv (fun _ => "publisher") handOver) =
      [("60d5ec49f1b2c8b1f8e4e1a0", alice.id), ("60d5ec49f1b2c8b1f8e4e1a1", alice.id)] := by
  decide

/-- C8, amended. In every state reachable from an empty store by a sequence of
`createBootcamp` and `deleteBootcamp` requests and of `updateBootcamp` requests
whose body carries no `user` field, issued by authenticated principals, each
principal whose role is `publisher` is the recorded owner of at most one
bootcamp. -/
theorem publisher_owns_at_most_one (env : Env) (roleOf : String → String)
    (requests : List BootcampRequest) (hk : ∀ r ∈ requests, r.keepsOwner = true)
    (p : String) (hp : roleOf p = "publisher") :
    owned (reach env roleOf requests) p ≤ 1 := by
  refine foldl_serve_preserves env roleOf requests hk {} ?_ p ?_
  · intro q _; simp [owned]
  · rw [hp]; decide

/-- Witness of the amended C8: along `plainRequests` the second creation of the
publisher is refused, and she still owns exactly one bootcamp at the end. -/
theorem publisher_owns_at_most_one_witness :
    owned (reach demoEnv (fun _ => "publisher") plainRequests) alice.id ≤ 1 ∧
    owned (reach demoEnv (fun _ => "publisher") plainRequests) alice.id = 1 :=
  ⟨publisher_owns_at_most_one demoEnv (fun _ => "publisher") plainRequests (by decide)
    alice.id rfl, by decide⟩

/-! ## Cascade delete -/

/-- C11, as stated, fails: `alice` deletes her bootcamp of `demoStore`; the
response is 200, its course is gone, and the review that `dave` wrote for it is
still stored, with the id of the deleted bootcamp. -/
theorem cascade_leaves_reviews_counterexample :
    deleteBootcamp demoEnv (requestBy alice demoBootcamp.id) demoStore =
      (requestBy alice demoBootcamp.id,
        { demoStore with bootcamps := [], courses := [] },
        [.json 200 { success := true, data := some .empty }]) ∧
    demoReview ∈ (deleteBootcamp demoEnv (requestBy alice demoBootcamp.id) demoStore).2.1.reviews ∧
    demoReview.bootcamp = demoBootcamp.id := by
  decide

/-- C11, amended. After a successful `deleteBootcamp` of bootcamp `B` (the
principal is admin or owner) the response is 200 and the store contains no
course whose `bootcamp` equals the id of `B`; the courses of other bootcamps
are kept as they were and so is every review, those of `B` included. -/
theorem deleteBootcamp_cascades_courses (env : Env) (req : Req) (s : Store) (P : User)
    (B : Bootcamp) (hu : req.user = some P)
    (hf : Bootcamp.findById env s req.params.id = .ok (some B))
    (hc : canMutate P B.user = true) :
    (deleteBootcamp env req s).2.2 = [.json 200 { success := true, data := some .empty }] ∧
    (∀ c ∈ (deleteBootcamp env req s).2.1.courses, c.bootcamp ≠ B.id) ∧
    (deleteBootcamp env req s).2.1.courses = s.courses.filter (fun c => c.bootcamp != B.id) ∧
    (deleteBootcamp env req s).2.1.reviews = s.reviews ∧
    (deleteBootcamp env req s).2.1.bootcamps = s.bootcamps.eraseP (fun b => b.id == B.id) := by
  rw [deleteBootcamp_allowed hu hf hc]
  refine ⟨rfl, ?_, rfl, rfl, rfl⟩
  intro c hcm
  simp only [deleteBootcamp.commit, Bootcamp.remove, List.mem_filter] at hcm
  simpa using hcm.2

/-- Witness of the amended C11: `alice` deletes her bootcamp of `demoStore`. -/
theorem deleteBootcamp_cascades_courses_witness :
    (deleteBootcamp demoEnv (requestBy alice demoBootcamp.id) demoStore).2.2 =
      [.json 200 { success := true, data := some .empty }] ∧
    (∀ c ∈ (deleteBootcamp demoEnv (requestBy alice demoBootcamp.id) demoStore).2.1.courses,
      c.bootcamp ≠ demoBootcamp.id) ∧
    (deleteBootcamp demoEnv (requestBy alice demoBootcamp.id) demoStore).2.1.courses =
      demoStore.courses.filter (fun c => c.bootcamp != demoBootcamp.id) ∧
    (deleteBootcamp demoEnv (requestBy alice demoBootcamp.id) demoStore).2.1.reviews =
      demoStore.reviews ∧
    (deleteBootcamp demoEnv (requestBy alice demoBootcamp.id) demoStore).2.1.bootcamps =
      demoStore.bootcamps.eraseP (fun b => b.id == demoBootcamp.id) :=
  deleteBootcamp_cascades_courses demoEnv (requestBy alice demoBootcamp.id) demoStore alice
    demoBootcamp rfl (by rfl) (by decide)

/-! ## Derived aggregates -/

theorem find?_replaceFirst {α : Type} (p : α → Bool) (f : α → α) (h : ∀ a, p a = true → p (f a) = true)
    (l : List α) : (replaceFirst p f l).find? p = (l.find? p).map f := by
  induction l with
  | nil => rfl
  | cons a as ih =>
    simp only [replaceFirst]
    by_cases hp : p a = true
    · simp [hp, h a hp]
    · simp [hp, ih]

/-- Rounding up to a multiple of 10, as `Math.ceil(x / 10) * 10`, gives the least
multiple of 10 that is at least `x`. -/
theorem ceil_isLeastMultipleOfTen (x : ℚ) :
    IsLeastMultipleOfTen ((⌈x / 10⌉ * 10 : ℤ) : ℚ) x := by
  refine ⟨⟨⌈x / 10⌉, by push_cast; ring⟩, ?_, ?_⟩
  · have h := Int.le_ceil (x / 10)
    push_cast
    linarith
  · intro k hk
    have h : ⌈x / 10⌉ ≤ k := Int.ceil_le.mpr (by linarith)
    have h' : ((⌈x / 10⌉ : ℤ) : ℚ) ≤ (k : ℚ) := by exact_mod_cast h
    push_cast
    linarith

/-- The update that the recomputation sends: a body that carries only an
average, without validators, on an existing bootcamp. -/
theorem bootcampUpdate_average {env : Env} {s : Store} {id : String} {B : Bootcamp} (body : Body)
    (hid : env.isObjectId id = true) (hw : env.writeFails "Bootcamp" s body = none)
    (hB : s.bootcamps.find? (fun b => b.id == id) = some B) (hbu : body.user = none) :
    Bootcamp.findByIdAndUpdate env s id body false =
      .ok ({ s with bootcamps :=
              replaceFirst (fun b => b.id == id) (fun b => Bootcamp.applyUpdate b body) s.bootcamps },
           some (Bootcamp.applyUpdate B body)) := by
  simp [Bootcamp.findByIdAndUpdate, hid, castUpdate, hbu, hw, hB]

theorem averageCostOf_replaceFirst (s : Store) (id : String) (B : Bootcamp) (v : ℚ)
    (hB : s.bootcamps.find? (fun b => b.id == id) = some B) :
    averageCostOf
      { s with
        bootcamps :=
          replaceFirst (fun b => b.id == id)
            (fun b => Bootcamp.applyUpdate b { averageCost := some v }) s.bootcamps } id =
      some v := by
  unfold averageCostOf
  rw [find?_replaceFirst _ _ (fun a ha => by simpa [Bootcamp.applyUpdate] using ha), hB]
  simp [Bootcamp.applyUpdate]

theorem averageRatingOf_replaceFirst (s : Store) (id : String) (B : Bootcamp) (v : ℚ)
    (hB : s.bootcamps.find? (fun b => b.id == id) = some B) :
    averageRatingOf
      { s with
        bootcamps :=
          replaceFirst (fun b => b.id == id)
            (fun b => Bootcamp.applyUpdate b { averageRating := some v }) s.bootcamps } id =
      some v := by
  unfold averageRatingOf
  rw [find?_replaceFirst _ _ (fun a ha => by simpa [Bootcamp.applyUpdate] using ha), hB]
  simp [Bootcamp.applyUpdate]

theorem aggregate_eq_mean {s : Store} {id : String} (hne : tuitionsOf s id ≠ []) :
    Course.aggregate s id = some (mean (tuitionsOf s id)) := by
  have : ¬ (tuitionsOf s id).isEmpty = true := by simpa using hne
  simp only [Course.aggregate, tuitionsOf, mean] at *
  simp [this]

theorem reviewAggregate_eq_mean {s : Store} {id : String} (hne : ratingsOf s id ≠ []) :
    Review.aggregate s id = some (mean (ratingsOf s id)) := by
  have : ¬ (ratingsOf s id).isEmpty = true := by simpa using hne
  simp only [Review.aggregate, ratingsOf, mean] at *
  simp [this]

/-- The value that `getAverageCost` stores, when its collaborators do not fail. -/
theorem getAverageCost_value {env : Env} {s : Store} {id : String} {B : Bootcamp}
    (hagg : env.aggregateFails "Course" s id = none)
    (hid : env.isObjectId id = true) (hw : ∀ body, env.writeFails "Bootcamp" s body = none)
    (hB : s.bootcamps.find? (fun b => b.id == id) = some B)
    (hne : tuitionsOf s id ≠ []) :
    (Course.getAverageCost env s id).2 = .ok () ∧
    averageCostOf (Course.getAverageCost env s id).1 id =
      some ((⌈mean (tuitionsOf s id) / 10⌉ * 10 : ℤ) : ℚ) := by
  unfold Course.getAverageCost
  rw [hagg, aggregate_eq_mean hne]
  simp only
  rw [bootcampUpdate_average _ hid (hw _) hB rfl]
  exact ⟨rfl, averageCostOf_replaceFirst s id B _ hB⟩

/-- The value that `getAverageRating` stores, when its collaborators do not fail. -/
theorem getAverageRating_value {env : Env} {s : Store} {id : String} {B : Bootcamp}
    (hagg : env.aggregateFails "Review" s id = none)
    (hid : env.isObjectId id = true) (hw : ∀ body, env.writeFails "Bootcamp" s body = none)
    (hB : s.bootcamps.find? (fun b => b.id == id) = some B)
    (hne : ratingsOf s id ≠ []) :
    (Review.getAverageRating env s id).2 = .ok () ∧
    averageRatingOf (Review.getAverageRating env s id).1 id = some (mean (ratingsOf s id)) := by
  unfold Review.getAverageRating
  rw [hagg, reviewAggregate_eq_mean hne]
  simp only
  rw [bootcampUpdate_average _ hid (hw _) hB rfl]
  exact ⟨rfl, averageRatingOf_replaceFirst s id B _ hB⟩

theorem mean_threeCourses : mean (tuitionsOf threeCourses demoBootcamp.id) = 200 := by
  have : tuitionsOf threeCourses demoBootcamp.id = [100, 200, 300] := by decide
  rw [this]; norm_num [mean]

theorem mean_twoCourses : mean (tuitionsOf twoCourses demoBootcamp.id) = 101 / 2 := by
  have : tuitionsOf twoCourses demoBootcamp.id = [101, 0] := by decide
  rw [this]; norm_num [mean]

theorem mean_twoReviews : mean (ratingsOf twoReviews demoBootcamp.id) = 6 := by
  have : ratingsOf twoReviews demoBootcamp.id = [4, 8] := by decide
  rw [this]; norm_num [mean]

theorem ceil_200 : ⌈(200 : ℚ) / 10⌉ = 20 := by
  rw [Int.ceil_eq_iff]; constructor <;> norm_num

theorem ceil_101_half : ⌈(101 / 2 : ℚ) / 10⌉ = 6 := by
  rw [Int.ceil_eq_iff]; constructor <;> norm_num

/-- C12. For every bootcamp with a non-empty collection of courses,
`getAverageCost` stores as `averageCost` the least multiple of 10 that is
greater than or equal to the arithmetic mean of the tuition values of those
courses (in exact rational arithmetic), when neither the aggregation nor the
update of the bootcamp fails; tuitions 100, 200 and 300 give 200, tuitions 101
and 0 give 60. -/
theorem getAverageCost_rounds_up :
    (∀ (env : Env) (s : Store) (id : String) (B : Bootcamp),
      env.aggregateFails "Course" s id = none → env.isObjectId id = true →
      (∀ body, env.writeFails "Bootcamp" s body = none) →
      s.bootcamps.find? (fun b => b.id == id) = some B → tuitionsOf s id ≠ [] →
      ∃ m : ℚ, averageCostOf (Course.getAverageCost env s id).1 id = some m ∧
        IsLeastMultipleOfTen m (mean (tuitionsOf s id)) ∧
        m = ((⌈mean (tuitionsOf s id) / 10⌉ * 10 : ℤ) : ℚ)) ∧
    (tuitionsOf threeCourses demoBootcamp.id = [100, 200, 300] ∧
      averageCostOf (Course.getAverageCost demoEnv threeCourses demoBootcamp.id).1
        demoBootcamp.id = some 200) ∧
    (tuitionsOf twoCourses demoBootcamp.id = [101, 0] ∧
      averageCostOf (Course.getAverageCost demoEnv twoCourses demoBootcamp.id).1
        demoBootcamp.id = some 60) := by
  refine ⟨?_, ⟨by decide, ?_⟩, ⟨by decide, ?_⟩⟩
  · intro env s id B hagg hid hw hB hne
    exact ⟨_, (getAverageCost_value hagg hid hw hB hne).2, ceil_isLeastMultipleOfTen _, rfl⟩
  · have h := (@getAverageCost_value demoEnv threeCourses
      demoBootcamp.id demoBootcamp rfl (by decide) (fun _ => rfl) (by decide)
      (by decide)).2
    rw [h, mean_threeCourses, ceil_200]
    norm_num
  · have h := (@getAverageCost_value demoEnv twoCourses
      demoBootcamp.id demoBootcamp rfl (by decide) (fun _ => rfl) (by decide)
      (by decide)).2
    rw [h, mean_twoCourses, ceil_101_half]
    norm_num

/-- Witness of C12 on the courses of `demoStore`, a single tuition of 8000. -/
theorem getAverageCost_rounds_up_witness :
    ∃ m : ℚ, averageCostOf (Course.getAverageCost demoEnv demoStore demoBootcamp.id).1
        demoBootcamp.id = some m ∧
      IsLeastMultipleOfTen m (mean (tuitionsOf demoStore demoBootcamp.id)) ∧
      m = ((⌈mean (tuitionsOf demoStore demoBootcamp.id) / 10⌉ * 10 : ℤ) : ℚ) :=
  getAverageCost_rounds_up.1 demoEnv demoStore demoBootcamp.id demoBootcamp rfl (by decide)
    (fun _ => rfl) (by decide) (by decide)

/-- C13. For every bootcamp with a non-empty collection of reviews,
`getAverageRating` stores as `averageRating` exactly the arithmetic mean of the
ratings of the reviews whose `bootcamp` is that bootcamp, with no rounding,
when neither the aggregation nor the update of the bootcamp fails; ratings 4
and 8 give 6. -/
theorem getAverageRating_stores_mean :
    (∀ (env : Env) (s : Store) (id : String) (B : Bootcamp),
      env.aggregateFails "Review" s id = none → env.isObjectId id = true →
      (∀ body, env.writeFails "Bootcamp" s body = none) →
      s.bootcamps.find? (fun b => b.id == id) = some B → ratingsOf s id ≠ [] →
      averageRatingOf (Review.getAverageRating env s id).1 id = some (mean (ratingsOf s id))) ∧
    (ratingsOf twoReviews demoBootcamp.id = [4, 8] ∧
      averageRatingOf (Review.getAverageRating demoEnv twoReviews demoBootcamp.id).1
        demoBootcamp.id = some 6) := by
  refine ⟨?_, by decide, ?_⟩
  · intro env s id B hagg hid hw hB hne
    exact (getAverageRating_value hagg hid hw hB hne).2
  · have h := (@getAverageRating_value demoEnv twoReviews
      demoBootcamp.id demoBootcamp rfl (by decide) (fun _ => rfl) (by decide)
      (by decide)).2
    rw [h, mean_twoReviews]

/-- Witness of C13 on the review of `demoStore`, a single rating of 8. -/
theorem getAverageRating_stores_mean_witness :
    averageRatingOf (Review.getAverageRating demoEnv demoStore demoBootcamp.id).1
      demoBootcamp.id = some (mean (ratingsOf demoStore demoBootcamp.id)) :=
  getAverageRating_stores_mean.1 demoEnv demoStore demoBootcamp.id demoBootcamp rfl (by decide)
    (fun _ => rfl) (by decide) (by decide)

/-! ## Recomputation on delete -/

theorem courseRemove_early (env : Env) (s : Store) (doc : Course)
    (h : env.aggregateBeforeDelete = true) :
    Course.remove env s doc =
      { (Course.getAverageCost env s doc.bootcamp).1 with
        courses := (Course.getAverageCost env s doc.bootcamp).1.courses.eraseP
          fun c => c.id == doc.id } := by
  simp [Course.remove, h]

theorem reviewRemove_early (env : Env) (s : Store) (doc : Review)
    (h : env.aggregateBeforeDelete = true) :
    Review.remove env s doc =
      { (Review.getAverageRating env s doc.bootcamp).1 with
        reviews := (Review.getAverageRating env s doc.bootcamp).1.reviews.eraseP
          fun r => r.id == doc.id } := by
  simp [Review.remove, h]

/-- When the aggregation of the remove hook is served before the delete, the
stored average is the one of the collection that still holds the deleted course. -/
theorem courseRemove_early_average {env : Env} {s : Store} {doc : Course} {B : Bootcamp}
    (h : env.aggregateBeforeDelete = true)
    (hagg : env.aggregateFails "Course" s doc.bootcamp = none)
    (hid : env.isObjectId doc.bootcamp = true)
    (hw : ∀ body, env.writeFails "Bootcamp" s body = none)
    (hB : s.bootcamps.find? (fun b => b.id == doc.bootcamp) = some B)
    (hne : tuitionsOf s doc.bootcamp ≠ []) :
    averageCostOf (Course.remove env s doc) doc.bootcamp =
      some ((⌈mean (tuitionsOf s doc.bootcamp) / 10⌉ * 10 : ℤ) : ℚ) ∧
    (Course.remove env s doc).courses = s.courses.eraseP (fun c => c.id == doc.id) := by
  rw [courseRemove_early env s doc h]
  refine ⟨(getAverageCost_value hagg hid hw hB hne).2, ?_⟩
  simp only
  rw [(getAverageCost_frame env s doc.bootcamp).2.1]

theorem reviewRemove_early_average {env : Env} {s : Store} {doc : Review} {B : Bootcamp}
    (h : env.aggregateBeforeDelete = true)
    (hagg : env.aggregateFails "Review" s doc.bootcamp = none)
    (hid : env.isObjectId doc.bootcamp = true)
    (hw : ∀ body, env.writeFails "Bootcamp" s body = none)
    (hB : s.bootcamps.find? (fun b => b.id == doc.bootcamp) = some B)
    (hne : ratingsOf s doc.bootcamp ≠ []) :
    averageRatingOf (Review.remove env s doc) doc.bootcamp =
      some (mean (ratingsOf s doc.bootcamp)) ∧
    (Review.remove env s doc).reviews = s.reviews.eraseP (fun r => r.id == doc.id) := by
  rw [reviewRemove_early env s doc h]
  refine ⟨(getAverageRating_value hagg hid hw hB hne).2, ?_⟩
  simp only
  rw [(getAverageRating_frame env s doc.bootcamp).2.2]

/-- When the aggregation of the remove hook is served after the delete, the
stored average is the one of the remaining courses. -/
theorem courseRemove_late_average {env : Env} {s : Store} {doc : Course} {B : Bootcamp}
    (h : env.aggregateBeforeDelete = false)
    (hagg : ∀ s', env.aggregateFails "Course" s' doc.bootcamp = none)
    (hid : env.isObjectId doc.bootcamp = true)
    (hw : ∀ s' body, env.writeFails "Bootcamp" s' body = none)
    (hB : s.bootcamps.find? (fun b => b.id == doc.bootcamp) = some B)
    (hne : tuitionsOf { s with courses := s.courses.eraseP fun c => c.id == doc.id }
      doc.bootcamp ≠ []) :
    averageCostOf (Course.remove env s doc) doc.bootcamp =
      some ((⌈mean (tuitionsOf (Course.remove env s doc) doc.bootcamp) / 10⌉ * 10 : ℤ) : ℚ) := by
  have hrm : Course.remove env s doc =
      (Course.getAverageCost env
        { s with courses := s.courses.eraseP fun c => c.id == doc.id } doc.bootcamp).1 := by
    simp [Course.remove, h]
  have hval := (@getAverageCost_value env
    { s with courses := s.courses.eraseP fun c => c.id == doc.id } doc.bootcamp B
    (hagg _) hid (hw _) hB hne).2
  have hcs : tuitionsOf (Course.remove env s doc) doc.bootcamp =
      tuitionsOf { s with courses := s.courses.eraseP fun c => c.id == doc.id } doc.bootcamp := by
    simp only [tuitionsOf, hrm, (getAverageCost_frame env _ doc.bootcamp).2.1]
  rw [hcs, hrm]
  exact hval

/-- C14 evaluated: `alice` deletes her course of tuition 300 from a bootcamp
with courses of tuition 100, 200 and 300, and the aggregation of the remove hook
is served before the delete.  The courses left have tuitions 100 and 200, whose
mean rounded up is 150, but the stored `averageCost` is 200, the value for all
three courses.  In the same way the deletion of the review rated 8 next to one
rated 4 stores the average 6 and not 4. -/
theorem delete_recomputes_with_deleted_record :
    ((deleteCourse demoEnv deleteThirdCourse threeCourses).2.2 =
        [.json 200 { success := true, data := some .empty }] ∧
      tuitionsOf (deleteCourse demoEnv deleteThirdCourse threeCourses).2.1 demoBootcamp.id =
        [100, 200] ∧
      averageCostOf (deleteCourse demoEnv deleteThirdCourse threeCourses).2.1 demoBootcamp.id =
        some 200 ∧
      ((⌈mean [100, 200] / 10⌉ * 10 : ℤ) : ℚ) = 150) ∧
    ((deleteReview demoEnv deleteSecondReview twoReviews).2.2 =
        [.json 200 { success := true, data := some .empty }] ∧
      ratingsOf (deleteReview demoEnv deleteSecondReview twoReviews).2.1 demoBootcamp.id = [4] ∧
      averageRatingOf (deleteReview demoEnv deleteSecondReview twoReviews).2.1 demoBootcamp.id =
        some 6 ∧
      mean [4] = 4) := by
  have hc : deleteCourse demoEnv deleteThirdCourse threeCourses =
      deleteCourse.commit demoEnv deleteThirdCourse threeCourses
        (courseOf "5d725a4a7b292f5f8ceff783" 300) :=
    deleteCourse_allowed rfl (by rfl) (by decide)
  have hr : deleteReview demoEnv deleteSecondReview twoReviews =
      deleteReview.commit demoEnv deleteSecondReview twoReviews
        (reviewOf "5d7a514b5d2c12c7449be022" "5d7a514b5d2c12c7449be046" 8) :=
    deleteReview_allowed rfl (by rfl) (by decide)
  have hcr := @courseRemove_early_average demoEnv threeCourses
    (courseOf "5d725a4a7b292f5f8ceff783" 300) demoBootcamp rfl rfl (by decide)
    (fun _ => rfl) (by decide) (by decide)
  have hrr := @reviewRemove_early_average demoEnv twoReviews
    (reviewOf "5d7a514b5d2c12c7449be022" "5d7a514b5d2c12c7449be046" 8)
    demoBootcamp rfl rfl (by decide) (fun _ => rfl) (by decide) (by decide)
  refine ⟨⟨by rw [hc]; rfl, ?_, ?_, ?_⟩, ⟨by rw [hr]; rfl, ?_, ?_, ?_⟩⟩
  · rw [hc]
    simp only [deleteCourse.commit, tuitionsOf, hcr.2]
    decide
  · rw [hc]
    simp only [deleteCourse.commit]
    have h := hcr.1
    rw [show (courseOf "5d725a4a7b292f5f8ceff783" 300).bootcamp = demoBootcamp.id from rfl,
      mean_threeCourses, ceil_200] at h
    rw [h]; norm_num
  · have : ⌈mean [100, 200] / 10⌉ = 15 := by
      rw [Int.ceil_eq_iff]; constructor <;> norm_num [mean]
    rw [this]; norm_num
  · rw [hr]
    simp only [deleteReview.commit, ratingsOf, hrr.2]
    decide
  · rw [hr]
    simp only [deleteReview.commit]
    have h := hrr.1
    rw [show (reviewOf "5d7a514b5d2c12c7449be022" "5d7a514b5d2c12c7449be046" 8).bootcamp =
      demoBootcamp.id from rfl, mean_twoReviews] at h
    exact h
  · norm_num [mean]

/-! ## Failure of the recomputation -/

/-- With the aggregation served, `getAverageCost` completes without an error:
an empty result and a failing update of the bootcamp are both absorbed. -/
theorem getAverageCost_ok {env : Env} {s : Store} {id : String}
    (hagg : env.aggregateFails "Course" s id = none) :
    (Course.getAverageCost env s id).2 = .ok () := by
  unfold Course.getAverageCost
  rw [hagg]
  simp only
  repeat' split
  all_goals rfl

theorem getAverageRating_ok {env : Env} {s : Store} {id : String}
    (hagg : env.aggregateFails "Review" s id = none) :
    (Review.getAverageRating env s id).2 = .ok () := by
  unfold Review.getAverageRating
  rw [hagg]
  simp only
  repeat' split
  all_goals rfl

/-- A failing aggregation query rejects the promise of `getAverageCost`. -/
theorem getAverageCost_rejects {env : Env} {s : Store} {id : String} {err : Err}
    (hagg : env.aggregateFails "Course" s id = some err) :
    Course.getAverageCost env s id = (s, .error err) := by
  unfold Course.getAverageCost
  rw [hagg]

theorem getAverageRating_rejects {env : Env} {s : Store} {id : String} {err : Err}
    (hagg : env.aggregateFails "Review" s id = some err) :
    Review.getAverageRating env s id = (s, .error err) := by
  unfold Review.getAverageRating
  rw [hagg]

/-- C15 evaluated: with a lost connection during the aggregation query, the
computations returned by `getAverageCost` and `getAverageRating` for the
bootcamp of `demoStore` end with that error, and nothing was stored.  The
`addCourse` whose save hook started such a computation still answers 201. -/
theorem getAverage_fails_with_aggregation :
    Course.getAverageCost brokenAggregateEnv demoStore demoBootcamp.id =
      (demoStore, .error networkError) ∧
    Review.getAverageRating brokenAggregateEnv demoStore demoBootcamp.id =
      (demoStore, .error networkError) ∧
    (addCourse brokenAggregateEnv addCheapCourse settledStore).2.2 =
      [.json 201 { success := true, data := some (.course cheapCourse) }] :=
  ⟨getAverageCost_rejects rfl, getAverageRating_rejects rfl, by decide⟩

/-! ## The error pipeline -/

theorem errorHandlerMiddleware_eq (err : Err) :
    errorHandlerMiddleware err =
      .json
        (match (errorHandlerMiddleware.error err).statusCode with
          | none => 500
          | some status => if status == 0 then 500 else status)
        { success := false,
          error := some (if (errorHandlerMiddleware.error err).message == "" then "Server Error"
            else (errorHandlerMiddleware.error err).message) } := rfl

theorem error_of_validationError {err : Err} (h : err.name = "ValidationError") :
    errorHandlerMiddleware.error err =
      ErrorResponseAPI (", ".intercalate (err.errors.map fun e => e.2)) 400 := by
  simp [errorHandlerMiddleware.error, h]

theorem error_of_duplicateKey {err : Err} (hn : err.name ≠ "ValidationError")
    (h : err.code = some 11000) :
    errorHandlerMiddleware.error err =
      ErrorResponseAPI
        ("Duplicate value entered for " ++ ",".intercalate (err.keyValue.map fun kv => kv.1)
          ++ " field, please choose another value") 400 := by
  simp [errorHandlerMiddleware.error, hn, h]

theorem error_of_castError {err : Err} (h : err.name = "CastError")
    (hc : err.code ≠ some 11000) :
    errorHandlerMiddleware.error err = ErrorResponseAPI "Resource not found" 404 := by
  simp [errorHandlerMiddleware.error, h, hc]

theorem error_of_other {err : Err} (hn : err.name ≠ "ValidationError")
    (hc : err.code ≠ some 11000) (h : err.name ≠ "CastError") :
    errorHandlerMiddleware.error err = err := by
  simp [errorHandlerMiddleware.error, h, hc, hn]

theorem duplicate_message_ne (keys : String) :
    ("Duplicate value entered for " ++ keys ++ " field, please choose another value" == "")
      = false := by
  rw [beq_eq_false_iff_ne]
  intro h
  have := congrArg String.length h
  simp [String.length_append] at this
  exact absurd this.1.1 (by decide)

theorem reviewInsert_duplicate {env : Env} {s : Store} {body : Body} {r : Review}
    {bootcamp user : String} (hb : body.bootcamp = some bootcamp) (hu : body.user = some user)
    (hr : r ∈ s.reviews) (hrb : r.bootcamp = bootcamp) (hru : r.user = user) :
    ∃ err, Review.insert env s body = .error err ∧
      (err.name = "ValidationError" ∨
        err = DuplicateKeyError [("bootcamp", bootcamp), ("user", user)]) := by
  have hany : (s.reviews.any fun x => x.bootcamp == bootcamp && x.user == user) = true :=
    List.any_eq_true.mpr ⟨r, hr, by simp [hrb, hru]⟩
  unfold Review.insert
  dsimp only
  split
  · rename_i b u rating _ hb' hu' _
    rw [hb] at hb'
    rw [hu] at hu'
    cases hb'
    cases hu'
    rw [if_pos hany]
    exact ⟨_, rfl, Or.inr rfl⟩
  · exact ⟨_, rfl, Or.inl rfl⟩

theorem errorHandlerMiddleware_validationError (errors : List (String × String)) :
    ∃ message, errorHandlerMiddleware (ValidationError errors) =
      .json 400 { success := false, error := some message } := by
  rw [errorHandlerMiddleware_eq, error_of_validationError rfl]
  exact ⟨_, rfl⟩

theorem errorHandlerMiddleware_duplicateKey (keyValue : List (String × String)) :
    errorHandlerMiddleware (DuplicateKeyError keyValue) =
      .json 400 { success := false,
                  error := some ("Duplicate value entered for "
                    ++ ",".intercalate (keyValue.map fun kv => kv.1)
                    ++ " field, please choose another value") } := by
  have hn : (DuplicateKeyError keyValue).name ≠ "ValidationError" := by
    simp [DuplicateKeyError]
  rw [errorHandlerMiddleware_eq, error_of_duplicateKey hn rfl]
  simp only [ErrorResponseAPI, duplicate_message_ne]
  rfl

/-- C16. When a principal who already has a review stored for the existing
bootcamp B calls `createReview` for B again, the store is left as it was (no
second review for the pair), the handler passes to `next` the duplicate key
error of the unique index on (bootcamp, user), or a `ValidationError` when the
body does not pass validation, and in both cases the client receives status 400
with `success` false. -/
theorem duplicate_review_rejected (env : Env) (req : Req) (s : Store) (P : User) (B : Bootcamp)
    (r : Review) (hu : req.user = some P)
    (hid : env.isObjectId req.params.bootcampId = true)
    (hB : s.bootcamps.find? (fun b => b.id == req.params.bootcampId) = some B)
    (hr : r ∈ s.reviews) (hrb : r.bootcamp = req.params.bootcampId) (hru : r.user = P.id) :
    (createReview env req s).2.1 = s ∧
    (∃ err, (createReview env req s).2.2 = [.nextErr err] ∧
      (err.name = "ValidationError" ∨
        err = DuplicateKeyError [("bootcamp", req.params.bootcampId), ("user", P.id)])) ∧
    (∃ message, respond (createReview env req s).2.2 =
      [.json 400 { success := false, error := some message }]) := by
  obtain ⟨err, hins, herr⟩ := @reviewInsert_duplicate env s
    { req.body with bootcamp := some req.params.bootcampId, user := some P.id } r
    req.params.bootcampId P.id rfl rfl hr hrb hru
  have hrun : createReview env req s =
      ({ req with body := { req.body with bootcamp := some req.params.bootcampId,
                                          user := some P.id } }, s, [.nextErr err]) := by
    simp [createReview, asyncHandler, hu, Bootcamp.findById, hid, hB, Review.create, hins]
  rw [hrun]
  refine ⟨rfl, ⟨err, rfl, herr⟩, ?_⟩
  rcases herr with hv | hd
  · refine ⟨if ", ".intercalate (err.errors.map fun e => e.2) == "" then "Server Error"
      else ", ".intercalate (err.errors.map fun e => e.2), ?_⟩
    simp only [respond, List.map]
    rw [errorHandlerMiddleware_eq, error_of_validationError hv]
    rfl
  · subst hd
    refine ⟨"Duplicate value entered for bootcamp,user field, please choose another value", ?_⟩
    simp only [respond, List.map, errorHandlerMiddleware_duplicateKey]
    rfl

/-- Witness of C16: `dave`, whose review of the bootcamp of `demoStore` is
stored, posts a second review with rating 5. -/
theorem duplicate_review_rejected_witness :
    (createReview demoEnv (reviewRequestBy dave demoBootcamp.id 5) demoStore).2.1 = demoStore ∧
    (∃ err, (createReview demoEnv (reviewRequestBy dave demoBootcamp.id 5) demoStore).2.2 =
        [.nextErr err] ∧
      (err.name = "ValidationError" ∨
        err = DuplicateKeyError [("bootcamp", demoBootcamp.id), ("user", dave.id)])) ∧
    (∃ message, respond (createReview demoEnv (reviewRequestBy dave demoBootcamp.id 5)
        demoStore).2.2 = [.json 400 { success := false, error := some message }]) :=
  duplicate_review_rejected demoEnv (reviewRequestBy dave demoBootcamp.id 5) demoStore dave
    demoBootcamp demoReview rfl (by decide) (by decide) (by decide) rfl rfl

/-- C17, counterexample: an error whose `statusCode` is 0 has a status code, and
the response has status 500, not 0. -/
theorem status_zero_counterexample :
    (errorHandlerMiddleware.error { name := "Error", message := "stopped", statusCode := some 0 }
      ).statusCode = some 0 ∧
    errorHandlerMiddleware { name := "Error", message := "stopped", statusCode := some 0 } =
      .json 500 { success := false, error := some "stopped" } := by
  decide

/-- C17, amended. For every error value passed to `errorHandlerMiddleware`, the
response body is exactly `{success: false, error: m}` where `m` is the message
of the resulting error, or "Server Error" when that message is empty; the HTTP
status is the `statusCode` of the resulting error when it has one that is not 0,
and 500 when it has none or it is 0; in particular an unexpected exception (no
`CastError`, no `ValidationError`, no code 11000) with no status code yields 500. -/
theorem errorHandler_failure_envelope (err : Err) :
    (errorHandlerMiddleware err).body =
      some { success := false,
             error := some (if (errorHandlerMiddleware.error err).message = "" then "Server Error"
               else (errorHandlerMiddleware.error err).message) } ∧
    (∀ status, (errorHandlerMiddleware.error err).statusCode = some status → status ≠ 0 →
      (errorHandlerMiddleware err).status = some status) ∧
    ((errorHandlerMiddleware.error err).statusCode = none ∨
        (errorHandlerMiddleware.error err).statusCode = some 0 →
      (errorHandlerMiddleware err).status = some 500) ∧
    (err.name ≠ "CastError" → err.name ≠ "ValidationError" → err.code ≠ some 11000 →
      err.statusCode = none → (errorHandlerMiddleware err).status = some 500) := by
  rw [errorHandlerMiddleware_eq]
  refine ⟨?_, ?_, ?_, ?_⟩
  · simp only [Signal.body, beq_iff_eq]
  · intro status h h0
    simp [Signal.status, h, h0]
  · rintro (h | h) <;> simp [Signal.status, h]
  · intro hc hv hd hs
    rw [error_of_other hv hd hc, hs]
    rfl

/-- Witness of C17: the 404 of a missing bootcamp keeps its status, and a
`TypeError` without a status code is answered with 500. -/
theorem errorHandler_failure_envelope_witness :
    (errorHandlerMiddleware (ErrorResponseAPI "Bootcamp not found" 404)).status = some 404 ∧
    (errorHandlerMiddleware (TypeError "Cannot read properties of null")).status = some 500 :=
  ⟨(errorHandler_failure_envelope (ErrorResponseAPI "Bootcamp not found" 404)).2.1 404 rfl
      (by decide),
    (errorHandler_failure_envelope (TypeError "Cannot read properties of null")).2.2.2
      (by decide) (by decide) (by decide) rfl⟩

/-- C19. `errorHandlerMiddleware` classifies the errors of the store: an error
named "ValidationError" yields status 400 and the validator messages joined by
", " as the message of the resulting error; otherwise an error with code 11000
yields status 400 and a message that lists the duplicated field names; otherwise
an error named "CastError" yields status 404 ("Resource not found").  So
`ValidationError` wins over a duplicate key, which wins over `CastError`. -/
theorem errorHandler_classifies (err : Err) :
    (err.name = "ValidationError" →
      errorHandlerMiddleware.error err =
        ErrorResponseAPI (", ".intercalate (err.errors.map fun e => e.2)) 400 ∧
      (errorHandlerMiddleware err).status = some 400) ∧
    (err.name ≠ "ValidationError" → err.code = some 11000 →
      errorHandlerMiddleware.error err =
        ErrorResponseAPI
          ("Duplicate value entered for " ++ ",".intercalate (err.keyValue.map fun kv => kv.1)
            ++ " field, please choose another value") 400 ∧
      errorHandlerMiddleware err =
        .json 400 { success := false,
                    error := some ("Duplicate value entered for "
                      ++ ",".intercalate (err.keyValue.map fun kv => kv.1)
                      ++ " field, please choose another value") }) ∧
    (err.name = "CastError" → err.code ≠ some 11000 →
      errorHandlerMiddleware.error err = ErrorResponseAPI "Resource not found" 404 ∧
      errorHandlerMiddleware err =
        .json 404 { success := false, error := some "Resource not found" }) := by
  refine ⟨fun hv => ?_, fun hv hd => ?_, fun hc hd => ?_⟩
  · refine ⟨error_of_validationError hv, ?_⟩
    rw [errorHandlerMiddleware_eq, error_of_validationError hv]
    rfl
  · refine ⟨error_of_duplicateKey hv hd, ?_⟩
    rw [errorHandlerMiddleware_eq, error_of_duplicateKey hv hd]
    simp only [ErrorResponseAPI, duplicate_message_ne]
    rfl
  · refine ⟨error_of_castError hc hd, ?_⟩
    rw [errorHandlerMiddleware_eq, error_of_castError hc hd]
    rfl

/-- Witness of C19: an error that is a `ValidationError` with code 11000 is
answered as a validation failure, and a `CastError` with code 11000 as a
duplicate key. -/
theorem errorHandler_classifies_witness :
    (errorHandlerMiddleware.error mixedError =
        ErrorResponseAPI
          "Please add a rating between 1 and 10, Please add a title for the review" 400 ∧
      (errorHandlerMiddleware mixedError).status = some 400) ∧
    (errorHandlerMiddleware.error castDuplicateError =
        ErrorResponseAPI
          "Duplicate value entered for bootcamp,user field, please choose another value" 400 ∧
      errorHandlerMiddleware castDuplicateError =
        .json 400 { success := false,
                    error := some
                      "Duplicate value entered for bootcamp,user field, please choose another value" }) ∧
    (errorHandlerMiddleware.error (CastError "abc" "_id") =
        ErrorResponseAPI "Resource not found" 404 ∧
      errorHandlerMiddleware (CastError "abc" "_id") =
        .json 404 { success := false, error := some "Resource not found" }) :=
  ⟨(errorHandler_classifies mixedError).1 rfl,
    (errorHandler_classifies castDuplicateError).2.1 (by decide) rfl,
    (errorHandler_classifies (CastError "abc" "_id")).2.2 rfl (by decide)⟩

/-! ## Time of the recomputation -/

theorem ceil_4050 : ⌈(4050 : ℚ) / 10⌉ = 405 := by
  rw [Int.ceil_eq_iff]; constructor <;> norm_num

/-- C20 evaluated: `alice` adds a course of tuition 100 to her bootcamp, whose
single course has tuition 8000 and whose `averageCost` is 8000.  When the
promise of `Course.create` resolves and `addCourse` sends its 201, the course is
stored and `averageCost` is still 8000; the recomputed 4050 is stored only by
the computation that the save hook left running.  In the same way `createReview`
with rating 4 next to a review rated 8 responds while `averageRating` is still
8, the recomputed value being 6. -/
theorem response_precedes_recomputation :
    (Course.insert demoEnv settledStore
        { tuition := some 100, bootcamp := some demoBootcamp.id, user := some alice.id } =
        .ok ({ settledStore with courses := settledStore.courses ++ [cheapCourse] },
          cheapCourse) ∧
      averageCostOf { settledStore with courses := settledStore.courses ++ [cheapCourse] }
        demoBootcamp.id = some 8000 ∧
      (addCourse demoEnv addCheapCourse settledStore).2.2 =
        [.json 201 { success := true, data := some (.course cheapCourse) }] ∧
      averageCostOf (addCourse demoEnv addCheapCourse settledStore).2.1 demoBootcamp.id =
        some 4050) ∧
    (Review.insert demoEnv settledStore
        { rating := some 4, bootcamp := some demoBootcamp.id, user := some bob.id } =
        .ok ({ settledStore with reviews := settledStore.reviews ++ [lowReview] }, lowReview) ∧
      averageRatingOf { settledStore with reviews := settledStore.reviews ++ [lowReview] }
        demoBootcamp.id = some 8 ∧
      (createReview demoEnv (reviewRequestBy bob demoBootcamp.id 4) settledStore).2.2 =
        [.json 201 { success := true, data := some (.review lowReview) }] ∧
      averageRatingOf (createReview demoEnv (reviewRequestBy bob demoBootcamp.id 4)
        settledStore).2.1 demoBootcamp.id = some 6) := by
  have hci : Course.insert demoEnv settledStore
      { tuition := some 100, bootcamp := some demoBootcamp.id, user := some alice.id } =
      .ok ({ settledStore with courses := settledStore.courses ++ [cheapCourse] },
        cheapCourse) := by rfl
  have hri : Review.insert demoEnv settledStore
      { rating := some 4, bootcamp := some demoBootcamp.id, user := some bob.id } =
      .ok ({ settledStore with reviews := settledStore.reviews ++ [lowReview] }, lowReview) := by
    rfl
  have hc : addCourse demoEnv addCheapCourse settledStore =
      ({ addCheapCourse with
          body := { tuition := some 100, bootcamp := some demoBootcamp.id,
                    user := some alice.id } },
        (Course.getAverageCost demoEnv
          { settledStore with courses := settledStore.courses ++ [cheapCourse] }
          demoBootcamp.id).1,
        [.json 201 { success := true, data := some (.course cheapCourse) }]) := by
    have hf : Bootcamp.findById demoEnv settledStore "5d713995b721c3bb38c1f5d0" =
        .ok (some { demoBootcamp with averageCost := some 8000, averageRating := some 8 }) := by
      rfl
    simp only [addCourse, asyncHandler, addCheapCourse, hf, Course.create]
    erw [hci]
    rfl
  have hr : createReview demoEnv (reviewRequestBy bob demoBootcamp.id 4) settledStore =
      ({ reviewRequestBy bob demoBootcamp.id 4 with
          body := { rating := some 4, bootcamp := some demoBootcamp.id,
                    user := some bob.id } },
        (Review.getAverageRating demoEnv
          { settledStore with reviews := settledStore.reviews ++ [lowReview] }
          demoBootcamp.id).1,
        [.json 201 { success := true, data := some (.review lowReview) }]) := by
    have hf : Bootcamp.findById demoEnv settledStore demoBootcamp.id =
        .ok (some { demoBootcamp with averageCost := some 8000, averageRating := some 8 }) := by
      rfl
    simp only [createReview, asyncHandler, reviewRequestBy, hf, Review.create]
    erw [hri]
    rfl
  have hcv := (@getAverageCost_value demoEnv
    { settledStore with courses := settledStore.courses ++ [cheapCourse] } demoBootcamp.id
    { demoBootcamp with averageCost := some 8000, averageRating := some 8 }
    rfl (by decide) (fun _ => rfl) (by decide) (by decide)).2
  have hrv := (@getAverageRating_value demoEnv
    { settledStore with reviews := settledStore.reviews ++ [lowReview] } demoBootcamp.id
    { demoBootcamp with averageCost := some 8000, averageRating := some 8 }
    rfl (by decide) (fun _ => rfl) (by decide) (by decide)).2
  refine ⟨⟨hci, by decide, by rw [hc], ?_⟩, ⟨hri, by decide, by rw [hr], ?_⟩⟩
  · rw [hc]
    simp only
    rw [hcv]
    have ht : tuitionsOf { settledStore with courses := settledStore.courses ++ [cheapCourse] }
        demoBootcamp.id = [8000, 100] := by decide
    have hm : mean [8000, 100] = 4050 := by norm_num [mean]
    rw [ht, hm, ceil_4050]
    norm_num
  · rw [hr]
    simp only
    rw [hrv]
    have ht : ratingsOf { settledStore with reviews := settledStore.reviews ++ [lowReview] }
        demoBootcamp.id = [8, 4] := by decide
    rw [ht]
    norm_num [mean]

/-! ## The success envelope -/

theorem asyncHandler_enveloped (fn : Handler) (token : Bool) (env : Env) (req : Req) (s : Store)
    (h : ∀ signals, (fn env req s).2.2 = .ok signals →
      signals.all (Signal.enveloped token) = true) :
    (asyncHandler fn env req s).2.2.all (Signal.enveloped token) = true := by
  unfold asyncHandler
  split
  · rename_i req' s' signals heq
    exact h signals (by rw [heq])
  · rfl

theorem getBootcamp_enveloped (env : Env) (req : Req) (s : Store) :
    (getBootcamp env req s).2.2.all (Signal.enveloped false) = true := by
  apply asyncHandler_enveloped
  intro signals h
  try dsimp only at h
  repeat' split at h
  all_goals try simp at h
  all_goals try subst h
  all_goals simp [Signal.enveloped, ResBody.hasData, ResBody.hasToken,
    createTokenAndAttachCookiesToResponse]

theorem createBootcamp_enveloped (env : Env) (req : Req) (s : Store) :
    (createBootcamp env req s).2.2.all (Signal.enveloped false) = true := by
  apply asyncHandler_enveloped
  intro signals h
  try dsimp only at h
  repeat' split at h
  all_goals try simp at h
  all_goals try subst h
  all_goals simp [Signal.enveloped, ResBody.hasData, ResBody.hasToken,
    createTokenAndAttachCookiesToResponse]

theorem updateBootcamp_enveloped (env : Env) (req : Req) (s : Store) :
    (updateBootcamp env req s).2.2.all (Signal.enveloped false) = true := by
  apply asyncHandler_enveloped
  intro signals h
  try dsimp only at h
  repeat' split at h
  all_goals try simp at h
  all_goals try subst h
  all_goals simp [Signal.enveloped, ResBody.hasData, ResBody.hasToken,
    createTokenAndAttachCookiesToResponse]

theorem deleteBootcamp_enveloped (env : Env) (req : Req) (s : Store) :
    (deleteBootcamp env req s).2.2.all (Signal.enveloped false) = true := by
  apply asyncHandler_enveloped
  intro signals h
  try dsimp only at h
  repeat' split at h
  all_goals try simp at h
  all_goals try subst h
  all_goals simp [Signal.enveloped, ResBody.hasData, ResBody.hasToken,
    createTokenAndAttachCookiesToResponse]

theorem getBootcampsInRadius_enveloped (env : Env) (req : Req) (s : Store) :
    (getBootcampsInRadius env req s).2.2.all (Signal.enveloped false) = true := by
  apply asyncHandler_enveloped
  intro signals h
  try dsimp only at h
  repeat' split at h
  all_goals try simp at h
  all_goals try subst h
  all_goals simp [Signal.enveloped, ResBody.hasData, ResBody.hasToken,
    createTokenAndAttachCookiesToResponse]

theorem uploadImage_enveloped (env : Env) (req : Req) (s : Store) :
    (uploadImage env req s).2.2.all (Signal.enveloped false) = true := by
  apply asyncHandler_enveloped
  intro signals h
  try dsimp only at h
  repeat' split at h
  all_goals try simp at h
  all_goals try subst h
  all_goals simp [Signal.enveloped, ResBody.hasData, ResBody.hasToken,
    createTokenAndAttachCookiesToResponse]

theorem getSingleCourse_enveloped (env : Env) (req : Req) (s : Store) :
    (getSingleCourse env req s).2.2.all (Signal.enveloped false) = true := by
  apply asyncHandler_enveloped
  intro signals h
  try dsimp only at h
  repeat' split at h
  all_goals try simp at h
  all_goals try subst h
  all_goals simp [Signal.enveloped, ResBody.hasData, ResBody.hasToken,
    createTokenAndAttachCookiesToResponse]

theorem addCourse_enveloped (env : Env) (req : Req) (s : Store) :
    (addCourse env req s).2.2.all (Signal.enveloped false) = true := by
  apply asyncHandler_enveloped
  intro signals h
  try dsimp only at h
  repeat' split at h
  all_goals try simp at h
  all_goals try subst h
  all_goals simp [Signal.enveloped, ResBody.hasData, ResBody.hasToken,
    createTokenAndAttachCookiesToResponse]

theorem updateCourse_enveloped (env : Env) (req : Req) (s : Store) :
    (updateCourse env req s).2.2.all (Signal.enveloped false) = true := by
  apply asyncHandler_enveloped
  intro signals h
  try dsimp only at h
  repeat' split at h
  all_goals try simp at h
  all_goals try subst h
  all_goals simp [Signal.enveloped, ResBody.hasData, ResBody.hasToken,
    createTokenAndAttachCookiesToResponse]

theorem deleteCourse_enveloped (env : Env) (req : Req) (s : Store) :
    (deleteCourse env req s).2.2.all (Signal.enveloped false) = true := by
  apply asyncHandler_enveloped
  intro signals h
  try dsimp only at h
  repeat' split at h
  all_goals try simp at h
  all_goals try subst h
  all_goals simp [Signal.enveloped, ResBody.hasData, ResBody.hasToken,
    createTokenAndAttachCookiesToResponse]

theorem getSingleReview_enveloped (env : Env) (req : Req) (s : Store) :
    (getSingleReview env req s).2.2.all (Signal.enveloped false) = true := by
  apply asyncHandler_enveloped
  intro signals h
  try dsimp only at h
  repeat' split at h
  all_goals try simp at h
  all_goals try subst h
  all_goals simp [Signal.enveloped, ResBody.hasData, ResBody.hasToken,
    createTokenAndAttachCookiesToResponse]

theorem createReview_enveloped (env : Env) (req : Req) (s : Store) :
    (createReview env req s).2.2.all (Signal.enveloped false) = true := by
  apply asyncHandler_enveloped
  intro signals h
  try dsimp only at h
  repeat' split at h
  all_goals try simp at h
  all_goals try subst h
  all_goals simp [Signal.enveloped, ResBody.hasData, ResBody.hasToken,
    createTokenAndAttachCookiesToResponse]

theorem updateReview_enveloped (env : Env) (req : Req) (s : Store) :
    (updateReview env req s).2.2.all (Signal.enveloped false) = true := by
  apply asyncHandler_enveloped
  intro signals h
  try dsimp only at h
  repeat' split at h
  all_goals try simp at h
  all_goals try subst h
  all_goals simp [Signal.enveloped, ResBody.hasData, ResBody.hasToken,
    createTokenAndAttachCookiesToResponse]

theorem deleteReview_enveloped (env : Env) (req : Req) (s : Store) :
    (deleteReview env req s).2.2.all (Signal.enveloped false) = true := by
  apply asyncHandler_enveloped
  intro signals h
  try dsimp only at h
  repeat' split at h
  all_goals try simp at h
  all_goals try subst h
  all_goals simp [Signal.enveloped, ResBody.hasData, ResBody.hasToken,
    createTokenAndAttachCookiesToResponse]

theorem logoutUserAndClearCookie_enveloped (env : Env) (req : Req) (s : Store) :
    (logoutUserAndClearCookie env req s).2.2.all (Signal.enveloped false) = true := by
  apply asyncHandler_enveloped
  intro signals h
  all_goals try simp at h
  all_goals try subst h
  all_goals simp [Signal.enveloped, ResBody.hasData, ResBody.hasToken,
    createTokenAndAttachCookiesToResponse]

theorem showMe_enveloped (env : Env) (req : Req) (s : Store) :
    (showMe env req s).2.2.all (Signal.enveloped false) = true := by
  apply asyncHandler_enveloped
  intro signals h
  try dsimp only at h
  repeat' split at h
  all_goals try simp at h
  all_goals try subst h
  all_goals simp [Signal.enveloped, ResBody.hasData, ResBody.hasToken,
    createTokenAndAttachCookiesToResponse]

theorem forgotPassword_enveloped (env : Env) (req : Req) (s : Store) :
    (forgotPassword env req s).2.2.all (Signal.enveloped false) = true := by
  apply asyncHandler_enveloped
  intro signals h
  try dsimp only at h
  repeat' split at h
  all_goals try simp at h
  all_goals try subst h
  all_goals simp [Signal.enveloped, ResBody.hasData, ResBody.hasToken,
    createTokenAndAttachCookiesToResponse]

theorem updateDetails_enveloped (env : Env) (req : Req) (s : Store) :
    (updateDetails env req s).2.2.all (Signal.enveloped false) = true := by
  apply asyncHandler_enveloped
  intro signals h
  try dsimp only at h
  repeat' split at h
  all_goals try simp at h
  all_goals try subst h
  all_goals simp [Signal.enveloped, ResBody.hasData, ResBody.hasToken,
    createTokenAndAttachCookiesToResponse]

theorem register_enveloped (env : Env) (req : Req) (s : Store) :
    (register env req s).2.2.all (Signal.enveloped true) = true := by
  apply asyncHandler_enveloped
  intro signals h
  try dsimp only at h
  repeat' split at h
  all_goals try simp at h
  all_goals try subst h
  all_goals simp [Signal.enveloped, ResBody.hasData, ResBody.hasToken,
    createTokenAndAttachCookiesToResponse]

theorem login_enveloped (env : Env) (req : Req) (s : Store) :
    (login env req s).2.2.all (Signal.enveloped true) = true := by
  apply asyncHandler_enveloped
  intro signals h
  try dsimp only at h
  repeat' split at h
  all_goals try simp at h
  all_goals try subst h
  all_goals simp [Signal.enveloped, ResBody.hasData, ResBody.hasToken,
    createTokenAndAttachCookiesToResponse]

theorem resetPassword_enveloped (env : Env) (req : Req) (s : Store) :
    (resetPassword env req s).2.2.all (Signal.enveloped true) = true := by
  apply asyncHandler_enveloped
  intro signals h
  try dsimp only at h
  repeat' split at h
  all_goals try simp at h
  all_goals try subst h
  all_goals simp [Signal.enveloped, ResBody.hasData, ResBody.hasToken,
    createTokenAndAttachCookiesToResponse]

theorem updateUserPassword_enveloped (env : Env) (req : Req) (s : Store) :
    (updateUserPassword env req s).2.2.all (Signal.enveloped true) = true := by
  apply asyncHandler_enveloped
  intro signals h
  try dsimp only at h
  repeat' split at h
  all_goals try simp at h
  all_goals try subst h
  all_goals simp [Signal.enveloped, ResBody.hasData, ResBody.hasToken,
    createTokenAndAttachCookiesToResponse]

/-- The two outcomes of `advancedResults`: nothing is called, or the result is
left for the handler and `next()` is called. -/
theorem advancedResults_cases (model : String) (env : Env) (req : Req) (s : Store) :
    advancedResults model env req s = (req, s, []) ∨
    ∃ body, body.hasData = true ∧
      advancedResults model env req s = ({ req with advancedResults := some body }, s, [.next]) := by
  unfold advancedResults
  dsimp only
  repeat' split
  all_goals first
    | exact Or.inl rfl
    | exact Or.inr ⟨_, by simp [ResBody.hasData], rfl⟩

theorem sendAdvancedResults_enveloped {req : Req} {body : ResBody}
    (h : req.advancedResults = some body) (hb : body.hasData = true) :
    (sendAdvancedResults req).enveloped false = true := by
  simp [sendAdvancedResults, h, Signal.enveloped, hb]

theorem getAllBootcamps_enveloped (env : Env) (req : Req) (s : Store) {body : ResBody}
    (h : req.advancedResults = some body) (hb : body.hasData = true) :
    (getAllBootcamps env req s).2.2.all (Signal.enveloped false) = true := by
  simp [getAllBootcamps, asyncHandler, sendAdvancedResults_enveloped h hb]

theorem getAllCourses_enveloped (env : Env) (req : Req) (s : Store) {body : ResBody}
    (h : req.advancedResults = some body) (hb : body.hasData = true) :
    (getAllCourses env req s).2.2.all (Signal.enveloped false) = true := by
  apply asyncHandler_enveloped
  intro signals hs
  repeat' split at hs
  all_goals simp at hs
  all_goals subst hs
  all_goals first
    | simp only [List.all_cons, List.all_nil, Bool.and_true]
      exact sendAdvancedResults_enveloped h hb
    | simp [Signal.enveloped, ResBody.hasData]

theorem getAllReviews_enveloped (env : Env) (req : Req) (s : Store) {body : ResBody}
    (h : req.advancedResults = some body) (hb : body.hasData = true) :
    (getAllReviews env req s).2.2.all (Signal.enveloped false) = true := by
  apply asyncHandler_enveloped
  intro signals hs
  repeat' split at hs
  all_goals simp at hs
  all_goals subst hs
  all_goals first
    | simp only [List.all_cons, List.all_nil, Bool.and_true]
      exact sendAdvancedResults_enveloped h hb
    | simp [Signal.enveloped, ResBody.hasData]

/-- A list route: `advancedResults` and then a handler that finds its result. -/
theorem listRoute_enveloped (model : String) (handler : Middleware) (env : Env) (req : Req)
    (s : Store)
    (h : ∀ (req' : Req) (body : ResBody), req'.advancedResults = some body →
      body.hasData = true → (handler env req' s).2.2.all (Signal.enveloped false) = true) :
    (runStack env [advancedResults model, handler] req s).2.all (Signal.enveloped false)
      = true := by
  rcases advancedResults_cases model env req s with h0 | ⟨body, hb, h1⟩
  · simp [runStack, h0]
  · rw [runStack_next h1, runStack_single]
    exact h _ body rfl hb

/-- Every signal of every endpoint is enveloped. -/
theorem endpoint_enveloped (endpoint : Endpoint) (env : Env) (req : Req) (s : Store) :
    (endpoint.run env req s).all (Signal.enveloped endpoint.sendsToken) = true := by
  cases endpoint <;> simp only [Endpoint.run, Endpoint.sendsToken]
  case getAllBootcamps =>
    exact listRoute_enveloped _ _ env req s fun req' body h hb =>
      getAllBootcamps_enveloped env req' s h hb
  case getAllCourses =>
    exact listRoute_enveloped _ _ env req s fun req' body h hb =>
      getAllCourses_enveloped env req' s h hb
  case getAllReviews =>
    exact listRoute_enveloped _ _ env req s fun req' body h hb =>
      getAllReviews_enveloped env req' s h hb
  case getBootcamp => exact getBootcamp_enveloped env req s
  case createBootcamp => exact createBootcamp_enveloped env req s
  case updateBootcamp => exact updateBootcamp_enveloped env req s
  case deleteBootcamp => exact deleteBootcamp_enveloped env req s
  case getBootcampsInRadius => exact getBootcampsInRadius_enveloped env req s
  case uploadImage => exact uploadImage_enveloped env req s
  case getSingleCourse => exact getSingleCourse_enveloped env req s
  case addCourse => exact addCourse_enveloped env req s
  case updateCourse => exact updateCourse_enveloped env req s
  case deleteCourse => exact deleteCourse_enveloped env req s
  case getSingleReview => exact getSingleReview_enveloped env req s
  case createReview => exact createReview_enveloped env req s
  case updateReview => exact updateReview_enveloped env req s
  case deleteReview => exact deleteReview_enveloped env req s
  case register => exact register_enveloped env req s
  case login => exact login_enveloped env req s
  case logoutUserAndClearCookie => exact logoutUserAndClearCookie_enveloped env req s
  case showMe => exact showMe_enveloped env req s
  case forgotPassword => exact forgotPassword_enveloped env req s
  case resetPassword => exact resetPassword_enveloped env req s
  case updateDetails => exact updateDetails_enveloped env req s
  case updateUserPassword => exact updateUserPassword_enveloped env req s

/-- C18, counterexample: `login` with the email and password of `dave` answers
200 with the cookie and the body `{success: true, token}`; the body has no
`data` field. -/
theorem token_response_counterexample :
    Endpoint.run .login demoEnv daveLogin accountStore =
      [.cookie "token" "jwt.5d7a514b5d2c12c7449be048",
       .json 200 { success := true, token := some "jwt.5d7a514b5d2c12c7449be048" }] ∧
    ((Endpoint.run .login demoEnv daveLogin accountStore).filterMap Signal.body).map
      (fun body => body.data) = [none] := by
  decide

/-- C18, amended. Every successful (2xx) response produced by a handler of the
bootcamp, course, review and auth controllers has a JSON body with `success`
equal to true and no `error` field.  For the auth handlers `register`, `login`,
`resetPassword` and `updateUserPassword` the body carries a `token` field and no
`data` field; for every other handler it carries a `data` field with the
payload and no `token` field.  No handler answers with an empty body. -/
theorem success_envelope (endpoint : Endpoint) (env : Env) (req : Req) (s : Store)
    (status : Nat) (body : ResBody)
    (hsent : Signal.json status body ∈ endpoint.run env req s)
    (h2xx : 200 ≤ status ∧ status < 300) :
    body.success = true ∧ body.error = none ∧
    (endpoint.sendsToken = false → body.data.isSome = true ∧ body.token = none) ∧
    (endpoint.sendsToken = true → body.token.isSome = true ∧ body.data = none) ∧
    ∀ code, Signal.send code ∉ endpoint.run env req s := by
  have hall := List.all_eq_true.mp (endpoint_enveloped endpoint env req s)
  have hbody := hall _ hsent
  simp only [Signal.enveloped, h2xx.1, h2xx.2, decide_True, Bool.and_self, Bool.not_true,
    Bool.false_or] at hbody
  have hsend : ∀ code, Signal.send code ∉ endpoint.run env req s := by
    intro code hmem
    have := hall _ hmem
    simp [Signal.enveloped] at this
  cases htoken : endpoint.sendsToken
  · rw [htoken] at hbody
    simp [ResBody.hasData] at hbody
    exact ⟨hbody.1.1.1, hbody.2, fun _ => ⟨by simp [hbody.1.1.2], hbody.1.2⟩,
      fun h => by simp at h, hsend⟩
  · rw [htoken] at hbody
    simp [ResBody.hasToken] at hbody
    exact ⟨hbody.1.1.1.1.1, hbody.1.1.2, fun h => by simp at h,
      fun _ => ⟨by simp [hbody.1.1.1.1.2], hbody.1.1.1.2⟩, hsend⟩

/-- Witness of C18: the response of `login` to the email and password of `dave`. -/
theorem success_envelope_witness :
    ({ success := true, token := some "jwt.5d7a514b5d2c12c7449be048" } : ResBody).success
      = true ∧
    ({ success := true, token := some "jwt.5d7a514b5d2c12c7449be048" } : ResBody).error
      = none ∧
    (Endpoint.sendsToken .login = false →
      ({ success := true, token := some "jwt.5d7a514b5d2c12c7449be048" } : ResBody).data.isSome
        = true ∧
      ({ success := true, token := some "jwt.5d7a514b5d2c12c7449be048" } : ResBody).token
        = none) ∧
    (Endpoint.sendsToken .login = true →
      ({ success := true, token := some "jwt.5d7a514b5d2c12c7449be048" } : ResBody).token.isSome
        = true ∧
      ({ success := true, token := some "jwt.5d7a514b5d2c12c7449be048" } : ResBody).data
        = none) ∧
    ∀ code, Signal.send code ∉ Endpoint.run .login demoEnv daveLogin accountStore :=
  success_envelope .login demoEnv daveLogin accountStore 200
    { success := true, token := some "jwt.5d7a514b5d2c12c7449be048" } (by decide) (by decide)

/-! ## The pre-save hook of users -/

/-- With a password on the document that is not modified, the hook calls
`next()` twice and replaces the password by a hash of it. -/
theorem preSave_unmodified (env : Env) (s : Store) (p : String) :
    User.preSave env s (some p) false =
      { password := some (env.bcryptHash p (env.genSalt s)), nextCalls := 2, rejects := false } :=
  rfl

/-- With a modified password the hook hashes it and calls `next()` once. -/
theorem preSave_modified (env : Env) (s : Store) (p : String) :
    User.preSave env s (some p) true =
      { password := some (env.bcryptHash p (env.genSalt s)), nextCalls := 1, rejects := false } :=
  rfl

/-- C21 evaluated: the hook runs on a document whose password `salt:secret1` is
not modified.  It hashes the password again with a salt, leaving
`salt:salt:secret1` on the document, and calls `next()` twice.  On a document
without the password (the query did not select it, as in `forgotPassword`) it
calls `next()` once and then `bcrypt.hash` throws.  Only a modified password
gives one hashing and one `next()`.  For all collaborators an unmodified
password on the document is hashed and `next()` is called twice. -/
theorem preSave_hashes_unmodified_password :
    User.preSave demoEnv accountStore (some "salt:secret1") false =
      { password := some "salt:salt:secret1", nextCalls := 2, rejects := false } ∧
    User.preSave demoEnv accountStore none false =
      { password := none, nextCalls := 1, rejects := true } ∧
    User.preSave demoEnv accountStore (some "secret1") true =
      { password := some "salt:secret1", nextCalls := 1, rejects := false } ∧
    ∀ (env : Env) (s : Store) (p : String),
      (User.preSave env s (some p) false).nextCalls = 2 ∧
      (User.preSave env s (some p) false).password =
        some (env.bcryptHash p (env.genSalt s)) := by
  refine ⟨by decide, by decide, by decide, fun env s p => ?_⟩
  rw [preSave_unmodified]
  exact ⟨rfl, rfl⟩

/-! ## The password reset token -/

theorem find?_eq_some_of_unique {α : Type} {p : α → Bool} {l : List α} {a : α}
    (ha : a ∈ l) (hpa : p a = true) (huniq : ∀ b ∈ l, p b = true → b = a) :
    l.find? p = some a := by
  induction l with
  | nil => cases ha
  | cons x xs ih =>
    by_cases hx : p x = true
    · have hxa := huniq x (List.mem_cons_self _ _) hx
      rw [List.find?_cons_of_pos _ hx, hxa]
    · have hne : a ≠ x := fun h => hx (h ▸ hpa)
      have ha' : a ∈ xs := by
        rcases List.mem_cons.mp ha with h | h
        · exact absurd h hne
        · exact h
      rw [List.find?_cons_of_neg _ hx]
      exact ih ha' (fun b hb => huniq b (List.mem_cons_of_mem _ hb))

theorem user_eq_of_id {users : List User} (hids : (users.map fun u => u.id).Nodup)
    {a b : User} (ha : a ∈ users) (hb : b ∈ users) (h : a.id = b.id) : a = b :=
  List.inj_on_of_nodup_map hids ha hb h

theorem mem_replaceFirst_of_nodup {users : List User} {id : String} {doc u : User}
    (hids : (users.map fun u => u.id).Nodup)
    (hu : u ∈ replaceFirst (fun x => x.id == id) (fun _ => doc) users) :
    u = doc ∨ (u ∈ users ∧ u.id ≠ id) := by
  induction users with
  | nil => cases hu
  | cons a as ih =>
    have hnd := List.nodup_cons.mp hids
    simp only [replaceFirst] at hu
    by_cases ha : (a.id == id) = true
    · rw [if_pos ha] at hu
      rcases List.mem_cons.mp hu with h | h
      · exact Or.inl h
      · refine Or.inr ⟨List.mem_cons_of_mem _ h, ?_⟩
        intro hid
        have haid : a.id = id := by simpa using ha
        exact hnd.1 (List.mem_map.mpr ⟨u, h, hid.trans haid.symm⟩)
    · rw [if_neg ha] at hu
      rcases List.mem_cons.mp hu with h | h
      · subst h
        exact Or.inr ⟨List.mem_cons_self _ _, by simpa using ha⟩
      · rcases ih hnd.2 h with h' | ⟨h1, h2⟩
        · exact Or.inl h'
        · exact Or.inr ⟨List.mem_cons_of_mem _ h1, h2⟩

/-- C22. Let `getResetPasswordToken` at time `T` (`env0.now`) give the plain
token `t` and the user document `U`, stored in a database with unique `_id`s,
and let the token parameter of the request not hash to the reset token of
another user.  `U` holds `sha256(t)` and the expiry `T + 600000`.
`resetPassword` with the token parameter `p` at time `now` finds `U` if and only
if `sha256(p)` is the stored hash and `now < T + 600000`; otherwise it passes a
400 and leaves the store as it is.  When `U` is found and the new password
passes validation, the response is the token response of status 200, the hash
of the new password is stored, both reset fields of `U` are cleared, and the
same request does not succeed again: it gets the 400.  When validation fails,
nothing is changed. -/
theorem reset_token_window (env0 env : Env) (s0 s : Store) (U0 U : User) (t : String)
    (req : Req)
    (hissue : User.getResetPasswordToken env0 s0 U0 = (U, t))
    (hU : U ∈ s.users)
    (hids : (s.users.map fun u => u.id).Nodup)
    (hother : ∀ u ∈ s.users, u.id ≠ U.id →
      u.resetPasswordToken ≠ some (env.sha256 req.params.token)) :
    (U.resetPasswordToken = some (env0.sha256 t) ∧
      U.resetPasswordExpire = some (env0.now + 600000)) ∧
    (User.findOneByResetToken env s (env.sha256 req.params.token) = some U ↔
      env.sha256 req.params.token = env0.sha256 t ∧ env.now < env0.now + 600000) ∧
    (¬ (env.sha256 req.params.token = env0.sha256 t ∧ env.now < env0.now + 600000) →
      resetPassword env req s =
        (req, s, [.nextErr (ErrorResponseAPI
          "Bad Request! Token is invalid or has expired" 400)])) ∧
    (env.sha256 req.params.token = env0.sha256 t → env.now < env0.now + 600000 →
      namePath (some U.name) ++ emailPath env (some U.email)
          ++ passwordPath (req.body.get "password") ≠ [] →
      resetPassword env req s =
        (req, s, [.nextErr (ValidationError
          (namePath (some U.name) ++ emailPath env (some U.email)
            ++ passwordPath (req.body.get "password")))])) ∧
    (env.sha256 req.params.token = env0.sha256 t → env.now < env0.now + 600000 →
      namePath (some U.name) ++ emailPath env (some U.email)
          ++ passwordPath (req.body.get "password") = [] →
      ∃ p, req.body.get "password" = some p ∧
        (resetPassword env req s).2.2 =
          [.cookie "token" (env.jwtSign U.id),
           .json 200 { success := true, token := some (env.jwtSign U.id) }] ∧
        User.password (resetPassword env req s).2.1 U =
          some (env.bcryptHash p (env.genSalt s)) ∧
        (resetPassword env req s).2.1.users.find? (fun u => u.id == U.id) =
          some { U with resetPasswordToken := none, resetPasswordExpire := none } ∧
        resetPassword env req (resetPassword env req s).2.1 =
          (req, (resetPassword env req s).2.1,
            [.nextErr (ErrorResponseAPI
              "Bad Request! Token is invalid or has expired" 400)])) := by
  have hU' : U = { U0 with resetPasswordToken := some (env0.sha256 t),
                           resetPasswordExpire := some (env0.now + 600000) } := by
    simp only [User.getResetPasswordToken, Prod.mk.injEq] at hissue
    obtain ⟨h1, h2⟩ := hissue
    subst h2
    exact h1.symm
  have htok : U.resetPasswordToken = some (env0.sha256 t) := by rw [hU']
  have hexp : U.resetPasswordExpire = some (env0.now + 600000) := by rw [hU']
  -- a user that the query accepts is `U`
  have hkey : ∀ (e : Env), e.sha256 = env.sha256 → ∀ b ∈ s.users,
      (b.resetPasswordToken == some (e.sha256 req.params.token) &&
        (match b.resetPasswordExpire with
          | none => false
          | some expire => decide (expire > e.now))) = true → b = U := by
    intro e he b hb hpb
    simp only [Bool.and_eq_true, beq_iff_eq] at hpb
    by_contra hne
    have hid : b.id ≠ U.id := fun h => hne (user_eq_of_id hids hb hU h)
    exact hother b hb hid (by rw [hpb.1, he])
  have hpred : (U.resetPasswordToken == some (env.sha256 req.params.token) &&
        (match U.resetPasswordExpire with
          | none => false
          | some expire => decide (expire > env.now))) = true ↔
      (env.sha256 req.params.token = env0.sha256 t ∧ env.now < env0.now + 600000) := by
    rw [htok, hexp]
    simp only [Bool.and_eq_true, beq_iff_eq, Option.some.injEq, decide_eq_true_eq, gt_iff_lt]
    constructor
    · rintro ⟨h1, h2⟩; exact ⟨h1.symm, h2⟩
    · rintro ⟨h1, h2⟩; exact ⟨h1.symm, h2⟩
  have hfound : User.findOneByResetToken env s (env.sha256 req.params.token) = some U ↔
      env.sha256 req.params.token = env0.sha256 t ∧ env.now < env0.now + 600000 := by
    constructor
    · intro h
      unfold User.findOneByResetToken at h
      have hp := List.find?_some h
      exact hpred.mp hp
    · intro h
      exact find?_eq_some_of_unique hU (hpred.mpr h) (hkey env rfl)
  have hnone : ¬ (env.sha256 req.params.token = env0.sha256 t ∧ env.now < env0.now + 600000) →
      User.findOneByResetToken env s (env.sha256 req.params.token) = none := by
    intro hc
    unfold User.findOneByResetToken
    rw [List.find?_eq_none]
    intro b hb hpb
    have hbU := hkey env rfl b hb hpb
    subst hbU
    exact hc (hpred.mp hpb)
  refine ⟨⟨htok, hexp⟩, hfound, ?_, ?_, ?_⟩
  · intro hc
    simp [resetPassword, asyncHandler, hnone hc]
  · intro h1 h2 herr
    have hf := hfound.mpr ⟨h1, h2⟩
    have herr' : (namePath (some U.name) ++ emailPath env (some U.email)
        ++ passwordPath (req.body.get "password")).isEmpty = false := by
      cases hl : (namePath (some U.name) ++ emailPath env (some U.email)
        ++ passwordPath (req.body.get "password")) with
      | nil => exact absurd hl herr
      | cons _ _ => rfl
    have hsave : User.save env s
        { U with resetPasswordToken := none, resetPasswordExpire := none }
        (some (req.body.get "password")) true =
        .error (ValidationError (namePath (some U.name) ++ emailPath env (some U.email)
          ++ passwordPath (req.body.get "password"))) := by
      unfold User.save
      dsimp only
      simp only [↓reduceIte, herr', Bool.not_false]
    simp only [resetPassword, asyncHandler, hf, hsave]
  · intro h1 h2 hok
    have hf := hfound.mpr ⟨h1, h2⟩
    have hpp : passwordPath (req.body.get "password") = [] := (List.append_eq_nil.mp hok).2
    cases hpw : req.body.get "password" with
    | none => rw [hpw] at hpp; simp [passwordPath] at hpp
    | some p =>
      have hok' : (namePath (some U.name) ++ emailPath env (some U.email)
          ++ passwordPath (some p)).isEmpty = true := by
        rw [← hpw, hok]; rfl
      have hsave : User.save env s
          { U with resetPasswordToken := none, resetPasswordExpire := none }
          (some (some p)) true =
          .ok { s with
                users := replaceFirst (fun u => u.id == U.id)
                  (fun _ => { U with resetPasswordToken := none, resetPasswordExpire := none })
                  s.users
                passwords := (U.id, env.bcryptHash p (env.genSalt s)) ::
                  s.passwords.filter fun kv => kv.1 != U.id } := by
        unfold User.save
        dsimp only
        simp only [↓reduceIte, hok', Bool.not_true, User.preSave]
        rfl
      have hrun : resetPassword env req s =
          (req,
            { s with
              users := replaceFirst (fun u => u.id == U.id)
                (fun _ => { U with resetPasswordToken := none, resetPasswordExpire := none })
                s.users
              passwords := (U.id, env.bcryptHash p (env.genSalt s)) ::
                s.passwords.filter fun kv => kv.1 != U.id },
            createTokenAndAttachCookiesToResponse env
              { U with resetPasswordToken := none, resetPasswordExpire := none } 200) := by
        simp only [resetPassword, asyncHandler, hf, hpw, hsave]
      have hfindU : s.users.find? (fun u => u.id == U.id) = some U :=
        find?_eq_some_of_unique hU (by simp)
          (fun b hb hpb => user_eq_of_id hids hb hU (by simpa using hpb))
      rw [hrun]
      refine ⟨p, rfl, rfl, ?_, ?_, ?_⟩
      · simp [User.password, List.lookup]
      · simp only
        rw [find?_replaceFirst _ _ (fun a _ => by simp), hfindU]
        rfl
      · have hnone2 : User.findOneByResetToken env
            { s with
              users := replaceFirst (fun u => u.id == U.id)
                (fun _ => { U with resetPasswordToken := none, resetPasswordExpire := none })
                s.users
              passwords := (U.id, env.bcryptHash p (env.genSalt s)) ::
                s.passwords.filter fun kv => kv.1 != U.id }
            (env.sha256 req.params.token) = none := by
          unfold User.findOneByResetToken
          rw [List.find?_eq_none]
          intro b hb hpb
          simp only [Bool.and_eq_true, beq_iff_eq] at hpb
          rcases mem_replaceFirst_of_nodup hids hb with hb' | ⟨hb1, hb2⟩
          · rw [hb'] at hpb
            cases hpb.1
          · exact hother b hb1 hb2 hpb.1
        simp only [resetPassword, asyncHandler, hnone2]

/-- Witness of C22: `dave` resets his password one minute after the token was issued. -/
theorem reset_token_window_witness :
    ∃ p, resetRequest.body.get "password" = some p ∧
      (resetPassword laterEnv resetRequest resetStore).2.2 =
        [.cookie "token" (laterEnv.jwtSign daveResetting.id),
         .json 200 { success := true, token := some (laterEnv.jwtSign daveResetting.id) }] ∧
      User.password (resetPassword laterEnv resetRequest resetStore).2.1 daveResetting =
        some (laterEnv.bcryptHash p (laterEnv.genSalt resetStore)) ∧
      (resetPassword laterEnv resetRequest resetStore).2.1.users.find?
          (fun u => u.id == daveResetting.id) =
        some { daveResetting with resetPasswordToken := none, resetPasswordExpire := none } ∧
      resetPassword laterEnv resetRequest (resetPassword laterEnv resetRequest resetStore).2.1 =
        (resetRequest, (resetPassword laterEnv resetRequest resetStore).2.1,
          [.nextErr (ErrorResponseAPI
            "Bad Request! Token is invalid or has expired" 400)]) :=
  (reset_token_window demoEnv laterEnv accountStore resetStore daveAccount daveResetting
    "0f1e2d3c4b5a69788796a5b4c3d2e1f001234567" resetRequest rfl (by decide) (by decide)
    (by decide)).2.2.2.2 (by decide) (by decide) (by decide)

/-! ## Who may change a course -/

theorem getAverageCost_owners (env : Env) (s : Store) (bootcampId : String) :
    bootcampOwners (Course.getAverageCost env s bootcampId).1 = bootcampOwners s := by
  unfold Course.getAverageCost
  split
  · rfl
  · split
    · rfl
    · split
      · rename_i h; exact (bootcampUpdate_owners rfl h).1
      · rfl

/-- C23 evaluated: the admin `carol` adds a course to the bootcamp of the
publisher `alice` through `addCourse`; the stored course has `carol` as its
`user`.  `alice`, who owns the bootcamp, then asks to update and to delete that
course: both handlers compare her id with the `user` of the course, not with the
owner of the bootcamp, and refuse with 401. -/
theorem bootcamp_owner_refused_on_course :
    (addCourse demoEnv adminAddsCourse settledStore).2.2 =
      [.json 201 { success := true, data := some (.course adminCourse) }] ∧
    (addCourse demoEnv adminAddsCourse settledStore).2.1.courses =
      settledStore.courses ++ [adminCourse] ∧
    bootcampOwners (addCourse demoEnv adminAddsCourse settledStore).2.1 =
      [(adminCourse.bootcamp, alice.id)] ∧
    alice.role = "publisher" ∧
    updateCourse demoEnv ownerUpdatesAdminCourse
        (addCourse demoEnv adminAddsCourse settledStore).2.1 =
      (ownerUpdatesAdminCourse, (addCourse demoEnv adminAddsCourse settledStore).2.1,
        [.nextErr (ErrorResponseAPI
          ("User with the ID 5d7a514b5d2c12c7449be045 is not authorized to update a course"
            ++ " to the bootcamp with the ID 60d5ec49f1b2c8b1f8e4e1af") 401)]) ∧
    deleteCourse demoEnv ownerDeletesAdminCourse
        (addCourse demoEnv adminAddsCourse settledStore).2.1 =
      (ownerDeletesAdminCourse, (addCourse demoEnv adminAddsCourse settledStore).2.1,
        [.nextErr (ErrorResponseAPI
          ("User with the ID 5d7a514b5d2c12c7449be045 is not authorized to delete a course"
            ++ " to the bootcamp with the ID 60d5ec49f1b2c8b1f8e4e1af") 401)]) := by
  have hci : Course.insert demoEnv settledStore
      { tuition := some 100, bootcamp := some demoBootcamp.id, user := some carol.id } =
      .ok ({ settledStore with courses := settledStore.courses ++ [adminCourse] },
        adminCourse) := by rfl
  have hc : addCourse demoEnv adminAddsCourse settledStore =
      ({ adminAddsCourse with
          body := { tuition := some 100, bootcamp := some demoBootcamp.id,
                    user := some carol.id } },
        (Course.getAverageCost demoEnv
          { settledStore with courses := settledStore.courses ++ [adminCourse] }
          demoBootcamp.id).1,
        [.json 201 { success := true, data := some (.course adminCourse) }]) := by
    have hf : Bootcamp.findById demoEnv settledStore "5d713995b721c3bb38c1f5d0" =
        .ok (some { demoBootcamp with averageCost := some 8000, averageRating := some 8 }) := by
      rfl
    simp only [addCourse, asyncHandler, adminAddsCourse, hf, Course.create]
    erw [hci]
    rfl
  have hcourses : (addCourse demoEnv adminAddsCourse settledStore).2.1.courses =
      settledStore.courses ++ [adminCourse] := by
    rw [hc]
    exact (getAverageCost_frame demoEnv _ _).2.1
  have hfind : Course.findById demoEnv (addCourse demoEnv adminAddsCourse settledStore).2.1
      "60d5ec49f1b2c8b1f8e4e1af" = .ok (some adminCourse) := by
    unfold Course.findById
    rw [hcourses]
    rfl
  refine ⟨by rw [hc], hcourses, ?_, rfl, ?_, ?_⟩
  · rw [hc]
    simp only
    rw [getAverageCost_owners]
    decide
  · exact updateCourse_denied (P := alice) (R := adminCourse) rfl hfind (by decide)
  · exact deleteCourse_denied (P := alice) (R := adminCourse) rfl hfind (by decide)

/-! ## Pagination of `advancedResults` -/

theorem documentsOf_length_le (model : String) (s : Store) (ids : List String) :
    (documentsOf model s ids).length ≤ ids.length := by
  unfold documentsOf
  (repeat' split) <;> simp only [Data.length] <;> exact List.length_filterMap_le _ _

/-- The result of `advancedResults` when its query succeeds and the skip is not negative. -/
theorem advancedResults_ok {model : String} {env : Env} {req : Req} {s : Store}
    {sel sortBy : String} {ids : List String}
    (hsel : fieldList (req.query.lookup "select") "" = some sel)
    (hsort : fieldList (req.query.lookup "sort") "-createdAt _id" = some sortBy)
    (hskip : ¬ (parseIntOr (req.query.lookup "page") 1 - 1)
      * parseIntOr (req.query.lookup "limit") 25 < 0)
    (hfind : env.find model (advancedResults.queryStr req) sortBy s = .ok ids) :
    advancedResults model env req s =
      ({ req with
         advancedResults := some
           { success := true
             count := some (documentsOf model s
               ((ids.drop ((parseIntOr (req.query.lookup "page") 1 - 1)
                 * parseIntOr (req.query.lookup "limit") 25).toNat).take
                 (parseIntOr (req.query.lookup "limit") 25).natAbs)).length
             pagination := some
               { next :=
                   if parseIntOr (req.query.lookup "page") 1
                       * parseIntOr (req.query.lookup "limit") 25 < (countDocuments model s : Int)
                   then some { page := parseIntOr (req.query.lookup "page") 1 + 1,
                               limit := parseIntOr (req.query.lookup "limit") 25 }
                   else none
                 prev :=
                   if (parseIntOr (req.query.lookup "page") 1 - 1)
                       * parseIntOr (req.query.lookup "limit") 25 > 0
                   then some { page := parseIntOr (req.query.lookup "page") 1 - 1,
                               limit := parseIntOr (req.query.lookup "limit") 25 }
                   else none }
             data := some (documentsOf model s
               ((ids.drop ((parseIntOr (req.query.lookup "page") 1 - 1)
                 * parseIntOr (req.query.lookup "limit") 25).toNat).take
                 (parseIntOr (req.query.lookup "limit") 25).natAbs)) } }, s, [.next]) := by
  unfold advancedResults.queryStr at hfind
  unfold advancedResults
  simp only [hsel, hsort, hfind, if_neg hskip]

/-- C24. In `advancedResults` the page is `parseInt(page, 10) || 1` and the
limit `parseInt(limit, 10) || 25`: a missing parameter, one that is no number
and 0 give the default.  For every page `p ≥ 1` and limit `l ≥ 1`, when the
query succeeds with the matching documents `ids`, the middleware calls `next()`
and leaves a result whose data are the documents from position `(p - 1) * l`
on, at most `l` of them, whose `count` is their number, whose
`pagination.next` is `{page: p + 1, limit: l}` exactly when `p * l` is less
than the number of documents of the collection and absent otherwise, and whose
`pagination.prev` is `{page: p - 1, limit: l}` exactly when `p > 1`. -/
theorem advancedResults_pagination :
    (∀ fallback : Int,
      parseIntOr none fallback = fallback ∧
      (∀ fields, parseIntOr (some (.obj fields)) fallback = fallback) ∧
      (∀ v, parseInt v = none → parseIntOr (some (.str v)) fallback = fallback) ∧
      (∀ v, parseInt v = some 0 → parseIntOr (some (.str v)) fallback = fallback) ∧
      (∀ v n, parseInt v = some n → n ≠ 0 → parseIntOr (some (.str v)) fallback = n)) ∧
    (parseInt "abc" = none ∧ parseInt "" = none ∧ parseInt "0" = some 0 ∧
      parseInt "3" = some 3) ∧
    (∀ (model : String) (env : Env) (req : Req) (s : Store) (sel sortBy : String)
      (ids : List String) (p l : Int),
      fieldList (req.query.lookup "select") "" = some sel →
      fieldList (req.query.lookup "sort") "-createdAt _id" = some sortBy →
      env.find model (advancedResults.queryStr req) sortBy s = .ok ids →
      parseIntOr (req.query.lookup "page") 1 = p →
      parseIntOr (req.query.lookup "limit") 25 = l →
      1 ≤ p → 1 ≤ l →
      advancedResults model env req s =
        ({ req with
           advancedResults := some
             { success := true
               count := some
                 (documentsOf model s ((ids.drop ((p - 1) * l).toNat).take l.toNat)).length
               pagination := some
                 { next :=
                     if p * l < (countDocuments model s : Int)
                     then some { page := p + 1, limit := l } else none
                   prev := if 1 < p then some { page := p - 1, limit := l } else none }
               data := some
                 (documentsOf model s ((ids.drop ((p - 1) * l).toNat).take l.toNat)) } },
          s, [.next]) ∧
      (documentsOf model s ((ids.drop ((p - 1) * l).toNat).take l.toNat)).length ≤ l.toNat) := by
  refine ⟨fun fallback => ⟨rfl, fun _ => rfl, ?_, ?_, ?_⟩, by decide, ?_⟩
  · intro v h; simp [parseIntOr, h]
  · intro v h; simp [parseIntOr, h]
  · intro v n h hn; simp [parseIntOr, h, hn]
  · intro model env req s sel sortBy ids p l hsel hsort hfind hp hl hp1 hl1
    have hnn : 0 ≤ (p - 1) * l := Int.mul_nonneg (by omega) (by omega)
    have hskip : ¬ (parseIntOr (req.query.lookup "page") 1 - 1)
        * parseIntOr (req.query.lookup "limit") 25 < 0 := by
      rw [hp, hl]; omega
    have habs : l.natAbs = l.toNat := by omega
    have hprev : ((p - 1) * l > 0) ↔ 1 < p := by
      constructor
      · intro h
        by_contra hc
        have : p - 1 = 0 := by omega
        rw [this] at h
        simp at h
      · intro h
        exact Int.mul_pos (by omega) (by omega)
    refine ⟨?_, ?_⟩
    · rw [advancedResults_ok hsel hsort hskip hfind, hp, hl, habs]
      simp only [hprev]
    · refine le_trans (documentsOf_length_le _ _ _) ?_
      simp [List.length_take]

/-- Witness of C24: the second page of the three courses of `threeCourses`, one per page. -/
theorem advancedResults_pagination_witness :
    advancedResults "Course" demoEnv secondPage threeCourses =
      ({ secondPage with
         advancedResults := some
           { success := true
             count := some
               (documentsOf "Course" threeCourses
                 ((["5d725a4a7b292f5f8ceff781", "5d725a4a7b292f5f8ceff782",
                    "5d725a4a7b292f5f8ceff783"].drop (((2 : Int) - 1) * 1).toNat).take
                   (1 : Int).toNat)).length
             pagination := some
               { next :=
                   if (2 : Int) * 1 < (countDocuments "Course" threeCourses : Int)
                   then some { page := 2 + 1, limit := 1 } else none
                 prev := if (1 : Int) < 2 then some { page := 2 - 1, limit := 1 } else none }
             data := some
               (documentsOf "Course" threeCourses
                 ((["5d725a4a7b292f5f8ceff781", "5d725a4a7b292f5f8ceff782",
                    "5d725a4a7b292f5f8ceff783"].drop (((2 : Int) - 1) * 1).toNat).take
                   (1 : Int).toNat)) } },
        threeCourses, [.next]) ∧
    (documentsOf "Course" threeCourses
      ((["5d725a4a7b292f5f8ceff781", "5d725a4a7b292f5f8ceff782",
         "5d725a4a7b292f5f8ceff783"].drop (((2 : Int) - 1) * 1).toNat).take
        (1 : Int).toNat)).length ≤ (1 : Int).toNat :=
  advancedResults_pagination.2.2 "Course" demoEnv secondPage threeCourses "" "-createdAt _id"
    ["5d725a4a7b292f5f8ceff781", "5d725a4a7b292f5f8ceff782", "5d725a4a7b292f5f8ceff783"] 2 1
    (by decide) (by decide) (by rfl) (by decide) (by decide) (by decide) (by decide)

/-! ## The responses of `login` -/

theorem login_missing {env : Env} {req : Req} {s : Store}
    (h : (falsy (req.body.get "email") || falsy (req.body.get "password")) = true) :
    login env req s =
      (req, s, [.nextErr (ErrorResponseAPI "Please provide an email and password" 400)]) := by
  simp [login, asyncHandler, h]

theorem login_unknown {env : Env} {req : Req} {s : Store}
    (h : (falsy (req.body.get "email") || falsy (req.body.get "password")) = false)
    (hf : User.findOne s (req.body.get "email") = none) :
    login env req s = (req, s, [.nextErr (ErrorResponseAPI "Invalid credentials" 401)]) := by
  simp [login, asyncHandler, h, hf]

theorem login_mismatch {env : Env} {req : Req} {s : Store} {u : User} {hash : String}
    (h : (falsy (req.body.get "email") || falsy (req.body.get "password")) = false)
    (hf : User.findOne s (req.body.get "email") = some u)
    (hp : User.password s u = some hash)
    (hc : env.bcryptCompare ((req.body.get "password").getD "") hash = false) :
    login env req s = (req, s, [.nextErr (ErrorResponseAPI "Invalid credentials" 401)]) := by
  simp [login, asyncHandler, h, hf, hp, User.comparePassword, hc]

theorem login_pass {env : Env} {req : Req} {s : Store} {u : User} {hash : String}
    (h : (falsy (req.body.get "email") || falsy (req.body.get "password")) = false)
    (hf : User.findOne s (req.body.get "email") = some u)
    (hp : User.password s u = some hash)
    (hc : env.bcryptCompare ((req.body.get "password").getD "") hash = true) :
    login env req s = (req, s, createTokenAndAttachCookiesToResponse env u 200) := by
  simp [login, asyncHandler, h, hf, hp, User.comparePassword, hc]

/-- C25. For a store in which the user found by the email has a stored
password: `login` passes an error of status 400 if and only if the email or the
password is missing or empty in the body; otherwise it passes an error of
status 401 if and only if no user has that email or the password does not
match, and every 401 of `login` carries the message "Invalid credentials"; a
response is sent only when both checks pass, and it is then the token response
of status 200.  The store is never changed. -/
theorem login_status (env : Env) (req : Req) (s : Store)
    (hpw : ∀ u, User.findOne s (req.body.get "email") = some u →
      (User.password s u).isSome = true) :
    (login env req s).2.1 = s ∧
    (rejectedWith 400 (login env req s).2.2 = true ↔
      (falsy (req.body.get "email") || falsy (req.body.get "password")) = true) ∧
    ((falsy (req.body.get "email") || falsy (req.body.get "password")) = false →
      (rejectedWith 401 (login env req s).2.2 = true ↔
        (User.findOne s (req.body.get "email") = none ∨
          ∃ u hash, User.findOne s (req.body.get "email") = some u ∧
            User.password s u = some hash ∧
            env.bcryptCompare ((req.body.get "password").getD "") hash = false))) ∧
    (∀ err, (login env req s).2.2 = [.nextErr err] → err.statusCode = some 401 →
      err.message = "Invalid credentials") ∧
    (∀ status body, Signal.json status body ∈ (login env req s).2.2 →
      status = 200 ∧
      (falsy (req.body.get "email") || falsy (req.body.get "password")) = false ∧
      ∃ u hash, User.findOne s (req.body.get "email") = some u ∧
        User.password s u = some hash ∧
        env.bcryptCompare ((req.body.get "password").getD "") hash = true ∧
        body = { success := true, token := some (env.jwtSign u.id) }) ∧
    (∀ u hash, (falsy (req.body.get "email") || falsy (req.body.get "password")) = false →
      User.findOne s (req.body.get "email") = some u → User.password s u = some hash →
      env.bcryptCompare ((req.body.get "password").getD "") hash = true →
      (login env req s).2.2 =
        [.cookie "token" (env.jwtSign u.id),
         .json 200 { success := true, token := some (env.jwtSign u.id) }]) := by
  by_cases hm : (falsy (req.body.get "email") || falsy (req.body.get "password")) = true
  · rw [login_missing hm]
    refine ⟨rfl, ?_, ?_, ?_, ?_, ?_⟩
    · simp [rejectedWith, ErrorResponseAPI, hm]
    · intro h; rw [hm] at h; cases h
    · intro err h h401
      simp only [List.cons.injEq, Signal.nextErr.injEq, and_true] at h
      subst h
      simp [ErrorResponseAPI] at h401
    · intro status body h
      simp at h
    · intro u hash h; rw [hm] at h; cases h
  · have hm' : (falsy (req.body.get "email") || falsy (req.body.get "password")) = false := by
      simpa using hm
    cases hf : User.findOne s (req.body.get "email") with
    | none =>
      rw [login_unknown hm' hf]
      refine ⟨rfl, ?_, ?_, ?_, ?_, ?_⟩
      · simp [rejectedWith, ErrorResponseAPI, hm']
      · intro _; simp [rejectedWith, ErrorResponseAPI]
      · intro err h _
        simp only [List.cons.injEq, Signal.nextErr.injEq, and_true] at h
        subst h; rfl
      · intro status body h
        simp at h
      · intro u hash _ h; cases h
    | some u =>
      obtain ⟨hash, hp⟩ := Option.isSome_iff_exists.mp (hpw u hf)
      cases hc : env.bcryptCompare ((req.body.get "password").getD "") hash with
      | false =>
        rw [login_mismatch hm' hf hp hc]
        refine ⟨rfl, ?_, ?_, ?_, ?_, ?_⟩
        · simp [rejectedWith, ErrorResponseAPI, hm']
        · intro _
          simp only [rejectedWith, ErrorResponseAPI, beq_self_eq_true, true_iff]
          exact Or.inr ⟨u, hash, rfl, hp, hc⟩
        · intro err h _
          simp only [List.cons.injEq, Signal.nextErr.injEq, and_true] at h
          subst h; rfl
        · intro status body h
          simp at h
        · intro u' hash' _ hu' hp' hc'
          cases hu'
          rw [hp] at hp'; cases hp'
          rw [hc] at hc'; cases hc'
      | true =>
        rw [login_pass hm' hf hp hc]
        refine ⟨rfl, ?_, ?_, ?_, ?_, ?_⟩
        · simp [rejectedWith, createTokenAndAttachCookiesToResponse, hm']
        · intro _
          simp only [rejectedWith, createTokenAndAttachCookiesToResponse, Bool.false_eq_true,
            false_iff, not_or]
          refine ⟨by simp, ?_⟩
          rintro ⟨u', hash', hu', hp', hc'⟩
          cases hu'
          rw [hp] at hp'; cases hp'
          rw [hc] at hc'; cases hc'
        · intro err h _
          simp [createTokenAndAttachCookiesToResponse] at h
        · intro status body h
          simp [createTokenAndAttachCookiesToResponse, User.getSignedJwtToken] at h
          exact ⟨h.1, hm', u, hash, rfl, hp, hc, h.2⟩
        · intro u' hash' _ hu' _ _
          cases hu'
          rfl

/-- Witness of C25: `dave` logs in with his email and password. -/
theorem login_status_witness :
    (login demoEnv daveLogin accountStore).2.2 =
      [.cookie "token" (demoEnv.jwtSign daveAccount.id),
       .json 200 { success := true, token := some (demoEnv.jwtSign daveAccount.id) }] :=
  (login_status demoEnv daveLogin accountStore (fun u h => by
    have h' : User.findOne accountStore (daveLogin.body.get "email") = some daveAccount := by
      decide
    rw [h'] at h
    cases h
    decide)).2.2.2.2.2 daveAccount "salt:secret1" (by decide) (by decide) (by decide)
    (by decide)

/-! ## The filter of `advancedResults` -/

/-- C26 evaluated: for the query `name=coding in java`, `averageCost[lte]=10000`,
`page=1`, `select=name` the reserved keys are removed and the operator key `lte`
becomes `$lte`, but the replacement runs over the whole JSON text, so the value
of `name` that reaches `Model.find` is `coding $in java`: the middleware calls
`next()` with collaborators that answer that filter and no other. -/
theorem filter_rewrites_values :
    advancedResults.queryStr javaSearch =
      "\x7b\"name\":\"coding $in java\",\"averageCost\":\x7b\"$lte\":\"10000\"\x7d\x7d" ∧
    stringify [("name", .str "coding in java"), ("averageCost", .obj [("lte", "10000")])] =
      "\x7b\"name\":\"coding in java\",\"averageCost\":\x7b\"lte\":\"10000\"\x7d\x7d" ∧
    (advancedResults "Bootcamp" mangledFilterEnv javaSearch demoStore).2.2 = [.next] ∧
    ((advancedResults "Bootcamp" mangledFilterEnv javaSearch demoStore).1.advancedResults.map
      fun body => body.data) = some (some (.bootcamps [demoBootcamp])) := by
  decide

/-- C27 evaluated: of the three courses of `threeCourses` one has tuition 300.
For `tuition=300&limit=1` the first page holds that course and, the total being
the number of all courses (3), `pagination.next` points to page 2; page 2 of the
same query is empty. -/
theorem next_page_is_empty :
    ((advancedResults "Course" tuitionFilterEnv expensiveCourses threeCourses).1.advancedResults
      = some
        { success := true, count := some 1,
          pagination := some { next := some { page := 2, limit := 1 } },
          data := some (.courses [courseOf "5d725a4a7b292f5f8ceff783" 300]) }) ∧
    countDocuments "Course" threeCourses = 3 ∧
    ((advancedResults "Course" tuitionFilterEnv expensiveCoursesNext
        threeCourses).1.advancedResults
      = some
        { success := true, count := some 0,
          pagination := some { next := some { page := 3, limit := 1 },
                               prev := some { page := 1, limit := 1 } },
          data := some (.courses []) }) := by
  decide

/-! ## The user that `protect` leaves on the request -/

/-- C28 evaluated: the account of `alice` was deleted and a request carries a
token that still verifies for her id.  `protect` calls `next()` with `req.user`
null; on the route POST /api/v1/bootcamps `authorizePermissions` then fails to
read `req.user.role` and the client receives 500. -/
theorem protect_passes_null_user :
    protect demoEnv orphanTokenRequest orphanTokenStore =
      ({ orphanTokenRequest with user := none }, orphanTokenStore, [.next]) ∧
    demoEnv.jwtVerify "good" = some alice.id ∧
    orphanTokenStore.users.find? (fun u => u.id == alice.id) = none ∧
    respond (runStack demoEnv bootcampRoutes.create orphanTokenRequest orphanTokenStore).2 =
      [.json 500 { success := false,
                   error := some "Cannot read properties of null (reading role)" }] := by
  decide

/-! ## Recomputation without children, and updates -/

theorem aggregate_eq_none {s : Store} {id : String} (h : tuitionsOf s id = []) :
    Course.aggregate s id = none := by
  simp only [tuitionsOf] at h
  simp [Course.aggregate, h]

theorem reviewAggregate_eq_none {s : Store} {id : String} (h : ratingsOf s id = []) :
    Review.aggregate s id = none := by
  simp only [ratingsOf] at h
  simp [Review.aggregate, h]

theorem ceil_8000 : ⌈(8000 : ℚ) / 10⌉ = 800 := by
  rw [Int.ceil_eq_iff]; constructor <;> norm_num

/-- C29. When `getAverageCost` (resp. `getAverageRating`) runs for a bootcamp
that has no course (resp. review) and the aggregation query itself does not
fail, the aggregation result is empty, the store is left exactly as it was (no
update is written, the stored average keeps its value) and the promise resolves
without an error.  So after `alice` deletes the last course of her bootcamp,
whose `averageCost` is 8000, no course is left and `averageCost` is still 8000,
whether the aggregation of the remove hook is served before or after the
delete; likewise `averageRating` stays 8 after the last review is deleted. -/
theorem getAverage_without_children :
    (∀ (env : Env) (s : Store) (id : String),
      env.aggregateFails "Course" s id = none → tuitionsOf s id = [] →
      Course.aggregate s id = none ∧ Course.getAverageCost env s id = (s, .ok ())) ∧
    (∀ (env : Env) (s : Store) (id : String),
      env.aggregateFails "Review" s id = none → ratingsOf s id = [] →
      Review.aggregate s id = none ∧ Review.getAverageRating env s id = (s, .ok ())) ∧
    (averageCostOf settledStore demoBootcamp.id = some 8000 ∧
      tuitionsOf (deleteCourse lateAggregateEnv deleteLastCourse settledStore).2.1
        demoBootcamp.id = [] ∧
      averageCostOf (deleteCourse lateAggregateEnv deleteLastCourse settledStore).2.1
        demoBootcamp.id = some 8000 ∧
      tuitionsOf (deleteCourse demoEnv deleteLastCourse settledStore).2.1 demoBootcamp.id = [] ∧
      averageCostOf (deleteCourse demoEnv deleteLastCourse settledStore).2.1
        demoBootcamp.id = some 8000) ∧
    (averageRatingOf settledStore demoBootcamp.id = some 8 ∧
      ratingsOf (deleteReview lateAggregateEnv deleteLastReview settledStore).2.1
        demoBootcamp.id = [] ∧
      averageRatingOf (deleteReview lateAggregateEnv deleteLastReview settledStore).2.1
        demoBootcamp.id = some 8 ∧
      ratingsOf (deleteReview demoEnv deleteLastReview settledStore).2.1 demoBootcamp.id = [] ∧
      averageRatingOf (deleteReview demoEnv deleteLastReview settledStore).2.1
        demoBootcamp.id = some 8) := by
  refine ⟨?_, ?_, ⟨by decide, by decide, by decide, ?_, ?_⟩,
    ⟨by decide, by decide, by decide, ?_, ?_⟩⟩
  · intro env s id hagg hnone
    refine ⟨aggregate_eq_none hnone, ?_⟩
    unfold Course.getAverageCost
    rw [hagg, aggregate_eq_none hnone]
  · intro env s id hagg hnone
    refine ⟨reviewAggregate_eq_none hnone, ?_⟩
    unfold Review.getAverageRating
    rw [hagg, reviewAggregate_eq_none hnone]
  · have hc : deleteCourse demoEnv deleteLastCourse settledStore =
        deleteCourse.commit demoEnv deleteLastCourse settledStore demoCourse :=
      deleteCourse_allowed rfl (by rfl) (by decide)
    have hcr := @courseRemove_early_average demoEnv settledStore demoCourse
      { demoBootcamp with averageCost := some 8000, averageRating := some 8 }
      rfl rfl (by decide) (fun _ => rfl) (by decide) (by decide)
    rw [hc]
    simp only [deleteCourse.commit, tuitionsOf, hcr.2]
    decide
  · have hc : deleteCourse demoEnv deleteLastCourse settledStore =
        deleteCourse.commit demoEnv deleteLastCourse settledStore demoCourse :=
      deleteCourse_allowed rfl (by rfl) (by decide)
    have hcr := @courseRemove_early_average demoEnv settledStore demoCourse
      { demoBootcamp with averageCost := some 8000, averageRating := some 8 }
      rfl rfl (by decide) (fun _ => rfl) (by decide) (by decide)
    have ht : tuitionsOf settledStore demoBootcamp.id = [8000] := by decide
    have hm : mean [8000] = 8000 := by norm_num [mean]
    rw [hc]
    simp only [deleteCourse.commit]
    have h := hcr.1
    rw [show demoCourse.bootcamp = demoBootcamp.id from rfl, ht, hm, ceil_8000] at h
    rw [h]; norm_num
  · have hr : deleteReview demoEnv deleteLastReview settledStore =
        deleteReview.commit demoEnv deleteLastReview settledStore demoReview :=
      deleteReview_allowed rfl (by rfl) (by decide)
    have hrr := @reviewRemove_early_average demoEnv settledStore demoReview
      { demoBootcamp with averageCost := some 8000, averageRating := some 8 }
      rfl rfl (by decide) (fun _ => rfl) (by decide) (by decide)
    rw [hr]
    simp only [deleteReview.commit, ratingsOf, hrr.2]
    decide
  · have hr : deleteReview demoEnv deleteLastReview settledStore =
        deleteReview.commit demoEnv deleteLastReview settledStore demoReview :=
      deleteReview_allowed rfl (by rfl) (by decide)
    have hrr := @reviewRemove_early_average demoEnv settledStore demoReview
      { demoBootcamp with averageCost := some 8000, averageRating := some 8 }
      rfl rfl (by decide) (fun _ => rfl) (by decide) (by decide)
    have ht : ratingsOf settledStore demoBootcamp.id = [8] := by decide
    have hm : mean [8] = 8 := by norm_num [mean]
    rw [hr]
    simp only [deleteReview.commit]
    have h := hrr.1
    rw [show demoReview.bootcamp = demoBootcamp.id from rfl, ht, hm] at h
    exact h

/-- Witness of C29 on the bootcamp of `settledStore` with its course and its
review taken away. -/
theorem getAverage_without_children_witness :
    (Course.aggregate { settledStore with courses := [] } demoBootcamp.id = none ∧
      Course.getAverageCost demoEnv { settledStore with courses := [] } demoBootcamp.id =
        ({ settledStore with courses := [] }, .ok ())) ∧
    (Review.aggregate { settledStore with reviews := [] } demoBootcamp.id = none ∧
      Review.getAverageRating demoEnv { settledStore with reviews := [] } demoBootcamp.id =
        ({ settledStore with reviews := [] }, .ok ())) :=
  ⟨getAverage_without_children.1 demoEnv { settledStore with courses := [] } demoBootcamp.id
      rfl (by decide),
    getAverage_without_children.2.1 demoEnv { settledStore with reviews := [] }
      demoBootcamp.id rfl (by decide)⟩

theorem courseUpdate_bootcamps {env : Env} {s s' : Store} {id : String} {body : Body}
    {doc : Option Course} (h : Course.findByIdAndUpdate env s id body = .ok (s', doc)) :
    s'.bootcamps = s.bootcamps := by
  unfold Course.findByIdAndUpdate at h
  dsimp only at h
  (repeat' split at h) <;> cases h <;> rfl

theorem reviewUpdate_bootcamps {env : Env} {s s' : Store} {id : String} {body : Body}
    {doc : Option Review} (h : Review.findByIdAndUpdate env s id body = .ok (s', doc)) :
    s'.bootcamps = s.bootcamps := by
  unfold Review.findByIdAndUpdate at h
  dsimp only at h
  (repeat' split at h) <;> cases h <;> rfl

theorem updateCourse_bootcamps (env : Env) (req : Req) (s : Store) :
    (updateCourse env req s).2.1.bootcamps = s.bootcamps := by
  cases hf : Course.findById env s req.params.id with
  | error e => simp [updateCourse, asyncHandler, hf]
  | ok found =>
    cases found with
    | none => simp [updateCourse, asyncHandler, hf]
    | some R =>
      cases hu : req.user with
      | none => simp [updateCourse, asyncHandler, hf, hu]
      | some P =>
        by_cases hg : (R.user != P.id && P.role != "admin") = true
        · simp [updateCourse, asyncHandler, hf, hu, hg]
        · cases hup : Course.findByIdAndUpdate env s req.params.id req.body with
          | error e => simp [updateCourse, asyncHandler, hf, hu, hg, hup]
          | ok r =>
            obtain ⟨s', doc⟩ := r
            have hb := courseUpdate_bootcamps hup
            cases doc <;> simp [updateCourse, asyncHandler, hf, hu, hg, hup, hb]

theorem updateReview_bootcamps (env : Env) (req : Req) (s : Store) :
    (updateReview env req s).2.1.bootcamps = s.bootcamps := by
  cases hf : Review.findById env s req.params.id with
  | error e => simp [updateReview, asyncHandler, hf]
  | ok found =>
    cases found with
    | none => simp [updateReview, asyncHandler, hf]
    | some R =>
      cases hu : req.user with
      | none => simp [updateReview, asyncHandler, hf, hu]
      | some P =>
        by_cases hg : (R.user != P.id && P.role != "admin") = true
        · simp [updateReview, asyncHandler, hf, hu, hg]
        · cases hup : Review.findByIdAndUpdate env s req.params.id req.body with
          | error e => simp [updateReview, asyncHandler, hf, hu, hg, hup]
          | ok r =>
            obtain ⟨s', doc⟩ := r
            have hb := reviewUpdate_bootcamps hup
            cases doc <;> simp [updateReview, asyncHandler, hf, hu, hg, hup, hb]

/-- C30. `updateCourse` and `updateReview` never change a bootcamp: for every
request, also one whose body changes the tuition of the course, the rating of
the review or the bootcamp reference of the record, the bootcamps stored after
the update are the bootcamps stored before it, so every stored `averageCost`
and `averageRating` is the same (no recomputation is triggered).  In
`settledStore`, `alice` lowers the tuition of her single course from 8000 to
100: the response is 200 with the new tuition and `averageCost` is still 8000;
`dave` lowers his rating from 8 to 2 and `averageRating` is still 8. -/
theorem update_keeps_averages :
    (∀ (env : Env) (req : Req) (s : Store),
      (updateCourse env req s).2.1.bootcamps = s.bootcamps ∧
      (updateReview env req s).2.1.bootcamps = s.bootcamps ∧
      ∀ id,
        averageCostOf (updateCourse env req s).2.1 id = averageCostOf s id ∧
        averageRatingOf (updateCourse env req s).2.1 id = averageRatingOf s id ∧
        averageCostOf (updateReview env req s).2.1 id = averageCostOf s id ∧
        averageRatingOf (updateReview env req s).2.1 id = averageRatingOf s id) ∧
    ((updateCourse demoEnv cheaperCourse settledStore).2.2 =
        [.json 200 { success := true, data := some (.course { demoCourse with tuition := 100 }) }] ∧
      tuitionsOf (updateCourse demoEnv cheaperCourse settledStore).2.1 demoBootcamp.id = [100] ∧
      averageCostOf (updateCourse demoEnv cheaperCourse settledStore).2.1 demoBootcamp.id =
        some 8000) ∧
    ((updateReview demoEnv lowerRating settledStore).2.2 =
        [.json 200 { success := true, data := some (.review { demoReview with rating := 2 }) }] ∧
      ratingsOf (updateReview demoEnv lowerRating settledStore).2.1 demoBootcamp.id = [2] ∧
      averageRatingOf (updateReview demoEnv lowerRating settledStore).2.1 demoBootcamp.id =
        some 8) := by
  refine ⟨fun env req s => ⟨updateCourse_bootcamps env req s, updateReview_bootcamps env req s,
    fun id => ?_⟩, by decide, by decide⟩
  simp only [averageCostOf, averageRatingOf, updateCourse_bootcamps, updateReview_bootcamps,
    and_self]

end AlgoCamper
